import Mathlib

/-!
# ClassTrack: attendance sessions and the attendance ledger

A shallow embedding of the API handlers of `src/api/src/controllers` over an
explicit document store.  Every handler is a pure function from the store and
the request to a response and the store afterwards.

Conventions of the embedding

* An `ObjectId` is the 12-byte value of a MongoDB id, kept as a natural number.
* A `JsVal` is a JavaScript value as the handlers see it: a request field, an
  id rendered by `toString()`, or an `ObjectId` object handed back by the
  driver.  Strings that spell an ObjectId (24 hex digits, the spelling that
  `ObjectId.prototype.toString` produces) are kept apart from all other
  strings, because Mongoose casts the former and rejects the latter with a
  `CastError`.
* Dates are natural numbers (a clock reading passed to the handler).
* Fresh `_id`s of created documents are drawn from the counter `Db.nextId`.
-/

namespace ClassTrack

/-! ## Values -/

/-- The value of a MongoDB ObjectId. -/
abbrev ObjectId := Nat

/-- JavaScript values that reach the handlers.
`undefined` stands for a missing field (`undefined` or `null`);
`str s` is a string that does not spell an ObjectId;
`hex o` is the 24-digit hex string spelling the ObjectId `o`, in the lower-case
spelling of `toString()`;
`objectId o` is an ObjectId object, as stored documents and the driver carry. -/
inductive JsVal where
  | undefined : JsVal
  | str (s : String) : JsVal
  | hex (o : ObjectId) : JsVal
  | objectId (o : ObjectId) : JsVal
  deriving DecidableEq, Repr

/-- JavaScript truthiness: `undefined`, `null` and the empty string are falsy. -/
def JsVal.truthy : JsVal → Bool
  | .undefined => false
  | .str s => s != ""
  | .hex _ => true
  | .objectId _ => true

/-- The strict equality `===` (and the `SameValueZero` of `Array.prototype.includes`).
Strings are equal by content.  An ObjectId object is an object: it is equal only
to the very same reference, never to a string and never to another object read
from the database, so every comparison with one made by the handlers is false. -/
def JsVal.strictEq : JsVal → JsVal → Bool
  | .undefined, .undefined => true
  | .str a, .str b => a == b
  | .hex a, .hex b => a == b
  | _, _ => false

/-- The call `xs.includes(v)` of JavaScript. -/
def includes (xs : List JsVal) (v : JsVal) : Bool :=
  xs.any (fun x => x.strictEq v)

/-- The call `id.toString()` on an ObjectId: its 24-digit hex spelling. -/
def ObjectId.toJsString (o : ObjectId) : JsVal := .hex o

/-- Mongoose cast of a value to the schema type ObjectId.
`none` is the `CastError` ("Cast to ObjectId failed"), raised for every string
that is not a 24-digit hex string, such as "superadmin" or "hardinstructor".
A missing value is no ObjectId either; what a handler does with one is said
where the handler passes it. -/
def castObjectId : JsVal → Option ObjectId
  | .undefined => none
  | .str _ => none
  | .hex o => some o
  | .objectId o => some o

/-! ## Documents (src/api/src/models) -/

/-- User.js -/
structure User where
  _id : ObjectId
  name : String
  email : String
  passwordHash : String
  role : String
  deriving DecidableEq, Repr

/-- Course.js -/
structure Course where
  _id : ObjectId
  code : String
  name : String
  sections : List ObjectId
  deriving DecidableEq, Repr

/-- Section.js: `instructor` is an optional reference, `hardInstructor`
defaults to false. -/
structure Section where
  _id : ObjectId
  name : String
  course : ObjectId
  instructor : Option ObjectId
  hardInstructor : Bool
  enrolledStudents : List ObjectId
  deriving DecidableEq, Repr

/-- The enum of `Session.status`. -/
inductive SessionStatus where
  | ongoing
  | ended
  deriving DecidableEq, Repr

/-- Session.js (the field `section` is named `sectionRef`, `section` being a
reserved word). -/
structure Session where
  _id : ObjectId
  sectionRef : ObjectId
  course : ObjectId
  instructor : Option ObjectId
  hardInstructor : Bool
  startedBy : JsVal
  startTime : Nat
  endTime : Option Nat
  status : SessionStatus
  cameraLogs : List ObjectId
  deriving DecidableEq, Repr

/-- The enum of `Attendance.status`. -/
inductive AttendanceStatus where
  | present
  | absent
  deriving DecidableEq, Repr

/-- Attendance.js: `section` (here `sectionRef`), `session` and `student` are
required by the schema; validation runs on `create` and `insertMany`, not on
`findOneAndUpdate`, so a stored record may still lack its section. -/
structure Attendance where
  _id : ObjectId
  sectionRef : Option ObjectId
  session : ObjectId
  student : ObjectId
  status : AttendanceStatus
  checkInTime : Option Nat
  deriving DecidableEq, Repr

/-- RfidScan.js -/
structure RfidScan where
  _id : ObjectId
  session : ObjectId
  tag : String
  student : Option ObjectId
  scannedBy : Option ObjectId
  deriving DecidableEq, Repr

/-- CameraLog.js: the sub-document `StudentStatusSchema`. -/
structure StudentStatus where
  id : Nat
  bbox : List Nat
  flags : List String
  suspicious : Bool
  deriving DecidableEq, Repr

/-- CameraLog.js (the fields the handlers set): `session` is required,
`facesDetected` defaults to 0 and `suspicious` to false. -/
structure CameraLog where
  _id : ObjectId
  session : ObjectId
  facesDetected : Nat
  suspicious : Bool
  message : Option String := none
  image : Option String := none
  students : List StudentStatus := []
  deriving DecidableEq, Repr

/-- The document store: one list per collection, in insertion order, and the
source of fresh ids. -/
structure Db where
  users : List User
  courses : List Course
  sections : List Section
  sessions : List Session
  attendance : List Attendance
  rfidScans : List RfidScan
  cameraLogs : List CameraLog
  nextId : ObjectId
  deriving DecidableEq, Repr

/-! ## Requests and responses -/

/-- The object `req.user` that the middleware `auth` attaches.
For a database user `id` is the hex spelling of the document id. -/
structure ReqUser where
  id : JsVal
  name : String
  email : String
  role : String
  isSuperAdmin : Bool
  isHardInstructor : Bool
  deriving DecidableEq, Repr

/-- auth.js lines 15-24: the super admin rebuilt from the token. -/
def superAdminUser (email : String) : ReqUser :=
  { id := .str "superadmin", name := "Super Admin", email := email, role := "admin",
    isSuperAdmin := true, isHardInstructor := false }

/-- auth.js lines 27-36: the hardcoded instructor rebuilt from the token. -/
def hardInstructorUser (email : String) : ReqUser :=
  { id := .str "hardinstructor", name := "Hardcoded Instructor", email := email,
    role := "instructor", isSuperAdmin := false, isHardInstructor := true }

/-- auth.js lines 39-42: a user document loaded from the store. -/
def dbReqUser (u : User) : ReqUser :=
  { id := u._id.toJsString, name := u.name, email := u.email, role := u.role,
    isSuperAdmin := false, isHardInstructor := false }

/-- The three kinds of identity `auth` can attach to a request. -/
inductive Caller where
  | superadmin (email : String)
  | hardinstructor (email : String)
  | dbUser (u : User)
  deriving DecidableEq, Repr

/-- The `req.user` of a caller. -/
def Caller.reqUser : Caller → ReqUser
  | .superadmin e => superAdminUser e
  | .hardinstructor e => hardInstructorUser e
  | .dbUser u => dbReqUser u

/-- A JSON response: the HTTP status and the fields of the body that the
handlers set. -/
structure Response where
  status : Nat
  message : Option String := none
  error : Option String := none
  session : Option Session := none
  attendance : Option Attendance := none
  record : Option Attendance := none
  alreadyMarked : Bool := false
  deriving DecidableEq, Repr

/-! ## Store access (Mongoose) -/

/-- The query `Model.findById(id)`: a missing id finds nothing, an id that does
not cast raises a `CastError` (`none`), otherwise the document with that `_id`. -/
def findById {α : Type} (docs : List α) (getId : α → ObjectId) (id : JsVal) :
    Option (Option α) :=
  match id with
  | .undefined => some none
  | v =>
    match castObjectId v with
    | none => none
    | some o => some (docs.find? (fun d => getId d == o))

/-- Population of `section.course`. -/
def populateCourse (db : Db) (sec : Section) : Option Course :=
  db.courses.find? (fun c => c._id == sec.course)

/-- Population of `section.instructor`: the referenced user document, or null
when there is no reference or the user is gone. -/
def populateInstructor (db : Db) (sec : Section) : Option User :=
  sec.instructor.bind (fun i => db.users.find? (fun u => u._id == i))

/-- Population of `section.enrolledStudents` with `select: "_id"`: the ids of
the referenced users that exist (Mongoose drops references it cannot resolve
from a populated array). -/
def populateEnrolledStudents (db : Db) (sec : Section) : List ObjectId :=
  sec.enrolledStudents.filter (fun i => db.users.any (fun u => u._id == i))

/-- The session `populate({ path: "section" })` loads: null when the section
is gone. -/
def populateSection (db : Db) (session : Session) : Option Section :=
  db.sections.find? (fun x => x._id == session.sectionRef)

/-- Replace the first element satisfying `p` by its image under `f`. -/
def updateFirst {α : Type} (p : α → Bool) (f : α → α) : List α → List α
  | [] => []
  | x :: xs => if p x then f x :: xs else x :: updateFirst p f xs

/-- The 500 response of a `catch` block. -/
def serverError (message error : String) : Response :=
  { status := 500, message := some message, error := some error }

/-! ## attendanceController.js: startSession, endSession -/

/-- The lookup of lines 24-35 of `startSession`: the hardcoded instructor is
matched on the flag `hardInstructor`, every other caller on
`instructor: req.user.id`, which Mongoose casts to ObjectId (`none`: CastError). -/
def findExistingSession (db : Db) (user : ReqUser) : Option (Option Session) :=
  if user.id.strictEq (.str "hardinstructor") then
    some (db.sessions.find? (fun s => s.hardInstructor == true && s.status == .ongoing))
  else
    match castObjectId user.id with
    | none => none
    | some o => some (db.sessions.find? (fun s => s.instructor == some o && s.status == .ongoing))

/-- The document `Session.create(sessionData)` stores: `course` is cast to
ObjectId (`none`: the validation error of a value that does not cast). -/
def createSession (db : Db) (course : JsVal) (sectionId : ObjectId)
    (instructor : Option ObjectId) (hardInstructor : Bool) (startedBy : JsVal) (now : Nat) :
    Option (Session × Db) :=
  match castObjectId course with
  | none => none
  | some c =>
    let session : Session :=
      { _id := db.nextId, sectionRef := sectionId, course := c, instructor := instructor,
        hardInstructor := hardInstructor, startedBy := startedBy, startTime := now,
        endTime := none, status := .ongoing, cameraLogs := [] }
    some (session, { db with sessions := db.sessions ++ [session], nextId := db.nextId + 1 })

/-- Lines 44-71 of `startSession`: create the session and answer 201. -/
def startSessionCreate (db : Db) (user : ReqUser) (finalCourseId : JsVal) (sectionId : ObjectId)
    (instructor : Option ObjectId) (hardInstructor : Bool) (now : Nat) : Response × Db :=
  match createSession db finalCourseId sectionId instructor hardInstructor user.id now with
  | none => (serverError "Error starting session" "Session validation failed", db)
  | some (session, db1) => ({ status := 201, session := some session }, db1)

/-- Line 20 of `startSession`: `courseId || section.course?._id`, with the
section's course populated. -/
def finalCourseId (db : Db) (sec : Section) (courseId : JsVal) : JsVal :=
  if courseId.truthy then courseId
  else match populateCourse db sec with
    | some c => .objectId c._id
    | none => .undefined

/-- The handler `startSession` (attendanceController.js lines 10-78). -/
def startSession (db : Db) (user : ReqUser) (courseId sectionId : JsVal) (now : Nat) :
    Response × Db :=
  match findById db.sections Section._id sectionId with
  | none => (serverError "Error starting session" "Cast to ObjectId failed", db)
  | some none => ({ status := 404, message := some "Section not found" }, db)
  | some (some sec) =>
    let finalCourseId := finalCourseId db sec courseId
    if !finalCourseId.truthy then
      ({ status := 400, message := some "Course information missing" }, db)
    else
      match findExistingSession db user with
      | none => (serverError "Error starting session" "Cast to ObjectId failed", db)
      | some (some existing) =>
        ({ status := 400, message := some "You already have an ongoing session",
           session := some existing }, db)
      | some none =>
        match populateInstructor db sec with
        | some instructor =>
          startSessionCreate db user finalCourseId sec._id (some instructor._id) false now
        | none =>
          -- `section.instructor` is null here, so `section.instructor === "hardinstructor"` is false
          if sec.hardInstructor == true || JsVal.undefined.strictEq (.str "hardinstructor") then
            if !(user.id.strictEq (.str "hardinstructor")) && !user.isSuperAdmin then
              ({ status := 403, message := some "Forbidden to start hardcoded section" }, db)
            else
              startSessionCreate db user finalCourseId sec._id none true now
          else
            ({ status := 400, message := some "Instructor is required." }, db)

/-- Line 94-96 of `endSession`: the enrolled ids as strings. -/
def enrolledStrings (db : Db) (sec : Section) : List JsVal :=
  (populateEnrolledStudents db sec).map ObjectId.toJsString

/-- Lines 97-99 of `endSession`:
`Attendance.find({ session }).distinct("student")`, the distinct values of the
field `student`, which the driver returns as ObjectId objects. -/
def distinctStudents (db : Db) (session : ObjectId) : List JsVal :=
  (((db.attendance.filter (fun a => a.session == session)).map (fun a => a.student)).eraseDups).map
    JsVal.objectId

/-- The call `Attendance.insertMany` of lines 103-110: absent records, one per
id of `students`, with consecutive fresh ids (no call when the list is empty). -/
def insertAbsent (sectionId session : ObjectId) : List ObjectId → Db → Db
  | [], db => db
  | student :: rest, db =>
    insertAbsent sectionId session rest
      { db with
        attendance := db.attendance ++
          [{ _id := db.nextId, sectionRef := some sectionId, session := session,
             student := student, status := .absent, checkInTime := none }],
        nextId := db.nextId + 1 }

/-- The handler `endSession` (attendanceController.js lines 82-127). -/
def endSession (db : Db) (sessionId : JsVal) (now : Nat) : Response × Db :=
  match findById db.sessions Session._id sessionId with
  | none => (serverError "Error ending session" "Cast to ObjectId failed", db)
  | some none => ({ status := 404, message := some "Session not found" }, db)
  | some (some session) =>
    if session.status == .ended then
      ({ status := 400, message := some "Session already ended" }, db)
    else
      match populateSection db session with
      | none => (serverError "Error ending session" "Cannot read properties of null", db)
      | some sec =>
        let enrolled := enrolledStrings db sec
        let present := distinctStudents db session._id
        let missing := enrolled.filter (fun id => !includes present id)
        let db1 := insertAbsent sec._id session._id (missing.filterMap castObjectId) db
        let ended : Session := { session with status := .ended, endTime := some now }
        let db2 := { db1 with
          sessions := updateFirst (fun x => x._id == session._id) (fun _ => ended) db1.sessions }
        ({ status := 200,
           message := some ("Session ended successfully. " ++ toString missing.length ++
             " marked absent."),
           session := some ended }, db2)

/-! ## The hardcoded RFID table (config/rfidMap.js)

The controller imports the table from the server's `config/rfidMap.js`; the
entries are those of `src/client/src/config/rfidMap.js`, the copy of the file
among the sources. -/

/-- An entry of `RFID_MAP`.  The field `student` is a JavaScript value: the
hex string of a user id in the entries of the table. -/
structure RfidEntry where
  name : String
  studentId : String
  student : JsVal
  deriving DecidableEq, Repr

/-- The own properties of the object `RFID_MAP`, in source order. -/
def RFID_MAP : List (String × RfidEntry) :=
  [ ("0000000001", { name := "Ali Alblooshi", studentId := "202102812",
                     student := .hex 0x652ab1234abcde67890f1234 }),
    ("0000000002", { name := "Hamad Alketbi", studentId := "202021767",
                     student := .hex 0x652ab1234abcde67890f1235 }),
    ("0000000003", { name := "Saif Alketbi", studentId := "202022212",
                     student := .hex 0x652ab1234abcde67890f1236 }),
    ("0000000004", { name := "Saif Alkaabi", studentId := "201915236",
                     student := .hex 0x652ab1234abcde67890f1237 }),
    ("0000000005", { name := "Ali Almerri", studentId := "202100588",
                     student := .hex 0x652ab1234abcde67890f1238 }) ]

/-- The expression `Object.values(RFID_MAP).find((e) => e.student === studentId)`. -/
def findInRfidMap (studentId : JsVal) : Option RfidEntry :=
  (RFID_MAP.map Prod.snd).find? (fun e => e.student.strictEq studentId)

/-! ## attendanceController.js: markAttendance, updateAttendanceManually -/

/-- The call `Attendance.findOneAndUpdate({ session, student }, { section, status,
checkInTime }, { upsert: true, new: true })`: the first record of the pair is
overwritten in place, and a record is inserted when the pair has none.  An
undefined `section` is dropped from the update. -/
def upsertAttendance (db : Db) (session student : ObjectId) (sectionId : Option ObjectId)
    (status : AttendanceStatus) (checkInTime : Option Nat) : Attendance × Db :=
  match db.attendance.find? (fun a => a.session == session && a.student == student) with
  | some old =>
    let record : Attendance :=
      { old with sectionRef := sectionId.orElse (fun _ => old.sectionRef), status := status,
                 checkInTime := checkInTime }
    (record, { db with
      attendance := updateFirst (fun a => a.session == session && a.student == student)
        (fun _ => record) db.attendance })
  | none =>
    let record : Attendance :=
      { _id := db.nextId, sectionRef := sectionId, session := session, student := student,
        status := status, checkInTime := checkInTime }
    (record, { db with attendance := db.attendance ++ [record], nextId := db.nextId + 1 })

/-- The handler `markAttendance` (attendanceController.js lines 149-209). -/
def markAttendance (db : Db) (sessionId studentId : JsVal) (now : Nat) : Response × Db :=
  match findById db.sessions Session._id sessionId with
  | none => (serverError "Error marking attendance" "Cast to ObjectId failed", db)
  | some none => ({ status := 404, message := some "Session not found" }, db)
  | some (some session) =>
    match populateSection db session with
    | none => ({ status := 500, message := some "Session missing section" }, db)
    | some sec =>
      let enrolledIds := enrolledStrings db sec
      let isEnrolled := includes enrolledIds studentId || (findInRfidMap studentId).isSome
      if !isEnrolled then
        ({ status := 400, message := some "Student not enrolled" }, db)
      else
        match castObjectId studentId with
        | none => (serverError "Error marking attendance" "Cast to ObjectId failed", db)
        | some student =>
          let upserted :=
            upsertAttendance db session._id student (some sec._id) .present (some now)
          ({ status := 200, attendance := some upserted.1 }, upserted.2)

/-- The handler `updateAttendanceManually` (attendanceController.js lines
533-602).  `status` is the request field: any string. -/
def updateAttendanceManually (db : Db) (sessionId studentId : JsVal) (status : JsVal)
    (now : Nat) : Response × Db :=
  if !includes [.str "present", .str "absent"] status then
    ({ status := 400, message := some "Invalid status" }, db)
  else
    match findById db.sessions Session._id sessionId with
    | none => (serverError "Failed to update attendance" "Cast to ObjectId failed", db)
    | some none => ({ status := 404, message := some "Session not found" }, db)
    | some (some session) =>
      match populateSection db session with
      | none => ({ status := 500, message := some "Session missing section" }, db)
      | some sec =>
        let enrolledIds := enrolledStrings db sec
        let isEnrolled := includes enrolledIds studentId || (findInRfidMap studentId).isSome
        if !isEnrolled then
          ({ status := 400, message := some "Student not enrolled or unknown RFID mapping." }, db)
        else
          match castObjectId studentId with
          | none => (serverError "Failed to update attendance" "Cast to ObjectId failed", db)
          | some student =>
            let isPresent := status.strictEq (.str "present")
            let upserted := upsertAttendance db session._id student (some sec._id)
              (if isPresent then .present else .absent) (if isPresent then some now else none)
            ({ status := 200, message := some "Attendance updated", record := some upserted.1 },
             upserted.2)

/-! ## attendanceController.js: recordRfidScan -/

/-- The properties every object literal inherits from `Object.prototype`; the
lookup `RFID_MAP[tag]` finds them too. -/
def objectPrototypeKeys : List String :=
  ["constructor", "__proto__", "hasOwnProperty", "isPrototypeOf", "propertyIsEnumerable",
   "toLocaleString", "toString", "valueOf", "__defineGetter__", "__defineSetter__",
   "__lookupGetter__", "__lookupSetter__"]

/-- The member access `RFID_MAP[tag]`: an own entry, else an inherited property
of `Object.prototype` (a function or object without the field `student`; its
`name` is given as the template literal of the response renders it), else
undefined. -/
def lookupRfidTag (tag : String) : Option RfidEntry :=
  match RFID_MAP.find? (fun kv => kv.1 == tag) with
  | some kv => some kv.2
  | none =>
    if objectPrototypeKeys.contains tag then
      some { name := if tag == "__proto__" then "undefined"
                     else if tag == "constructor" then "Object" else tag,
             studentId := "undefined", student := .undefined }
    else none

/-- The handler `recordRfidScan` (attendanceController.js lines 407-472).
`tag` is the request field (`none` when absent), `scannedBy` is `req.user?._id`. -/
def recordRfidScan (db : Db) (scannedBy : Option ObjectId) (sessionId : JsVal)
    (tag : Option String) (now : Nat) : Response × Db :=
  match tag with
  | none => ({ status := 400, message := some "RFID tag is required" }, db)
  | some tag =>
    if tag == "" then ({ status := 400, message := some "RFID tag is required" }, db)
    else
      match findById db.sessions Session._id sessionId with
      | none => (serverError "RFID scan failed" "Cast to ObjectId failed", db)
      | some none => ({ status := 404, message := some "Session not found" }, db)
      | some (some session) =>
        match lookupRfidTag tag with
        | none => ({ status := 400, message := some ("Unknown RFID tag: " ++ tag) }, db)
        | some mapped =>
          let scan : RfidScan :=
            { _id := db.nextId, session := session._id, tag := tag.trim,
              student := castObjectId mapped.student, scannedBy := scannedBy }
          let db1 := { db with rfidScans := db.rfidScans ++ [scan], nextId := db.nextId + 1 }
          let sec := populateSection db session
          let enrolledIds := match sec with
            | some x => enrolledStrings db x
            | none => []
          let isEnrolled := includes enrolledIds mapped.student ||
            (findInRfidMap mapped.student).isSome
          if isEnrolled then
            match castObjectId mapped.student with
            | none => (serverError "RFID scan failed" "Cast to ObjectId failed", db1)
            | some student =>
              let upserted := upsertAttendance db1 session._id student
                (sec.map (fun x => x._id)) .present (some now)
              ({ status := 200, message := some ("RFID recorded for " ++ mapped.name) },
               upserted.2)
          else
            ({ status := 200, message := some ("RFID recorded for " ++ mapped.name) }, db1)

/-! ## externalController.js: externalMarkAttendance -/

/-- The call `Attendance.create(doc)`: the schema requires `section`, so a
document without one fails validation (`none`) and nothing is stored. -/
def createAttendance (db : Db) (sectionRef : Option ObjectId) (session student : ObjectId)
    (status : AttendanceStatus) (checkInTime : Option Nat) : Option (Attendance × Db) :=
  match sectionRef with
  | none => none
  | some sectionId =>
    let record : Attendance :=
      { _id := db.nextId, sectionRef := some sectionId, session := session, student := student,
        status := status, checkInTime := checkInTime }
    some (record, { db with attendance := db.attendance ++ [record], nextId := db.nextId + 1 })

/-- The handler `externalMarkAttendance` (externalController.js lines 50-93).
The document passed to `Attendance.create` carries no `section`. -/
def externalMarkAttendance (db : Db) (sessionId studentId : JsVal) (now : Nat) :
    Response × Db :=
  if !sessionId.truthy || !studentId.truthy then
    ({ status := 400, message := some "sessionId and studentId required" }, db)
  else
    match findById db.sessions Session._id sessionId with
    | none => (serverError "Server error" "Cast to ObjectId failed", db)
    | some none => ({ status := 404, message := some "Session not found" }, db)
    | some (some session) =>
      match findById db.users User._id studentId with
      | none => (serverError "Server error" "Cast to ObjectId failed", db)
      | some none => ({ status := 404, message := some "Student not found" }, db)
      | some (some student) =>
        match db.attendance.find?
            (fun a => a.session == session._id && a.student == student._id) with
        | some record => ({ status := 200, attendance := some record, alreadyMarked := true }, db)
        | none =>
          match createAttendance db none session._id student._id .present (some now) with
          | none => (serverError "Server error" "Attendance validation failed", db)
          | some (record, db1) => ({ status := 201, attendance := some record }, db1)

/-! ## adminController.js: createSection, assignInstructor -/

/-- The handler `createSection` (adminController.js lines 65-107).  The
response carries the stored section. -/
def createSection (db : Db) (courseId : JsVal) (name : String) (instructorId : JsVal) :
    (Response × Option Section) × Db :=
  if !courseId.truthy || name == "" then
    (({ status := 400, message := some "Course & section name required" }, none), db)
  else
    -- sectionData.instructor, sectionData.hardInstructor (undefined fields take the defaults)
    let binding : Option JsVal × Bool :=
      if instructorId.strictEq (.str "hardinstructor") then (none, true)
      else if instructorId.truthy then (some instructorId, false)
      else (none, false)
    match castObjectId courseId, binding.1.map castObjectId with
    | none, _ => ((serverError "Error creating section" "Section validation failed", none), db)
    | some _, some none =>
      ((serverError "Error creating section" "Section validation failed", none), db)
    | some course, instructor =>
      let sec : Section :=
        { _id := db.nextId, name := name, course := course, instructor := instructor.join,
          hardInstructor := binding.2, enrolledStudents := [] }
      let db1 := { db with
        sections := db.sections ++ [sec],
        courses := updateFirst (fun c => c._id == course)
          (fun c => { c with sections := c.sections ++ [sec._id] }) db.courses,
        nextId := db.nextId + 1 }
      (({ status := 201 }, some sec), db1)

/-- The call `Section.findByIdAndUpdate(sectionId, { instructor, hardInstructor },
{ new: true })`: the updated section, or null when there is none. -/
def updateSectionInstructor (db : Db) (sectionId : ObjectId) (instructor : Option ObjectId)
    (hardInstructor : Bool) : Option Section × Db :=
  match db.sections.find? (fun x => x._id == sectionId) with
  | none => (none, db)
  | some old =>
    let sec : Section := { old with instructor := instructor, hardInstructor := hardInstructor }
    (some sec, { db with
      sections := updateFirst (fun x => x._id == sectionId) (fun _ => sec) db.sections })

/-- The handler `assignInstructor` (adminController.js lines 148-186).  The
response carries the stored section. -/
def assignInstructor (db : Db) (sectionId : JsVal) (instructorId : JsVal) :
    (Response × Option Section) × Db :=
  match castObjectId sectionId with
  | none => ((serverError "Error assigning instructor" "Cast to ObjectId failed", none), db)
  | some sid =>
    if !instructorId.truthy then
      match updateSectionInstructor db sid none false with
      | (none, db1) =>
        ((serverError "Error assigning instructor" "Cannot set properties of null", none), db1)
      | (some sec, db1) => (({ status := 200 }, some sec), db1)
    else if instructorId.strictEq (.str "hardinstructor") then
      match updateSectionInstructor db sid none true with
      | (none, db1) =>
        ((serverError "Error assigning instructor" "Cannot set properties of null", none), db1)
      | (some sec, db1) => (({ status := 200 }, some sec), db1)
    else
      match castObjectId instructorId with
      | none => ((serverError "Error assigning instructor" "Cast to ObjectId failed", none), db)
      | some instructor =>
        match updateSectionInstructor db sid (some instructor) false with
        | (sec, db1) => (({ status := 200 }, sec), db1)

/-- The two requests that write a section's instructor assignment. -/
inductive SectionRequest where
  | create (courseId : JsVal) (name : String) (instructorId : JsVal)
  | assign (sectionId : JsVal) (instructorId : JsVal)
  deriving DecidableEq, Repr

/-- The field `instructorId` of the request body. -/
def SectionRequest.instructorId : SectionRequest → JsVal
  | .create _ _ i => i
  | .assign _ i => i

/-- Run `createSection` or `assignInstructor`. -/
def SectionRequest.run (db : Db) : SectionRequest → (Response × Option Section) × Db
  | .create courseId name instructorId => createSection db courseId name instructorId
  | .assign sectionId instructorId => assignInstructor db sectionId instructorId

/-- The status with which a section request is accepted: 201 for
`createSection`, 200 for `assignInstructor`. -/
def SectionRequest.okStatus : SectionRequest → Nat
  | .create _ _ _ => 201
  | .assign _ _ => 200

/-! ## Sequences of API calls -/

/-- A call of one of the embedded handlers, with its caller and request. -/
inductive ApiCall where
  | startSession (caller : Caller) (courseId sectionId : JsVal) (now : Nat)
  | endSession (sessionId : JsVal) (now : Nat)
  | markAttendance (sessionId studentId : JsVal) (now : Nat)
  | updateAttendanceManually (sessionId studentId status : JsVal) (now : Nat)
  | recordRfidScan (caller : Caller) (sessionId : JsVal) (tag : Option String) (now : Nat)
  | externalMarkAttendance (sessionId studentId : JsVal) (now : Nat)
  | createSection (courseId : JsVal) (name : String) (instructorId : JsVal)
  | assignInstructor (sectionId : JsVal) (instructorId : JsVal)
  deriving DecidableEq, Repr

/-- The value `req.user?._id`: the document id of a database user; the two
hardcoded identities have no `_id`. -/
def Caller.docId : Caller → Option ObjectId
  | .dbUser u => some u._id
  | _ => none

/-- The store after a call. -/
def ApiCall.apply (db : Db) : ApiCall → Db
  | .startSession caller courseId sectionId now =>
    (ClassTrack.startSession db caller.reqUser courseId sectionId now).2
  | .endSession sessionId now => (ClassTrack.endSession db sessionId now).2
  | .markAttendance sessionId studentId now => (ClassTrack.markAttendance db sessionId studentId now).2
  | .updateAttendanceManually sessionId studentId status now =>
    (ClassTrack.updateAttendanceManually db sessionId studentId status now).2
  | .recordRfidScan caller sessionId tag now =>
    (ClassTrack.recordRfidScan db caller.docId sessionId tag now).2
  | .externalMarkAttendance sessionId studentId now =>
    (ClassTrack.externalMarkAttendance db sessionId studentId now).2
  | .createSection courseId name instructorId => (ClassTrack.createSection db courseId name instructorId).2
  | .assignInstructor sectionId instructorId => (ClassTrack.assignInstructor db sectionId instructorId).2

/-- The store after a sequence of calls, one after the other. -/
def runCalls (db : Db) (calls : List ApiCall) : Db :=
  calls.foldl ApiCall.apply db

/-- The attendance records of a (session, student) pair. -/
def pairRecords (db : Db) (session student : ObjectId) : List Attendance :=
  db.attendance.filter (fun a => a.session == session && a.student == student)

/-- The students of the absent records of a session, in ledger order. -/
def absentStudents (db : Db) (session : ObjectId) : List ObjectId :=
  (db.attendance.filter (fun a => a.session == session && a.status == .absent)).map
    (fun a => a.student)

/-- An instructor identity a session can be bound to: a real instructor id, or
the hardcoded instructor. -/
inductive InstructorIdentity where
  | real (id : ObjectId)
  | hardcoded
  deriving DecidableEq, Repr

/-- The session is bound to the identity: `instructor` is the real id, or the
flag `hardInstructor` is set. -/
def InstructorIdentity.boundTo : InstructorIdentity → Session → Bool
  | .real id, s => s.instructor == some id
  | .hardcoded, s => s.hardInstructor == true

/-- The `req.user.id` of the identity. -/
def InstructorIdentity.userId : InstructorIdentity → JsVal
  | .real id => id.toJsString
  | .hardcoded => .str "hardinstructor"

/-- The ongoing sessions bound to an identity. -/
def ongoingBoundTo (db : Db) (i : InstructorIdentity) : List Session :=
  db.sessions.filter (fun s => s.status == .ongoing && i.boundTo s)

/-- The ongoing sessions bound to an identity that the identity started itself. -/
def ongoingStartedBy (db : Db) (i : InstructorIdentity) : List Session :=
  db.sessions.filter (fun s => s.status == .ongoing && i.boundTo s && s.startedBy == i.userId)

/-- A session without its camera log references. -/
def Session.core (s : Session) : Session := { s with cameraLogs := [] }

/-- The states the API reaches from a store without sessions: by calls of the
embedded handlers, and by the remaining handlers, which leave every session as
it is but for the camera log references the camera handlers push. -/
inductive Reachable : Db → Prop where
  | init (db : Db) : db.sessions = [] → Reachable db
  | call (db : Db) (c : ApiCall) : Reachable db → Reachable (c.apply db)
  | other (db db1 : Db) :
      Reachable db → db1.sessions.map Session.core = db.sessions.map Session.core → Reachable db1

/-- The caller has an ongoing session of its own, as `startSession` looks for
it: flagged `hardInstructor` for the hardcoded instructor, with `instructor`
equal to the caller id for every other caller. -/
def hasOngoingSession (db : Db) (user : ReqUser) : Prop :=
  ∃ s ∈ db.sessions, s.status = .ongoing ∧
    (if user.id = .str "hardinstructor" then s.hardInstructor = true
     else s.instructor.map ObjectId.toJsString = some user.id)

/-- Repeated `markAttendance`: one call per clock reading of `times`, on the
same (session, student) pair; the responses are collected in order. -/
def markRepeatedly (sessionId studentId : JsVal) : List Nat → Db → List Response × Db
  | [], db => ([], db)
  | now :: rest, db =>
    let first := markAttendance db sessionId studentId now
    let others := markRepeatedly sessionId studentId rest first.2
    (first.1 :: others.1, others.2)

/-- The session document `startSession` stores (lines 44-70). -/
def newSession (db : Db) (user : ReqUser) (sec : Section) (course : ObjectId)
    (instructor : Option ObjectId) (hardInstructor : Bool) (now : Nat) : Session :=
  { _id := db.nextId, sectionRef := sec._id, course := course, instructor := instructor,
    hardInstructor := hardInstructor, startedBy := user.id, startTime := now,
    endTime := none, status := .ongoing, cameraLogs := [] }

/-- Exactly one of: the instructor reference is set, the flag `hardInstructor`
is true. -/
def Section.exactlyOneAssignment (sec : Section) : Bool :=
  xor sec.instructor.isSome sec.hardInstructor

/-- The test of `ongoingStartedBy`. -/
def ownOngoing (i : InstructorIdentity) (s : Session) : Bool :=
  s.status == .ongoing && i.boundTo s && s.startedBy == i.userId

/-! ## Example stores -/

/-- A user document. -/
def mkUser (id : ObjectId) (role : String) : User :=
  { _id := id, name := "user", email := "user@example.com", passwordHash := "", role := role }

/-- Students 1, 2, 3 and instructors 5, 6; course 20; section 10 of instructor
5 enrolling the three students; section 11 flagged `hardInstructor`; section 12
unassigned. -/
def exampleDb : Db :=
  { users := [mkUser 1 "student", mkUser 2 "student", mkUser 3 "student",
              mkUser 5 "instructor", mkUser 6 "instructor"],
    courses := [{ _id := 20, code := "CS101", name := "Intro", sections := [10, 11, 12] }],
    sections :=
      [{ _id := 10, name := "A", course := 20, instructor := some 5, hardInstructor := false,
         enrolledStudents := [1, 2, 3] },
       { _id := 11, name := "B", course := 20, instructor := none, hardInstructor := true,
         enrolledStudents := [1] },
       { _id := 12, name := "C", course := 20, instructor := none, hardInstructor := false,
         enrolledStudents := [] }],
    sessions := [], attendance := [], rfidScans := [], cameraLogs := [], nextId := 100 }

/-- Section 10 of `exampleDb`. -/
def exampleSection10 : Section :=
  { _id := 10, name := "A", course := 20, instructor := some 5, hardInstructor := false,
    enrolledStudents := [1, 2, 3] }

/-- Section 12 of `exampleDb`, unassigned. -/
def exampleSection12 : Section :=
  { _id := 12, name := "C", course := 20, instructor := none, hardInstructor := false,
    enrolledStudents := [] }

/-- The session instructor 5 starts on section 10 at time 1000. -/
def exampleSession : Session :=
  { _id := 100, sectionRef := 10, course := 20, instructor := some 5, hardInstructor := false,
    startedBy := .hex 5, startTime := 1000, endTime := none, status := .ongoing,
    cameraLogs := [] }

/-- Instructor 5 has started a session (id 100) on section 10. -/
def exampleStarted : Db :=
  runCalls exampleDb [.startSession (.dbUser (mkUser 5 "instructor")) .undefined (.hex 10) 1000]

/-- Instructor 5 starts a session (id 100) on section 10 and marks student 1
present. -/
def exampleMarked : Db :=
  runCalls exampleDb
    [.startSession (.dbUser (mkUser 5 "instructor")) .undefined (.hex 10) 1000,
     .markAttendance (.hex 100) (.hex 1) 1001]

/-- The session of `exampleMarked` has been ended at time 1002. -/
def exampleEnded : Db :=
  runCalls exampleMarked [.endSession (.hex 100) 1002]

/-! ## Configuration (process.env) -/

/-- The environment variables the handlers read; `none` is an unset variable. -/
structure Env where
  ADMIN_EMAIL : Option String
  ADMIN_PASSWORD : Option String
  INSTRUCTOR_EMAIL : Option String
  INSTRUCTOR_PASSWORD : Option String
  JWT_SECRET : Option String
  SESSION_API_KEY : Option String
  deriving DecidableEq, Repr

/-! ## attendanceController.js: repeated manual updates -/

/-- Repeated `updateAttendanceManually`: one call per (status, clock reading)
of `calls`, on the same (session, student) pair; the responses are collected
in order. -/
def updateRepeatedly (sessionId studentId : JsVal) : List (JsVal × Nat) → Db → List Response × Db
  | [], db => ([], db)
  | (status, now) :: rest, db =>
    let first := updateAttendanceManually db sessionId studentId status now
    let others := updateRepeatedly sessionId studentId rest first.2
    (first.1 :: others.1, others.2)

/-- The attendance status a valid request status stands for. -/
def statusOfRequest (status : JsVal) : AttendanceStatus :=
  if status.strictEq (.str "present") then .present else .absent

/-! ## Camera handlers -/

/-- The body of the answer of the face-detection service, as far as the
handlers read it. -/
structure FlaskData where
  facesDetected : Option Nat
  faces_detected : Option Nat
  students : Option (List StudentStatus)
  message : Option String
  image : Option String
  deriving DecidableEq, Repr

/-- The JSON answer of a camera handler. -/
structure CameraResponse where
  status : Nat
  message : Option String := none
  error : Option String := none
  details : Option String := none
  success : Bool := false
  log : Option CameraLog := none
  deriving DecidableEq, Repr

/-- The call `CameraLog.create(doc)`: `session` is required and cast to
ObjectId; a document without it, or with a value that does not cast, fails
validation (`none`) and nothing is stored. -/
def createCameraLog (db : Db) (session : JsVal) (facesDetected : Nat) (suspicious : Bool)
    (message image : Option String) (students : List StudentStatus) : Option (CameraLog × Db) :=
  match castObjectId session with
  | none => none
  | some sid =>
    let log : CameraLog :=
      { _id := db.nextId, session := sid, facesDetected := facesDetected,
        suspicious := suspicious, message := message, image := image, students := students }
    some (log, { db with cameraLogs := db.cameraLogs ++ [log], nextId := db.nextId + 1 })

/-- The call `Session.findByIdAndUpdate(id, { $push: { cameraLogs: logId } })`:
the session with that id, if there is one, gets the reference appended. -/
def pushCameraLog (db : Db) (sessionId : ObjectId) (logId : ObjectId) : Db :=
  { db with
    sessions := updateFirst (fun s => s._id == sessionId)
      (fun s => { s with cameraLogs := s.cameraLogs ++ [logId] }) db.sessions }

/-- The handler `captureFrame` of attendanceController.js (lines 316-358).
`flask` is the answer of the face-detection service, `none` when the request to
it fails. -/
def captureFrame (db : Db) (sessionId : JsVal) (image : Option String)
    (flask : Option FlaskData) : CameraResponse × Db :=
  match image with
  | none => ({ status := 400, error := some "No image provided" }, db)
  | some image =>
    if image == "" then ({ status := 400, error := some "No image provided" }, db)
    else
      match flask with
      | none =>
        ({ status := 500, error := some "Failed to process frame",
           details := some "request failed" }, db)
      | some data =>
        let facesDetected := (data.facesDetected.orElse (fun _ => data.faces_detected)).getD 0
        let students := data.students.getD []
        let message :=
          match data.message with
          | some m => if m == "" then none else some m
          | none => none
        let dataImage :=
          match data.image with
          | some i => if i == "" then none else some i
          | none => none
        match createCameraLog db sessionId facesDetected (students.any (fun x => x.suspicious))
            (some (message.getD
              (if facesDetected == 0 then "⚠️ No faces detected"
               else "✅ " ++ toString facesDetected ++ " faces detected")))
            (some (dataImage.getD image)) students with
        | none =>
          ({ status := 500, error := some "Failed to process frame",
             details := some "CameraLog validation failed" }, db)
        | some created =>
          ({ status := 200, success := true, log := some created.1 },
           pushCameraLog created.2 created.1.session created.1._id)

/-- The handler `captureFrame` of sessionController.js (lines 7-45): the log
keeps the face count, the flag "more than one face" and the message; `boxes` is
no path of the schema and is dropped. -/
def sessionCaptureFrame (db : Db) (id : JsVal) (image : Option String)
    (flask : Option FlaskData) : CameraResponse × Db :=
  match image with
  | none => ({ status := 400, message := some "No image provided" }, db)
  | some image =>
    if image == "" then ({ status := 400, message := some "No image provided" }, db)
    else
      match flask with
      | none =>
        ({ status := 500, message := some "Error capturing frame",
           error := some "request failed" }, db)
      | some data =>
        let multiple := decide (1 < data.faces_detected.getD 0)
        match createCameraLog db id (data.faces_detected.getD 0) multiple
            (some (if multiple then "⚠️ Possible cheating (multiple faces detected)"
                   else "✅ Normal behavior")) none [] with
        | none =>
          ({ status := 500, message := some "Error capturing frame",
             error := some "CameraLog validation failed" }, db)
        | some created =>
          ({ status := 200, log := some created.1 },
           pushCameraLog created.2 created.1.session created.1._id)

/-- The handler `logCameraEvent` of cameraController.js (lines 6-27).  The
document passed to `CameraLog.create` has the keys `sessionId`, `facesDetected`
and `flags`: it carries no `session`, the path the schema requires. -/
def logCameraEvent (db : Db) (sessionId : JsVal) (facesDetected : Option Nat) :
    CameraResponse × Db :=
  match createCameraLog db .undefined (facesDetected.getD 0) false none none [] with
  | none => ({ status := 500, message := some "Error saving log" }, db)
  | some created =>
    match castObjectId sessionId with
    | none => ({ status := 500, message := some "Error saving log" }, created.2)
    | some sid =>
      ({ status := 200, message := some "Log saved", log := some created.1 },
       pushCameraLog created.2 sid created.1._id)

/-- A call of one of the three camera handlers. -/
inductive CameraCall where
  | captureFrame (sessionId : JsVal) (image : Option String) (flask : Option FlaskData)
  | sessionCaptureFrame (id : JsVal) (image : Option String) (flask : Option FlaskData)
  | logCameraEvent (sessionId : JsVal) (facesDetected : Option Nat)
  deriving DecidableEq, Repr

/-- The answer and the store after a camera call. -/
def CameraCall.run (db : Db) : CameraCall → CameraResponse × Db
  | .captureFrame sessionId image flask => ClassTrack.captureFrame db sessionId image flask
  | .sessionCaptureFrame id image flask => ClassTrack.sessionCaptureFrame db id image flask
  | .logCameraEvent sessionId facesDetected => ClassTrack.logCameraEvent db sessionId facesDetected

/-- The id of the session a camera call names. -/
def CameraCall.target : CameraCall → JsVal
  | .captureFrame sessionId _ _ => sessionId
  | .sessionCaptureFrame id _ _ => id
  | .logCameraEvent sessionId _ => sessionId

/-- A session after a camera call: as before, or, for the session the call
names, with log references appended. -/
def cameraLogsAppended (target : JsVal) (before after : Session) : Prop :=
  after = before ∨
    (castObjectId target = some before._id ∧
      ∃ logs, after = { before with cameraLogs := before.cameraLogs ++ logs })

/-! ## adminController.js: deleteSection, deleteUser -/

/-- The handler `deleteSection` (adminController.js lines 130-145): the section
document is removed and its id pulled from the course; sessions and attendance
records that refer to the section stay. -/
def deleteSection (db : Db) (sectionId : JsVal) : Response × Db :=
  match findById db.sections Section._id sectionId with
  | none => (serverError "Error deleting section" "Cast to ObjectId failed", db)
  | some none => ({ status := 404, message := some "Section not found" }, db)
  | some (some sec) =>
    ({ status := 200, message := some "Section deleted" },
     { db with
       sections := db.sections.filter (fun x => x._id != sec._id),
       courses := updateFirst (fun c => c._id == sec.course)
         (fun c => { c with sections := c.sections.filter (fun i => i != sec._id) })
         db.courses })

/-- The handler `deleteUser` (adminController.js lines 402-414): the user
document is removed; references to the user stay. -/
def deleteUser (db : Db) (id : JsVal) : Response × Db :=
  match findById db.users User._id id with
  | none => (serverError "Error deleting user" "Cast to ObjectId failed", db)
  | some none => ({ status := 404, message := some "User not found" }, db)
  | some (some user) =>
    ({ status := 200, message := some "User deleted" },
     { db with users := db.users.filter (fun u => u._id != user._id) })

/-- A call of any embedded handler that writes the store. -/
inductive HandlerCall where
  | api (c : ApiCall)
  | camera (c : CameraCall)
  | deleteSection (sectionId : JsVal)
  | deleteUser (id : JsVal)
  deriving DecidableEq, Repr

/-- The store after a call. -/
def HandlerCall.apply (db : Db) : HandlerCall → Db
  | .api c => c.apply db
  | .camera c => (c.run db).2
  | .deleteSection sectionId => (ClassTrack.deleteSection db sectionId).2
  | .deleteUser id => (ClassTrack.deleteUser db id).2

/-- The call is a call of `endSession`. -/
def HandlerCall.isEndSession : HandlerCall → Bool
  | .api (.endSession _ _) => true
  | _ => false

/-- What a handler call may do to a session that exists before it: the id
stays, an ended session stays ended, and unless the call is `endSession` the
status and end time stay and at most camera log references are appended. -/
def sessionStep (c : HandlerCall) (before after : Session) : Prop :=
  after._id = before._id ∧
    (before.status = .ended → after.status = .ended) ∧
    (c.isEndSession = false →
      after.status = before.status ∧ after.endTime = before.endTime ∧
        ∃ logs, after = { before with cameraLogs := before.cameraLogs ++ logs })

/-- The store after a sequence of handler calls, one after the other. -/
def runHandlers (db : Db) (calls : List HandlerCall) : Db :=
  calls.foldl HandlerCall.apply db

/-! ## middleware/apiKey.js: requireApiKey -/

/-- A value of `req.query.key` or of the header `x-api-key`: missing, a
string, or (for a repeated or nested query parameter) an array or object. -/
inductive KeyValue where
  | missing
  | text (s : String)
  | nonString
  deriving DecidableEq, Repr

/-- JavaScript truthiness of a key value. -/
def KeyValue.truthy : KeyValue → Bool
  | .missing => false
  | .text s => s != ""
  | .nonString => true

/-- The comparison `key !== process.env.SESSION_API_KEY`. -/
def KeyValue.differsFrom (key : KeyValue) (configured : Option String) : Bool :=
  match key, configured with
  | .text s, some c => s != c
  | .missing, none => false
  | _, _ => true

/-- What a middleware does with a request: pass it on, or answer it. -/
inductive Guard where
  | next
  | respond (status : Nat) (message : String)
  deriving DecidableEq, Repr

/-- Line 5 of `requireApiKey`: `req.query.key || req.headers["x-api-key"]`. -/
def requestKey (queryKey headerKey : KeyValue) : KeyValue :=
  if queryKey.truthy then queryKey else headerKey

/-- The middleware `requireApiKey` (apiKey.js lines 4-16). -/
def requireApiKey (env : Env) (queryKey headerKey : KeyValue) : Guard :=
  let key := requestKey queryKey headerKey
  if !key.truthy then .respond 401 "API key required"
  else if key.differsFrom env.SESSION_API_KEY then .respond 403 "Forbidden. Invalid API key."
  else .next

/-! ## authController.js: login -/

/-- The payload `jwt.sign` is given. -/
structure TokenPayload where
  id : JsVal
  role : String
  name : String
  email : Option String
  deriving DecidableEq, Repr

/-- A signed token: its payload and the secret it was signed with. -/
structure Token where
  payload : TokenPayload
  secret : String
  deriving DecidableEq, Repr

/-- The call `jwt.sign(payload, process.env.JWT_SECRET, ...)`: it throws
(`none`) when the secret is unset or empty. -/
def jwtSign (secret : Option String) (payload : TokenPayload) : Option Token :=
  match secret with
  | none => none
  | some k => if k == "" then none else some { payload := payload, secret := k }

/-- The object `user` of the answers of `login`. -/
structure AuthUser where
  id : JsVal
  name : String
  email : Option String
  role : String
  deriving DecidableEq, Repr

/-- The JSON answer of `login`. -/
structure AuthResponse where
  status : Nat
  message : Option String := none
  user : Option AuthUser := none
  token : Option Token := none
  deriving DecidableEq, Repr

/-- The answer of `login` for an identity: the token of the payload and the
user object, or 500 "Server error" when signing throws. -/
def loginAnswer (env : Env) (id : JsVal) (name : String) (email : Option String)
    (role : String) : AuthResponse :=
  match jwtSign env.JWT_SECRET { id := id, role := role, name := name, email := email } with
  | none => { status := 500, message := some "Server error" }
  | some token =>
    { status := 200, user := some { id := id, name := name, email := email, role := role },
      token := some token }

/-- The handler `login` (authController.js lines 54-120).  `email` and
`password` are the request fields, `none` when absent; `compare` is
`bcrypt.compare`; the query `User.findOne({ email })` lower-cases its value as
the schema of `email` says. -/
def login (env : Env) (users : List User) (compare : String → String → Bool)
    (email password : Option String) : AuthResponse :=
  if email = env.ADMIN_EMAIL ∧ password = env.ADMIN_PASSWORD then
    loginAnswer env (.str "superadmin") "Super Admin" email "admin"
  else if email = env.INSTRUCTOR_EMAIL ∧ password = env.INSTRUCTOR_PASSWORD then
    loginAnswer env (.str "hardinstructor") "Hardcoded Instructor" email "instructor"
  else
    match email.bind (fun e => users.find? (fun u => u.email == e.toLower)) with
    | none => { status := 401, message := some "Invalid credentials" }
    | some user =>
      match password with
      | none => { status := 500, message := some "Server error" }
      | some pw =>
        if !compare pw user.passwordHash then
          { status := 401, message := some "Invalid credentials" }
        else
          loginAnswer env (.objectId user._id) user.name (some user.email) user.role

/-! ## attendanceController.js: getSessionById, getSessionDetails -/

/-- An instructor object of a response: a populated user (`name email`) or the
synthesized stand-in. -/
structure InstructorView where
  _id : JsVal
  name : String
  email : Option String
  deriving DecidableEq, Repr

/-- A session as the read handlers return it: the stored document with its
references populated. -/
structure SessionView where
  session : Session
  course : Option (String × String)
  sectionName : Option String
  instructor : Option InstructorView
  cameraLogs : List CameraLog
  deriving DecidableEq, Repr

/-- The JSON answer of a session read. -/
structure SessionReadResponse where
  status : Nat
  message : Option String := none
  error : Option String := none
  session : Option SessionView := none
  deriving DecidableEq, Repr

/-- The stand-in the read handlers synthesize (lines 299-303 and 390-394). -/
def standInInstructor (env : Env) : InstructorView :=
  { _id := .str "hardinstructor", name := "Hardcoded Instructor", email := env.INSTRUCTOR_EMAIL }

/-- Population of `session.instructor` with `name email`: null when there is
no reference or the user is gone. -/
def populateSessionInstructor (db : Db) (session : Session) : Option InstructorView :=
  session.instructor.bind (fun i =>
    (db.users.find? (fun u => u._id == i)).map
      (fun u => { _id := .objectId u._id, name := u.name, email := some u.email }))

/-- Lines 298-304 and 389-395: `if (session.hardInstructor || !session.instructor)`
the instructor is replaced by the stand-in. -/
def returnedInstructor (env : Env) (db : Db) (session : Session) : Option InstructorView :=
  if session.hardInstructor || (populateSessionInstructor db session).isNone then
    some (standInInstructor env)
  else populateSessionInstructor db session

/-- The populated view of a session, `cameraLogs` populated on request. -/
def sessionView (env : Env) (db : Db) (session : Session) (withLogs : Bool) : SessionView :=
  { session := session,
    course := (db.courses.find? (fun c => c._id == session.course)).map
      (fun c => (c.name, c.code)),
    sectionName := (populateSection db session).map (fun x => x.name),
    instructor := returnedInstructor env db session,
    cameraLogs :=
      if withLogs then
        session.cameraLogs.filterMap (fun i => db.cameraLogs.find? (fun l => l._id == i))
      else [] }

/-- The handler `getSessionById` (attendanceController.js lines 286-313). -/
def getSessionById (env : Env) (db : Db) (id : JsVal) : SessionReadResponse :=
  match findById db.sessions Session._id id with
  | none =>
    { status := 500, message := some "Error fetching session",
      error := some "Cast to ObjectId failed" }
  | some none => { status := 404, message := some "Session not found" }
  | some (some session) => { status := 200, session := some (sessionView env db session true) }

/-- The handler `getSessionDetails` (attendanceController.js lines 374-405). -/
def getSessionDetails (env : Env) (db : Db) (sessionId : JsVal) : SessionReadResponse :=
  match findById db.sessions Session._id sessionId with
  | none =>
    { status := 500, message := some "Error retrieving session details",
      error := some "Cast to ObjectId failed" }
  | some none => { status := 404, message := some "Session not found" }
  | some (some session) => { status := 200, session := some (sessionView env db session false) }

/-- The two read handlers. -/
inductive SessionRead where
  | byId
  | details
  deriving DecidableEq, Repr

/-- Run `getSessionById` or `getSessionDetails`. -/
def SessionRead.run (env : Env) (db : Db) (id : JsVal) : SessionRead → SessionReadResponse
  | .byId => getSessionById env db id
  | .details => getSessionDetails env db id

/-- The instructor a session read returns. -/
def SessionRead.instructor (r : SessionRead) (env : Env) (db : Db) (id : JsVal) :
    Option InstructorView :=
  (r.run env db id).session.bind (fun v => v.instructor)

/-! ## middleware/auth.js: requireRole -/

/-- The middleware `requireRole(...roles)` (auth.js lines 49-71); `user` is
`req.user`, `none` when no user is attached to the request. -/
def requireRole (roles : List String) (user : Option ReqUser) : Guard :=
  match user with
  | none => .respond 403 "No user in request"
  | some u =>
    if u.isSuperAdmin then .next
    else if u.isHardInstructor && roles.contains "instructor" then .next
    else if !roles.contains u.role then .respond 403 "Forbidden: insufficient permissions"
    else .next

/-! ## authController.js: register -/

/-- The field `role` of a request body, a JSON value: a falsy value (absent,
null, the empty string, 0, false), a non-empty string, an object whose `_id` is
the given non-empty string, or any other value. -/
inductive RoleField where
  | missing
  | text (s : String)
  | withId (id : String)
  | other
  deriving DecidableEq, Repr

/-- JavaScript truthiness of the field. -/
def RoleField.truthy : RoleField → Bool
  | .missing => false
  | .text s => s != ""
  | .withId _ => true
  | .other => true

/-- The comparison `role === "admin"`: true for the string "admin" only. -/
def RoleField.isAdminString : RoleField → Bool
  | .text s => s == "admin"
  | _ => false

/-- Mongoose cast of a value to the schema type String (`castString`): a
string is kept; of an object with a string `_id` the `_id` is taken ("handle
documents being passed"); the other values are numbers and booleans, which
cast to their own spelling, never a role of the enum, and arrays and plain
objects, which raise a `CastError`: for them the cast is given as `none`. -/
def castRoleString : RoleField → Option String
  | .missing => none
  | .text s => some s
  | .withId id => if id == "" then none else some id
  | .other => none

/-- The enum of `User.role` (User.js line 11). -/
def roleEnum : List String := ["instructor", "admin", "student"]

/-- The JSON answer of `register`. -/
structure RegisterResponse where
  status : Nat
  message : Option String := none
  error : Option String := none
  user : Option AuthUser := none
  token : Option Token := none
  deriving DecidableEq, Repr

/-- The handler `register` (authController.js lines 13-52).  `name`, `email`
and `password` are request strings, `none` when absent; `hash` is
`bcrypt.hash(password, 10)`.  The schema trims `name`, lower-cases `email` and
validates `role` against its enum. -/
def register (env : Env) (db : Db) (hash : String → String) (name email password : Option String)
    (role : RoleField) : RegisterResponse × Db :=
  match name, email, password with
  | some name, some email, some password =>
    if name == "" || email == "" || password == "" then
      ({ status := 400, message := some "Missing fields" }, db)
    else if role.isAdminString then
      ({ status := 403, message := some "Cannot create admin account" }, db)
    else if (db.users.find? (fun u => u.email == email.toLower)).isSome then
      ({ status := 409, message := some "Email already registered" }, db)
    else
      -- role: role || "student"
      let roleValue : RoleField := if role.truthy then role else .text "student"
      match castRoleString roleValue with
      | none =>
        ({ status := 500, message := some "Server error",
           error := some "User validation failed" }, db)
      | some storedRole =>
        if !roleEnum.contains storedRole || name.trim == "" then
          ({ status := 500, message := some "Server error",
             error := some "User validation failed" }, db)
        else
          let user : User :=
            { _id := db.nextId, name := name.trim, email := email.toLower,
              passwordHash := hash password, role := storedRole }
          let db1 := { db with users := db.users ++ [user], nextId := db.nextId + 1 }
          match jwtSign env.JWT_SECRET
              { id := .objectId user._id, role := user.role, name := user.name,
                email := some user.email } with
          | none =>
            ({ status := 500, message := some "Server error",
               error := some "secretOrPrivateKey must have a value" }, db1)
          | some token =>
            ({ status := 201,
               user := some { id := .objectId user._id, name := user.name,
                              email := some user.email, role := user.role },
               token := some token }, db1)
  | _, _, _ => ({ status := 400, message := some "Missing fields" }, db)

/-! ## adminController.js: enrollStudents -/

/-- A string of the request list `studentIds`: a 24-digit hex string, given by
the ObjectId it spells and by which of its spellings it is (0: the lower-case
spelling `String(id)` produces; the others mix in upper-case letters), or a
string that spells no ObjectId. -/
inductive IdString where
  | spelled (id : ObjectId) (variant : Nat)
  | notAnId (s : String)
  deriving DecidableEq, Repr

/-- The hex spelling of the id has a letter digit, so that it has spellings
other than the lower-case one. -/
def hasHexLetter (id : ObjectId) : Bool :=
  (List.range 24).any (fun k => decide (10 ≤ (id / 16 ^ k) % 16))

/-- The string is one a request can carry: only an id with a letter digit has
a second spelling. -/
def IdString.wellFormed : IdString → Bool
  | .spelled id variant => variant == 0 || hasHexLetter id
  | .notAnId _ => true

/-- Mongoose cast of the string to ObjectId: any spelling of the id casts to
the id; `none` is the `CastError`. -/
def IdString.cast : IdString → Option ObjectId
  | .spelled id _ => some id
  | .notAnId _ => none

/-- The elements of `Array.from(new Set(xs))`: the first occurrence of every
value, in order. -/
def uniqueInOrder {α : Type} [DecidableEq α] : List α → List α
  | [] => []
  | x :: xs => x :: (uniqueInOrder xs).filter (fun y => decide (y ≠ x))

/-- The JSON answer of `enrollStudents`. -/
structure EnrollResponse where
  status : Nat
  message : Option String := none
  success : Bool := false
  enrolledStudents : List IdString := []
  deriving DecidableEq, Repr

/-- The cast of every string of the list, `none` when one does not cast. -/
def castIdStrings : List IdString → Option (List ObjectId)
  | [] => some []
  | x :: xs =>
    match x.cast, castIdStrings xs with
    | some id, some ids => some (id :: ids)
    | _, _ => none

/-- The handler `enrollStudents` (adminController.js lines 189-210).
`studentIds` is the request list, `none` when the body has none. -/
def enrollStudents (db : Db) (sectionId : JsVal) (studentIds : Option (List IdString)) :
    EnrollResponse × Db :=
  match findById db.sections Section._id sectionId with
  | none => ({ status := 500, message := some "Failed to enroll students" }, db)
  | some none => ({ status := 404, message := some "Section not found" }, db)
  | some (some sec) =>
    match studentIds with
    | none => ({ status := 500, message := some "Failed to enroll students" }, db)
    | some studentIds =>
      let uniqueStudents :=
        uniqueInOrder (sec.enrolledStudents.map (fun id => IdString.spelled id 0) ++ studentIds)
      match castIdStrings uniqueStudents with
      | none => ({ status := 500, message := some "Failed to enroll students" }, db)
      | some ids =>
        ({ status := 200, success := true, enrolledStudents := uniqueStudents },
         { db with
           sections := updateFirst (fun x => x._id == sec._id)
             (fun x => { x with enrolledStudents := ids }) db.sections })

/-! ## attendanceController.js: getSessionAttendance -/

/-- An entry of the list `getSessionAttendance` returns: a stored record
(`_id` set) or the placeholder of lines 513-519 (`_id` null). -/
structure AttendanceEntry where
  _id : Option ObjectId
  student : ObjectId
  status : AttendanceStatus
  checkInTime : Option Nat
  deriving DecidableEq, Repr

/-- The JSON answer of `getSessionAttendance`. -/
structure SessionAttendanceResponse where
  status : Nat
  message : Option String := none
  error : Option String := none
  attendance : List AttendanceEntry := []
  deriving DecidableEq, Repr

/-- Lines 508-510: `attendanceRecords.find((r) => r.student._id.toString() ===
student._id.toString())` over the records with `student` populated.  A record
whose student is gone has `student` null, and reading `_id` of it throws
(`none`). -/
def findRecordFor (users : List User) : List Attendance → ObjectId → Option (Option Attendance)
  | [], _ => some none
  | r :: rest, student =>
    if users.any (fun u => u._id == r.student) then
      if r.student == student then some (some r) else findRecordFor users rest student
    else none

/-- Lines 507-520: the entry of every enrolled student, `none` when the lookup
of one of them throws. -/
def mergeAttendance (users : List User) (records : List Attendance) :
    List ObjectId → Option (List AttendanceEntry)
  | [] => some []
  | student :: rest =>
    match findRecordFor users records student, mergeAttendance users records rest with
    | some (some r), some entries =>
      some ({ _id := some r._id, student := r.student, status := r.status,
              checkInTime := r.checkInTime } :: entries)
    | some none, some entries =>
      some ({ _id := none, student := student, status := .absent, checkInTime := none } ::
        entries)
    | _, _ => none

/-- The handler `getSessionAttendance` (attendanceController.js lines 490-529). -/
def getSessionAttendance (db : Db) (sessionId : JsVal) : SessionAttendanceResponse :=
  match findById db.sessions Session._id sessionId with
  | none =>
    { status := 500, message := some "Failed to fetch attendance",
      error := some "Cast to ObjectId failed" }
  | some none => { status := 404, message := some "Session not found" }
  | some (some session) =>
    match populateSection db session with
    | none =>
      { status := 500, message := some "Failed to fetch attendance",
        error := some "Cannot read properties of null" }
    | some sec =>
      let enrolledStudents := populateEnrolledStudents db sec
      let attendanceRecords := db.attendance.filter (fun a => a.session == session._id)
      match mergeAttendance db.users attendanceRecords enrolledStudents with
      | none =>
        { status := 500, message := some "Failed to fetch attendance",
          error := some "Cannot read properties of null" }
      | some fullList => { status := 200, attendance := fullList }

/-! ## attendanceController.js: getSectionAttendance -/

/-- An entry of `presentStudents` (lines 258-264). -/
structure PresentStudent where
  _id : ObjectId
  name : String
  studentId : JsVal
  email : String
  checkInTime : Option Nat
  deriving DecidableEq, Repr

/-- The JSON answer of `getSectionAttendance`: with status 200 the section
and, for each of its sessions, the students marked present. -/
structure SectionAttendanceResponse where
  status : Nat
  message : Option String := none
  error : Option String := none
  sectionDoc : Option Section := none
  attendanceSessions : List (Session × List PresentStudent) := []
  deriving DecidableEq, Repr

/-- Lines 230-235: the three grounds of authorization.  `user` is `req.user`,
`none` on a route without the middleware `auth`; the optional chains
`section.instructor?._id?.toString()` and `userId?.toString()` are undefined
for a section without (populated) instructor and for a request without user. -/
def sectionAccessGranted (db : Db) (sec : Section) (user : Option ReqUser) : Bool :=
  let userId : JsVal := match user with
    | some u => u.id
    | none => .undefined
  let instructorId : JsVal := match populateInstructor db sec with
    | some i => i._id.toJsString
    | none => .undefined
  let isInstructor := instructorId.strictEq userId
  let isHardInstructor := userId.strictEq (.str "hardinstructor") && sec.hardInstructor == true
  let isAdmin := match user with
    | some u => u.role == "admin" || u.isSuperAdmin
    | none => false
  isInstructor || isHardInstructor || isAdmin

/-- Lines 244-269: for each session of the section the present records of the
section, enriched from the RFID table. -/
def sectionAttendanceSessions (db : Db) (sid : ObjectId) : List (Session × List PresentStudent) :=
  (db.sessions.filter (fun s => s.sectionRef == sid)).map (fun session =>
    (session,
     (db.attendance.filter (fun a =>
        a.session == session._id && a.sectionRef == some sid && a.status == .present)).map
       (fun a =>
         let entry := findInRfidMap a.student.toJsString
         { _id := a.student,
           name := match entry with
             | some e => if e.name == "" then "Unknown Student" else e.name
             | none => "Unknown Student",
           studentId := match entry with
             | some e => if e.studentId == "" then a.student.toJsString else .str e.studentId
             | none => a.student.toJsString,
           email := "N/A",
           checkInTime := a.checkInTime })))

/-- The handler `getSectionAttendance` of attendanceController.js (lines
211-284). -/
def getSectionAttendance (db : Db) (user : Option ReqUser) (sectionId : JsVal) :
    SectionAttendanceResponse :=
  if !sectionId.truthy then { status := 400, message := some "Section ID is missing." }
  else
    match findById db.sections Section._id sectionId with
    | none =>
      { status := 500, message := some "Failed to fetch section attendance",
        error := some "Cast to ObjectId failed" }
    | some none => { status := 404, message := some "Section not found" }
    | some (some sec) =>
      if !sectionAccessGranted db sec user then
        { status := 403, message := some "Not authorized" }
      else
        { status := 200, sectionDoc := some sec,
          attendanceSessions := sectionAttendanceSessions db sec._id }

/-- The callers the claim of `getSectionAttendance` admits: the section's
assigned instructor, the hardcoded instructor on a section flagged
`hardInstructor`, or an admin. -/
def isEntitledCaller (sec : Section) (user : Option ReqUser) : Prop :=
  ∃ u, user = some u ∧
    ((∃ i, sec.instructor = some i ∧ u.id = i.toJsString) ∨
     (u.id = .str "hardinstructor" ∧ sec.hardInstructor = true) ∨
     u.role = "admin" ∨ u.isSuperAdmin = true)

/-! ## attendanceController.js: getCurrentSession -/

/-- The handler `getCurrentSession` (attendanceController.js lines 130-146):
the query is `{ instructor: null, hardInstructor: true }` for the hardcoded
instructor and `{ instructor: req.user.id, hardInstructor: false }` for every
other caller, whose id Mongoose casts to ObjectId. -/
def getCurrentSession (db : Db) (user : ReqUser) : Response :=
  let isHard := user.id.strictEq (.str "hardinstructor")
  let instructor : Option (Option ObjectId) :=
    if isHard then some none
    else (castObjectId user.id).map some
  match instructor with
  | none => serverError "Error fetching current session" "Cast to ObjectId failed"
  | some wanted =>
    { status := 200,
      session := db.sessions.find? (fun s =>
        s.instructor == wanted && s.hardInstructor == isHard && s.status == .ongoing) }

/-- The instructor binding of a session is one of the two `startSession`
writes: a null instructor with `hardInstructor` true, or an instructor with
`hardInstructor` false. -/
def bindingInvariant (db : Db) : Prop :=
  ∀ s ∈ db.sessions, (s.hardInstructor = true ↔ s.instructor = none)

/-! ## Marking requests and the status of the session -/

/-- A request to one of the three marking handlers of attendanceController.js. -/
inductive MarkRequest where
  | mark (sessionId studentId : JsVal) (now : Nat)
  | manual (sessionId studentId status : JsVal) (now : Nat)
  | rfid (scannedBy : Option ObjectId) (sessionId : JsVal) (tag : Option String) (now : Nat)
  deriving DecidableEq, Repr

/-- The answer and the store after a marking request. -/
def MarkRequest.run (db : Db) : MarkRequest → Response × Db
  | .mark sessionId studentId now => markAttendance db sessionId studentId now
  | .manual sessionId studentId status now =>
    updateAttendanceManually db sessionId studentId status now
  | .rfid scannedBy sessionId tag now => recordRfidScan db scannedBy sessionId tag now

/-- A session with its status and end time blanked. -/
def Session.eraseStatus (s : Session) : Session :=
  { s with status := .ongoing, endTime := none }

/-- Two stores that differ at most in the status and end time of sessions. -/
def sameButStatus (db1 db2 : Db) : Prop :=
  db1.users = db2.users ∧ db1.courses = db2.courses ∧ db1.sections = db2.sections ∧
    db1.attendance = db2.attendance ∧ db1.rfidScans = db2.rfidScans ∧
    db1.cameraLogs = db2.cameraLogs ∧ db1.nextId = db2.nextId ∧
    db1.sessions.map Session.eraseStatus = db2.sessions.map Session.eraseStatus

/-! ## More example stores -/

/-- A configuration with every variable set. -/
def exampleEnv : Env :=
  { ADMIN_EMAIL := some "admin@classtrack.com", ADMIN_PASSWORD := some "admin-secret",
    INSTRUCTOR_EMAIL := some "instructor@classtrack.com",
    INSTRUCTOR_PASSWORD := some "instructor-secret",
    JWT_SECRET := some "jwt-secret", SESSION_API_KEY := some "api-key" }

/-- The store `exampleStarted` after `deleteSection` of section 10, the section
of session 100. -/
def exampleSectionDeleted : Db :=
  runHandlers exampleStarted [.deleteSection (.hex 10)]

/-- The store `exampleStarted` after `deleteUser` of user 5, the instructor of
session 100. -/
def exampleInstructorDeleted : Db :=
  runHandlers exampleStarted [.deleteUser (.hex 5)]

/-- The store `exampleDb` with one more user: the student of the first entry of
the RFID table, enrolled in no section. -/
def exampleRfidDb : Db :=
  { exampleDb with users := exampleDb.users ++ [mkUser 0x652ab1234abcde67890f1234 "student"] }

/-- In `exampleRfidDb` instructor 5 starts session 100 on section 10 and marks
the student of the first RFID entry present. -/
def exampleRfidMarked : Db :=
  runCalls exampleRfidDb
    [.startSession (.dbUser (mkUser 5 "instructor")) .undefined (.hex 10) 1000,
     .markAttendance (.hex 100) (.hex 0x652ab1234abcde67890f1234) 1001]

/-- The store with the status and end time of every session blanked. -/
def Db.eraseStatus (db : Db) : Db :=
  { db with sessions := db.sessions.map Session.eraseStatus }

/-- The store `exampleEnded` with its session set back to ongoing: the two
stores differ only in the status and end time of session 100. -/
def exampleReopened : Db :=
  { exampleEnded with sessions := exampleEnded.sessions.map Session.eraseStatus }

/-- The store `exampleDb` with section 10 enrolling nobody but the student of
the first entry of the RFID table. -/
def exampleEnrolDb : Db :=
  { exampleDb with
    sections := [{ _id := 10, name := "A", course := 20, instructor := some 5,
                   hardInstructor := false,
                   enrolledStudents := [0x652ab1234abcde67890f1234] }] }

/-- In `exampleDb` the hardcoded instructor starts session 100 on section 11,
the section flagged `hardInstructor`, and student 1 is marked present. -/
def exampleHardMarked : Db :=
  runCalls exampleDb
    [.startSession (.hardinstructor "hard@classtrack.com") .undefined (.hex 11) 1000,
     .markAttendance (.hex 100) (.hex 1) 1001]

/-- Section 11 of `exampleDb`, flagged `hardInstructor`. -/
def exampleSection11 : Section :=
  { _id := 11, name := "B", course := 20, instructor := none, hardInstructor := true,
    enrolledStudents := [1] }

/-- The configuration `exampleEnv` with the admin email and password unset. -/
def exampleEnvNoAdmin : Env :=
  { exampleEnv with ADMIN_EMAIL := none, ADMIN_PASSWORD := none }

/-- The store `exampleStarted` after `deleteUser` of user 2, a student that
section 10 keeps in its enrolled list. -/
def exampleStudentDeleted : Db :=
  runHandlers exampleStarted [.deleteUser (.hex 2)]

/-! ## Lemmas on the store and the handlers -/

theorem strictEq_objectId_left (o : ObjectId) (v : JsVal) :
    (JsVal.objectId o).strictEq v = false := by
  cases v <;> rfl

/-- No string is found by `includes` among the values `distinct("student")`
returns: they are ObjectId objects. -/
theorem includes_distinctStudents (db : Db) (session : ObjectId) (o : ObjectId) :
    includes (distinctStudents db session) o.toJsString = false := by
  unfold includes distinctStudents
  rw [List.any_eq_false]
  intro x hx
  rw [List.mem_map] at hx
  obtain ⟨i, -, rfl⟩ := hx
  simp [strictEq_objectId_left]

/-- The filter of line 100 of `endSession` removes nothing. -/
theorem endSession_missing_eq_enrolled (db : Db) (sec : Section) (session : ObjectId) :
    (enrolledStrings db sec).filter (fun id => !includes (distinctStudents db session) id) =
      enrolledStrings db sec := by
  rw [List.filter_eq_self]
  intro v hv
  unfold enrolledStrings at hv
  rw [List.mem_map] at hv
  obtain ⟨o, -, rfl⟩ := hv
  simp [includes_distinctStudents]

theorem endSession_of_ended (db : Db) (sessionId : JsVal) (now : Nat) (session : Session)
    (hfind : findById db.sessions Session._id sessionId = some (some session))
    (hended : session.status = .ended) :
    endSession db sessionId now =
      ({ status := 400, message := some "Session already ended" }, db) := by
  unfold endSession
  rw [hfind]
  simp [hended]

theorem findById_some {α : Type} {docs : List α} {getId : α → ObjectId} {id : JsVal} {d : α}
    (h : findById docs getId id = some (some d)) :
    ∃ o, castObjectId id = some o ∧ docs.find? (fun x => getId x == o) = some d := by
  unfold findById at h
  cases id with
  | undefined => simp at h
  | str s => simp [castObjectId] at h
  | hex o => exact ⟨o, rfl, by simpa [castObjectId] using h⟩
  | objectId o => exact ⟨o, rfl, by simpa [castObjectId] using h⟩

theorem findById_of_find {α : Type} {docs : List α} {getId : α → ObjectId} {id : JsVal}
    {o : ObjectId} (hc : castObjectId id = some o) :
    findById docs getId id = some (docs.find? (fun x => getId x == o)) := by
  unfold findById
  cases id with
  | undefined => simp [castObjectId] at hc
  | str s => simp [castObjectId] at hc
  | hex a => simp [castObjectId] at hc ⊢; simp [hc]
  | objectId a => simp [castObjectId] at hc ⊢; simp [hc]

theorem find_updateFirst {α : Type} (p : α → Bool) (y : α) (hy : p y = true) :
    ∀ (xs : List α) (x : α), xs.find? p = some x →
      (updateFirst p (fun _ => y) xs).find? p = some y := by
  intro xs
  induction xs with
  | nil => intro x h; simp at h
  | cons a as ih =>
    intro x h
    unfold updateFirst
    by_cases ha : p a = true
    · simp [ha, hy]
    · simp only [Bool.not_eq_true] at ha
      simp only [ha, Bool.false_eq_true, ↓reduceIte, List.find?_cons]
      rw [List.find?_cons, ha] at h
      exact ih x h

theorem insertAbsent_sessions (sectionId session : ObjectId) :
    ∀ (students : List ObjectId) (db : Db),
      (insertAbsent sectionId session students db).sessions = db.sessions := by
  intro students
  induction students with
  | nil => intro db; rfl
  | cons a as ih => intro db; unfold insertAbsent; rw [ih]

/-- What a 200 of `endSession` means: the session was found, not ended, its
section exists, and the sessions afterwards are the sessions before with this
one replaced by its ended copy. -/
theorem endSession_ok {db : Db} {sessionId : JsVal} {now : Nat}
    (h : (endSession db sessionId now).1.status = 200) :
    ∃ session, findById db.sessions Session._id sessionId = some (some session) ∧
      session.status ≠ .ended ∧
      (endSession db sessionId now).2.sessions =
        updateFirst (fun x => x._id == session._id)
          (fun _ => { session with status := .ended, endTime := some now }) db.sessions := by
  rcases hfind : findById db.sessions Session._id sessionId with _ | _ | session
  · simp [endSession, hfind, serverError] at h
  · simp [endSession, hfind] at h
  · refine ⟨session, rfl, ?_⟩
    by_cases hs : session.status = .ended
    · simp [endSession, hfind, hs] at h
    · refine ⟨hs, ?_⟩
      rcases hsec : populateSection db session with _ | sec
      · simp [endSession, hfind, hs, hsec, serverError] at h
      · simp [endSession, hfind, hs, hsec, insertAbsent_sessions]

/-- Every other answer of `endSession` leaves the store as it is. -/
theorem endSession_not_ok {db : Db} {sessionId : JsVal} {now : Nat}
    (h : (endSession db sessionId now).1.status ≠ 200) :
    (endSession db sessionId now).2 = db := by
  rcases hfind : findById db.sessions Session._id sessionId with _ | _ | session
  · simp [endSession, hfind]
  · simp [endSession, hfind]
  · by_cases hs : session.status = .ended
    · simp [endSession, hfind, hs]
    · rcases hsec : populateSection db session with _ | sec
      · simp [endSession, hfind, hs, hsec]
      · simp [endSession, hfind, hs, hsec] at h

/-- A second `endSession` after a successful one is rejected and changes
nothing: no absence record is added twice. -/
theorem endSession_twice (db : Db) (sessionId : JsVal) (now1 now2 : Nat)
    (h : (endSession db sessionId now1).1.status = 200) :
    endSession (endSession db sessionId now1).2 sessionId now2 =
      ({ status := 400, message := some "Session already ended" },
        (endSession db sessionId now1).2) := by
  obtain ⟨session, hfind, -, hs⟩ := endSession_ok h
  obtain ⟨o, hc, hf⟩ := findById_some hfind
  have ho : session._id = o := by
    have := List.find?_some hf
    simpa using this
  apply endSession_of_ended _ _ _ { session with status := .ended, endTime := some now1 }
  · rw [findById_of_find hc, hs, ho]
    congr 1
    exact find_updateFirst _ _ (by simp [ho]) _ _ hf
  · rfl

theorem startSessionCreate_status {db : Db} {user : ReqUser} {fc : JsVal} {sid : ObjectId}
    {instr : Option ObjectId} {hard : Bool} {now : Nat}
    (h : (startSessionCreate db user fc sid instr hard now).1.status = 201) :
    ∃ course, castObjectId fc = some course ∧
      startSessionCreate db user fc sid instr hard now =
        ({ status := 201,
           session := some { _id := db.nextId, sectionRef := sid, course := course,
                             instructor := instr, hardInstructor := hard, startedBy := user.id,
                             startTime := now, endTime := none, status := .ongoing,
                             cameraLogs := [] } },
         { db with
           sessions := db.sessions ++
             [{ _id := db.nextId, sectionRef := sid, course := course,
                instructor := instr, hardInstructor := hard, startedBy := user.id,
                startTime := now, endTime := none, status := .ongoing, cameraLogs := [] }],
           nextId := db.nextId + 1 }) := by
  rcases hc : castObjectId fc with _ | course
  · simp [startSessionCreate, createSession, hc, serverError] at h
  · exact ⟨course, rfl, by simp [startSessionCreate, createSession, hc]⟩

theorem startSessionCreate_not_created {db : Db} {user : ReqUser} {fc : JsVal} {sid : ObjectId}
    {instr : Option ObjectId} {hard : Bool} {now : Nat}
    (h : (startSessionCreate db user fc sid instr hard now).1.status ≠ 201) :
    (startSessionCreate db user fc sid instr hard now).2 = db := by
  rcases hc : castObjectId fc with _ | course
  · simp [startSessionCreate, createSession, hc]
  · simp [startSessionCreate, createSession, hc] at h

/-- What a 201 of `startSession` means. -/
theorem startSession_created {db : Db} {user : ReqUser} {courseId sectionId : JsVal} {now : Nat}
    (h : (startSession db user courseId sectionId now).1.status = 201) :
    ∃ sec course instr hard,
      findById db.sections Section._id sectionId = some (some sec) ∧
      findExistingSession db user = some none ∧
      castObjectId (finalCourseId db sec courseId) = some course ∧
      ((∃ u, populateInstructor db sec = some u ∧ instr = some u._id ∧ hard = false) ∨
       (populateInstructor db sec = none ∧ sec.hardInstructor = true ∧
         (user.id.strictEq (.str "hardinstructor") = true ∨ user.isSuperAdmin = true) ∧
         instr = none ∧ hard = true)) ∧
      startSession db user courseId sectionId now =
        ({ status := 201, session := some (newSession db user sec course instr hard now) },
         { db with
           sessions := db.sessions ++ [newSession db user sec course instr hard now],
           nextId := db.nextId + 1 }) := by
  rcases hfind : findById db.sections Section._id sectionId with _ | _ | sec
  · simp [startSession, hfind, serverError] at h
  · simp [startSession, hfind] at h
  · by_cases hfc : (finalCourseId db sec courseId).truthy = true
    swap
    · simp [startSession, hfind, hfc] at h
    · rcases hex : findExistingSession db user with _ | _ | existing
      · simp [startSession, hfind, hfc, hex, serverError] at h
      · rcases hi : populateInstructor db sec with _ | u
        · by_cases hh : sec.hardInstructor = true
          · by_cases hu : (!(user.id.strictEq (.str "hardinstructor")) && !user.isSuperAdmin) = true
            · simp [startSession, hfind, hfc, hex, hi, hh, hu] at h
            · simp only [startSession, hfind, hfc, hex, hi, hh, hu] at h ⊢
              simp only [Bool.not_true, Bool.false_eq_true, ↓reduceIte, beq_self_eq_true,
                Bool.true_or] at h ⊢
              obtain ⟨course, hc, heq⟩ := startSessionCreate_status h
              refine ⟨sec, course, none, true, rfl, trivial, hc, Or.inr ⟨hi, hh, ?_, rfl, rfl⟩, ?_⟩
              · simp at hu
                by_cases h1 : user.id.strictEq (.str "hardinstructor") = true
                · exact Or.inl h1
                · exact Or.inr (hu (by simpa using h1))
              · rw [heq]; rfl
          · simp [startSession, hfind, hfc, hex, hi, hh, JsVal.strictEq] at h
        · simp only [startSession, hfind, hfc, hex, hi] at h ⊢
          simp only [Bool.not_true, Bool.false_eq_true, ↓reduceIte] at h ⊢
          obtain ⟨course, hc, heq⟩ := startSessionCreate_status h
          refine ⟨sec, course, some u._id, false, rfl, trivial, hc, Or.inl ⟨u, hi, rfl, rfl⟩, ?_⟩
          rw [heq]; rfl
      · simp [startSession, hfind, hfc, hex] at h

/-- Every other answer of `startSession` leaves the store as it is. -/
theorem startSession_not_created {db : Db} {user : ReqUser} {courseId sectionId : JsVal}
    {now : Nat} (h : (startSession db user courseId sectionId now).1.status ≠ 201) :
    (startSession db user courseId sectionId now).2 = db := by
  rcases hfind : findById db.sections Section._id sectionId with _ | _ | sec
  · simp [startSession, hfind]
  · simp [startSession, hfind]
  · by_cases hfc : (finalCourseId db sec courseId).truthy = true
    swap
    · simp [startSession, hfind, hfc]
    · rcases hex : findExistingSession db user with _ | _ | existing
      · simp [startSession, hfind, hfc, hex]
      · rcases hi : populateInstructor db sec with _ | u
        · by_cases hh : sec.hardInstructor = true
          · by_cases hu : (!(user.id.strictEq (.str "hardinstructor")) && !user.isSuperAdmin) = true
            · simp [startSession, hfind, hfc, hex, hi, hh, hu]
            · simp only [startSession, hfind, hfc, hex, hi, hh, hu] at h ⊢
              simp only [Bool.not_true, Bool.false_eq_true, ↓reduceIte, beq_self_eq_true,
                Bool.true_or] at h ⊢
              exact startSessionCreate_not_created h
          · simp [startSession, hfind, hfc, hex, hi, hh, JsVal.strictEq]
        · simp only [startSession, hfind, hfc, hex, hi] at h ⊢
          simp only [Bool.not_true, Bool.false_eq_true, ↓reduceIte] at h ⊢
          exact startSessionCreate_not_created h
      · simp [startSession, hfind, hfc, hex]

theorem populateInstructor_some {db : Db} {sec : Section} {u : User}
    (h : populateInstructor db sec = some u) : sec.instructor = some u._id := by
  unfold populateInstructor at h
  cases hi : sec.instructor with
  | none => simp [hi] at h
  | some i =>
    rw [hi] at h
    have := List.find?_some h
    simp at this
    rw [this]

theorem populateCourse_some {db : Db} {sec : Section} {c : Course}
    (h : populateCourse db sec = some c) : c._id = sec.course := by
  unfold populateCourse at h
  have := List.find?_some h
  simpa using this

/-- A caller with an ongoing session of its own is found by the lookup of
`startSession`. -/
theorem findExistingSession_of_hasOngoing {db : Db} {user : ReqUser}
    (h : hasOngoingSession db user) :
    ∃ s, s ∈ db.sessions ∧ findExistingSession db user = some (some s) := by
  obtain ⟨s, hs, hon, hid⟩ := h
  unfold findExistingSession
  by_cases hu : user.id = .str "hardinstructor"
  · rw [if_pos hu] at hid
    have hsome : (db.sessions.find?
        (fun s => s.hardInstructor == true && s.status == .ongoing)).isSome = true := by
      rw [List.find?_isSome]
      exact ⟨s, hs, by simp [hid, hon]⟩
    obtain ⟨e, he⟩ := Option.isSome_iff_exists.mp hsome
    refine ⟨e, List.mem_of_find?_eq_some he, ?_⟩
    rw [hu]
    simp only [JsVal.strictEq, beq_self_eq_true, ↓reduceIte, he]
  · rw [if_neg hu] at hid
    cases hi : s.instructor with
    | none => simp [hi] at hid
    | some i =>
      rw [hi] at hid
      simp only [Option.map_some'] at hid
      have hid2 : user.id = .hex i := by
        simp only [ObjectId.toJsString, Option.some.injEq] at hid
        exact hid.symm
      have hsome : (db.sessions.find?
          (fun s => s.instructor == some i && s.status == .ongoing)).isSome = true := by
        rw [List.find?_isSome]
        exact ⟨s, hs, by simp [hi, hon]⟩
      obtain ⟨e, he⟩ := Option.isSome_iff_exists.mp hsome
      refine ⟨e, List.mem_of_find?_eq_some he, ?_⟩
      rw [hid2]
      simp only [JsVal.strictEq, Bool.false_eq_true, ↓reduceIte, castObjectId, he]

/-- The super admin's id "superadmin" does not cast to ObjectId: the lookup of
an existing session throws for this caller. -/
theorem findExistingSession_superadmin (db : Db) (email : String) :
    findExistingSession db (superAdminUser email) = none := by
  simp [findExistingSession, superAdminUser, JsVal.strictEq, castObjectId]

/-- The super admin is never answered 201 by `startSession`. -/
theorem startSession_superadmin_not_created (db : Db) (email : String)
    (courseId sectionId : JsVal) (now : Nat) :
    (startSession db (superAdminUser email) courseId sectionId now).1.status ≠ 201 := by
  intro h
  obtain ⟨_, _, _, _, -, hex, -⟩ := startSession_created h
  rw [findExistingSession_superadmin] at hex
  exact absurd hex (by simp)

theorem mem_updateFirst {α : Type} (p : α → Bool) (f : α → α) :
    ∀ (xs : List α) (x : α), xs.find? p = some x → f x ∈ updateFirst p f xs := by
  intro xs
  induction xs with
  | nil => intro x h; simp at h
  | cons a as ih =>
    intro x h
    unfold updateFirst
    by_cases ha : p a = true
    · rw [List.find?_cons, ha] at h
      simp only [Option.some.injEq] at h
      subst h
      simp [ha]
    · simp only [Bool.not_eq_true] at ha
      rw [List.find?_cons, ha] at h
      simp only [ha, Bool.false_eq_true, ↓reduceIte, List.mem_cons]
      exact Or.inr (ih x h)

theorem updateSectionInstructor_some {db : Db} {sid : ObjectId} {instr : Option ObjectId}
    {hard : Bool} {sec : Section}
    (h : (updateSectionInstructor db sid instr hard).1 = some sec) :
    sec ∈ (updateSectionInstructor db sid instr hard).2.sections ∧
      sec.instructor = instr ∧ sec.hardInstructor = hard := by
  unfold updateSectionInstructor at h ⊢
  cases hf : db.sections.find? (fun x => x._id == sid) with
  | none => simp [hf] at h
  | some old =>
    simp only [hf, Option.some.injEq] at h ⊢
    subst h
    exact ⟨mem_updateFirst _ _ _ _ hf, rfl, rfl⟩

theorem filter_updateFirst {α : Type} (p : α → Bool) (y : α) (hy : p y = true) :
    ∀ xs : List α, (updateFirst p (fun _ => y) xs).filter p =
      match xs.filter p with
      | [] => []
      | _ :: rest => y :: rest := by
  intro xs
  induction xs with
  | nil => rfl
  | cons a as ih =>
    unfold updateFirst
    by_cases ha : p a = true
    · simp [ha, hy, List.filter_cons]
    · simp only [Bool.not_eq_true] at ha
      simp only [ha, Bool.false_eq_true, ↓reduceIte, List.filter_cons]
      exact ih

/-- The upsert touches the attendance ledger and the id counter only. -/
theorem upsertAttendance_frame (db : Db) (session student : ObjectId)
    (sectionId : Option ObjectId) (status : AttendanceStatus) (checkInTime : Option Nat) :
    (upsertAttendance db session student sectionId status checkInTime).2.users = db.users ∧
    (upsertAttendance db session student sectionId status checkInTime).2.sections = db.sections ∧
    (upsertAttendance db session student sectionId status checkInTime).2.sessions = db.sessions ∧
    (upsertAttendance db session student sectionId status checkInTime).2.courses = db.courses := by
  unfold upsertAttendance
  split <;> simp

/-- After the upsert a pair with at most one record has exactly one, carrying
the status and check-in time just written. -/
theorem upsertAttendance_pairRecords (db : Db) (session student : ObjectId)
    (sectionId : Option ObjectId) (status : AttendanceStatus) (checkInTime : Option Nat)
    (hle : (pairRecords db session student).length ≤ 1) :
    ∃ record,
      pairRecords (upsertAttendance db session student sectionId status checkInTime).2
        session student = [record] ∧
      (upsertAttendance db session student sectionId status checkInTime).1 = record ∧
      record.status = status ∧ record.checkInTime = checkInTime := by
  unfold upsertAttendance pairRecords at *
  cases hf : db.attendance.find? (fun a => a.session == session && a.student == student) with
  | none =>
    have hnil : db.attendance.filter (fun a => a.session == session && a.student == student)
        = [] := by
      rw [List.filter_eq_nil_iff]
      intro a ha
      exact List.find?_eq_none.mp hf a ha
    simp [hnil, List.filter_append]
  | some old =>
    have hp := List.find?_some hf
    simp only [Bool.and_eq_true, beq_iff_eq] at hp
    refine ⟨_, ?_, rfl, rfl, rfl⟩
    simp only
    rw [filter_updateFirst _ _ (by simp [hp])]
    cases hfl : db.attendance.filter (fun a => a.session == session && a.student == student) with
    | nil =>
      have := List.find?_eq_none.mpr (fun a ha => by
        have h1 : a ∉ db.attendance.filter
            (fun a => a.session == session && a.student == student) := by
          rw [hfl]; simp
        intro hpa
        exact h1 (List.mem_filter.mpr ⟨ha, hpa⟩))
      rw [this] at hf
      exact absurd hf (by simp)
    | cons b rest =>
      rw [hfl] at hle
      simp only [List.length_cons, add_le_iff_nonpos_left, nonpos_iff_eq_zero,
        List.length_eq_zero] at hle
      simp [hle]

/-- A student the enrolment check of `markAttendance` lets through is named by
a hex string, which casts. -/
theorem accepted_student_casts {db : Db} {sec : Section} {studentId : JsVal}
    (h : (includes (enrolledStrings db sec) studentId || (findInRfidMap studentId).isSome)
      = true) :
    ∃ student, castObjectId studentId = some student := by
  cases studentId with
  | hex o => exact ⟨o, rfl⟩
  | objectId o => exact ⟨o, rfl⟩
  | undefined =>
    exfalso
    have h1 : includes (enrolledStrings db sec) .undefined = false := by
      simp [includes, enrolledStrings, ObjectId.toJsString, JsVal.strictEq]
    have h2 : (findInRfidMap .undefined).isSome = false := by decide
    simp [h1, h2] at h
  | str s =>
    exfalso
    have h1 : includes (enrolledStrings db sec) (.str s) = false := by
      simp [includes, enrolledStrings, ObjectId.toJsString, JsVal.strictEq]
    have h2 : (findInRfidMap (.str s)).isSome = false := by
      simp [findInRfidMap, RFID_MAP, JsVal.strictEq]
    simp [h1, h2] at h

/-- One accepted `markAttendance`: answered 200; the pair, if it had at most
one record, now has exactly one, present and stamped with the time of the
call; users, sections and sessions are as before. -/
theorem markAttendance_accepted (db : Db) (sessionId studentId : JsVal) (now : Nat)
    (session : Session) (sec : Section) (student : ObjectId)
    (hs : findById db.sessions Session._id sessionId = some (some session))
    (hsec : populateSection db session = some sec)
    (haccept : (includes (enrolledStrings db sec) studentId ||
      (findInRfidMap studentId).isSome) = true)
    (hcast : castObjectId studentId = some student)
    (hle : (pairRecords db session._id student).length ≤ 1) :
    (markAttendance db sessionId studentId now).1.status = 200 ∧
    (markAttendance db sessionId studentId now).2.users = db.users ∧
    (markAttendance db sessionId studentId now).2.sections = db.sections ∧
    (markAttendance db sessionId studentId now).2.sessions = db.sessions ∧
    ∃ record,
      pairRecords (markAttendance db sessionId studentId now).2 session._id student = [record] ∧
      (markAttendance db sessionId studentId now).1.attendance = some record ∧
      record.status = .present ∧ record.checkInTime = some now := by
  obtain ⟨record, h1, h2, h3, h4⟩ :=
    upsertAttendance_pairRecords db session._id student (some sec._id) .present (some now) hle
  obtain ⟨f1, f2, f3, -⟩ :=
    upsertAttendance_frame db session._id student (some sec._id) .present (some now)
  simp only [markAttendance, hs, hsec, haccept, hcast, Bool.not_true, Bool.false_eq_true,
    ↓reduceIte]
  exact ⟨trivial, f1, f2, f3, record, h1, by rw [← h2], h3, h4⟩

theorem markRepeatedly_spec (sessionId studentId : JsVal) (session : Session) (sec : Section)
    (student : ObjectId)
    (hcast : castObjectId studentId = some student) :
    ∀ (times : List Nat) (db : Db), times ≠ [] →
      findById db.sessions Session._id sessionId = some (some session) →
      populateSection db session = some sec →
      (includes (enrolledStrings db sec) studentId || (findInRfidMap studentId).isSome) = true →
      (pairRecords db session._id student).length ≤ 1 →
      (∀ r ∈ (markRepeatedly sessionId studentId times db).1, r.status = 200) ∧
      (markRepeatedly sessionId studentId times db).1.length = times.length ∧
      ∃ record,
        pairRecords (markRepeatedly sessionId studentId times db).2 session._id student
          = [record] ∧
        record.status = .present ∧ record.checkInTime = times.getLast? := by
  intro times
  induction times with
  | nil => intro db h; exact absurd rfl h
  | cons now rest ih =>
    intro db _ hs hsec haccept hle
    obtain ⟨h200, fu, fsec, fsess, record, hrec, -, hst, htime⟩ :=
      markAttendance_accepted db sessionId studentId now session sec student hs hsec haccept
        hcast hle
    by_cases hrest : rest = []
    · subst hrest
      simp only [markRepeatedly, List.mem_singleton, forall_eq, List.length_singleton,
        List.getLast?_singleton]
      exact ⟨h200, trivial, record, hrec, hst, htime⟩
    · have hs1 : findById (markAttendance db sessionId studentId now).2.sessions Session._id
          sessionId = some (some session) := by rw [fsess]; exact hs
      have hsec1 : populateSection (markAttendance db sessionId studentId now).2 session
          = some sec := by
        unfold populateSection at hsec ⊢
        rw [fsec]; exact hsec
      have hacc1 : (includes (enrolledStrings (markAttendance db sessionId studentId now).2 sec)
          studentId || (findInRfidMap studentId).isSome) = true := by
        unfold enrolledStrings populateEnrolledStudents at haccept ⊢
        rw [fu]; exact haccept
      have hle1 : (pairRecords (markAttendance db sessionId studentId now).2 session._id
          student).length ≤ 1 := by rw [hrec]; simp
      obtain ⟨a1, a2, rec2, a3, a4, a5⟩ :=
        ih (markAttendance db sessionId studentId now).2 hrest hs1 hsec1 hacc1 hle1
      simp only [markRepeatedly, List.mem_cons, forall_eq_or_imp, List.length_cons,
        add_left_inj]
      refine ⟨⟨h200, a1⟩, a2, rec2, a3, a4, ?_⟩
      rw [a5]
      cases rest with
      | nil => exact absurd rfl hrest
      | cons b l => simp

theorem upsertAttendance_sessions (db : Db) (session student : ObjectId)
    (sectionId : Option ObjectId) (status : AttendanceStatus) (checkInTime : Option Nat) :
    (upsertAttendance db session student sectionId status checkInTime).2.sessions = db.sessions :=
  (upsertAttendance_frame db session student sectionId status checkInTime).2.2.1

theorem markAttendance_sessions (db : Db) (sessionId studentId : JsVal) (now : Nat) :
    (markAttendance db sessionId studentId now).2.sessions = db.sessions := by
  unfold markAttendance
  repeat' (first | split | dsimp only)
  all_goals first | rfl | exact upsertAttendance_sessions _ _ _ _ _ _

theorem updateAttendanceManually_sessions (db : Db) (sessionId studentId status : JsVal)
    (now : Nat) :
    (updateAttendanceManually db sessionId studentId status now).2.sessions = db.sessions := by
  unfold updateAttendanceManually
  repeat' (first | split | dsimp only)
  all_goals first | rfl | exact upsertAttendance_sessions _ _ _ _ _ _

theorem recordRfidScan_sessions (db : Db) (scannedBy : Option ObjectId) (sessionId : JsVal)
    (tag : Option String) (now : Nat) :
    (recordRfidScan db scannedBy sessionId tag now).2.sessions = db.sessions := by
  unfold recordRfidScan
  repeat' (first | split | dsimp only)
  all_goals first | rfl | exact upsertAttendance_sessions _ _ _ _ _ _

theorem externalMarkAttendance_sessions (db : Db) (sessionId studentId : JsVal) (now : Nat) :
    (externalMarkAttendance db sessionId studentId now).2.sessions = db.sessions := by
  unfold externalMarkAttendance
  repeat' (first | split | dsimp only)
  all_goals first | rfl | simp_all [createAttendance]

theorem updateSectionInstructor_sessions (db : Db) (sid : ObjectId) (instr : Option ObjectId)
    (hard : Bool) : (updateSectionInstructor db sid instr hard).2.sessions = db.sessions := by
  unfold updateSectionInstructor
  split <;> rfl

theorem createSection_sessions (db : Db) (courseId : JsVal) (name : String)
    (instructorId : JsVal) :
    (createSection db courseId name instructorId).2.sessions = db.sessions := by
  unfold createSection
  repeat' (first | split | dsimp only)

theorem assignInstructor_sessions (db : Db) (sectionId instructorId : JsVal) :
    (assignInstructor db sectionId instructorId).2.sessions = db.sessions := by
  unfold assignInstructor
  repeat' (first | split | dsimp only)
  all_goals first
    | rfl
    | (rename_i h
       have hs := congrArg (fun p => p.2.sessions) h
       simp only [updateSectionInstructor_sessions] at hs
       exact hs.symm)

theorem ongoingStartedBy_eq (db : Db) (i : InstructorIdentity) :
    ongoingStartedBy db i = db.sessions.filter (ownOngoing i) := rfl

theorem ownOngoing_core (i : InstructorIdentity) (s : Session) :
    ownOngoing i s.core = ownOngoing i s := by
  cases i <;> rfl

theorem ongoingStartedBy_length_of_core {db db1 : Db} (i : InstructorIdentity)
    (h : db1.sessions.map Session.core = db.sessions.map Session.core) :
    (ongoingStartedBy db1 i).length = (ongoingStartedBy db i).length := by
  have key : ∀ xs : List Session,
      (xs.filter (ownOngoing i)).length = ((xs.map Session.core).filter (ownOngoing i)).length := by
    intro xs
    rw [List.filter_map, List.length_map]
    congr 2
    funext s
    exact (ownOngoing_core i s).symm
  rw [ongoingStartedBy_eq, ongoingStartedBy_eq, key db1.sessions, key db.sessions, h]

theorem filter_updateFirst_le {α : Type} (p q : α → Bool) (y : α) (hy : q y = false) :
    ∀ xs : List α, ((updateFirst p (fun _ => y) xs).filter q).length ≤ (xs.filter q).length := by
  intro xs
  induction xs with
  | nil => simp [updateFirst]
  | cons a as ih =>
    unfold updateFirst
    by_cases ha : p a = true
    · simp only [ha, ↓reduceIte, List.filter_cons, hy, Bool.false_eq_true]
      split <;> simp
    · simp only [Bool.not_eq_true] at ha
      simp only [ha, Bool.false_eq_true, ↓reduceIte, List.filter_cons]
      split
      · simp only [List.length_cons, add_le_add_iff_right]; exact ih
      · exact ih

theorem endSession_ongoingStartedBy (db : Db) (sessionId : JsVal) (now : Nat)
    (i : InstructorIdentity) :
    (ongoingStartedBy (endSession db sessionId now).2 i).length ≤
      (ongoingStartedBy db i).length := by
  by_cases h : (endSession db sessionId now).1.status = 200
  · obtain ⟨session, -, -, hs⟩ := endSession_ok h
    rw [ongoingStartedBy_eq, ongoingStartedBy_eq, hs]
    exact filter_updateFirst_le _ _ _ (by simp [ownOngoing]) _
  · rw [endSession_not_ok h]

/-- The lookup of `startSession` finds nothing only if the identity of the
caller has no ongoing session bound to it. -/
theorem ongoingBoundTo_of_no_existing {db : Db} {user : ReqUser} (i : InstructorIdentity)
    (hid : user.id = i.userId) (h : findExistingSession db user = some none) :
    ongoingBoundTo db i = [] := by
  unfold ongoingBoundTo
  rw [List.filter_eq_nil_iff]
  intro s hs
  cases i with
  | real id =>
    simp only [InstructorIdentity.userId, ObjectId.toJsString] at hid
    simp only [findExistingSession, hid, JsVal.strictEq, Bool.false_eq_true, ↓reduceIte,
      castObjectId, Option.some.injEq] at h
    have := List.find?_eq_none.mp h s hs
    simpa [InstructorIdentity.boundTo, Bool.and_comm] using this
  | hardcoded =>
    simp only [InstructorIdentity.userId] at hid
    simp only [findExistingSession, hid, JsVal.strictEq, beq_self_eq_true, ↓reduceIte,
      Option.some.injEq] at h
    have := List.find?_eq_none.mp h s hs
    simpa [InstructorIdentity.boundTo, Bool.and_comm] using this

theorem startSession_ongoingStartedBy (db : Db) (user : ReqUser) (courseId sectionId : JsVal)
    (now : Nat) (i : InstructorIdentity) (hinv : (ongoingStartedBy db i).length ≤ 1) :
    (ongoingStartedBy (startSession db user courseId sectionId now).2 i).length ≤ 1 := by
  by_cases h : (startSession db user courseId sectionId now).1.status = 201
  · obtain ⟨sec, course, instr, hard, -, hex, -, -, heq⟩ := startSession_created h
    rw [heq, ongoingStartedBy_eq]
    simp only [List.filter_append, List.length_append]
    by_cases hq : ownOngoing i (newSession db user sec course instr hard now) = true
    · have hid : user.id = i.userId := by
        simp only [ownOngoing, newSession, Bool.and_eq_true, beq_iff_eq] at hq
        exact hq.2
      have hnil := ongoingBoundTo_of_no_existing i hid hex
      have hnil2 : db.sessions.filter (ownOngoing i) = [] := by
        rw [List.filter_eq_nil_iff]
        intro s hs hown
        have hmem : s ∈ ongoingBoundTo db i := by
          unfold ongoingBoundTo
          rw [List.mem_filter]
          refine ⟨hs, ?_⟩
          simp only [ownOngoing, Bool.and_eq_true] at hown
          simp [hown.1.1, hown.1.2]
        rw [hnil] at hmem
        simp at hmem
      simp [hnil2, List.filter_cons, hq]
    · simp only [Bool.not_eq_true] at hq
      simp only [List.filter_cons, hq, Bool.false_eq_true, ↓reduceIte, List.filter_nil,
        List.length_nil, add_zero]
      exact hinv
  · rw [startSession_not_created h]
    exact hinv

theorem apply_ongoingStartedBy (db : Db) (c : ApiCall) (i : InstructorIdentity)
    (hinv : (ongoingStartedBy db i).length ≤ 1) :
    (ongoingStartedBy (c.apply db) i).length ≤ 1 := by
  cases c with
  | startSession caller courseId sectionId now =>
    exact startSession_ongoingStartedBy db _ _ _ _ i hinv
  | endSession sessionId now =>
    exact le_trans (endSession_ongoingStartedBy db sessionId now i) hinv
  | markAttendance sessionId studentId now =>
    simpa [ApiCall.apply, ongoingStartedBy, markAttendance_sessions] using hinv
  | updateAttendanceManually sessionId studentId status now =>
    simpa [ApiCall.apply, ongoingStartedBy, updateAttendanceManually_sessions] using hinv
  | recordRfidScan caller sessionId tag now =>
    simpa [ApiCall.apply, ongoingStartedBy, recordRfidScan_sessions] using hinv
  | externalMarkAttendance sessionId studentId now =>
    simpa [ApiCall.apply, ongoingStartedBy, externalMarkAttendance_sessions] using hinv
  | createSection courseId name instructorId =>
    simpa [ApiCall.apply, ongoingStartedBy, createSection_sessions] using hinv
  | assignInstructor sectionId instructorId =>
    simpa [ApiCall.apply, ongoingStartedBy, assignInstructor_sessions] using hinv

theorem insertAbsent_attendance (sectionId session : ObjectId) :
    ∀ (students : List ObjectId) (db : Db),
      (insertAbsent sectionId session students db).attendance.map
          (fun a => (a.session, a.student, a.status)) =
        db.attendance.map (fun a => (a.session, a.student, a.status)) ++
          students.map (fun student => (session, student, AttendanceStatus.absent)) := by
  intro students
  induction students with
  | nil => intro db; simp [insertAbsent]
  | cons a as ih => intro db; unfold insertAbsent; rw [ih]; simp

/-- What a successful `endSession` writes to the ledger: after the records
already there, one absent record for every enrolled student, with or without
an earlier record. -/
theorem endSession_inserts_for_every_enrolled {db : Db} {sessionId : JsVal} {now : Nat}
    (h : (endSession db sessionId now).1.status = 200) :
    ∃ session sec, findById db.sessions Session._id sessionId = some (some session) ∧
      populateSection db session = some sec ∧
      (endSession db sessionId now).2.attendance.map (fun a => (a.session, a.student, a.status)) =
        db.attendance.map (fun a => (a.session, a.student, a.status)) ++
          (populateEnrolledStudents db sec).map
            (fun student => (session._id, student, AttendanceStatus.absent)) := by
  rcases hfind : findById db.sessions Session._id sessionId with _ | _ | session
  · simp [endSession, hfind, serverError] at h
  · simp [endSession, hfind] at h
  · by_cases hs : session.status = .ended
    · simp [endSession, hfind, hs] at h
    · rcases hsec : populateSection db session with _ | sec
      · simp [endSession, hfind, hs, hsec, serverError] at h
      · refine ⟨session, sec, rfl, hsec, ?_⟩
        have hcast : (enrolledStrings db sec).filterMap castObjectId =
            populateEnrolledStudents db sec := by
          unfold enrolledStrings
          rw [List.filterMap_map]
          have hfun : (castObjectId ∘ ObjectId.toJsString) = some := by
            funext o; rfl
          rw [hfun, List.filterMap_some]
        simp only [endSession, hfind, hs, hsec, beq_iff_eq, ↓reduceIte,
          endSession_missing_eq_enrolled, insertAbsent_attendance, hcast]

/-- On a section flagged `hardInstructor` with no instructor, the hardcoded
instructor without an ongoing session is answered 201, and the session is
bound to no instructor with `hardInstructor` true. -/
theorem startSession_hard_section_hardinstructor (db : Db) (email : String)
    (courseId sectionId : JsVal) (now : Nat) (sec : Section) (course : ObjectId)
    (hfind : findById db.sections Section._id sectionId = some (some sec))
    (hcourse : castObjectId (finalCourseId db sec courseId) = some course)
    (hinstructor : sec.instructor = none) (hhard : sec.hardInstructor = true)
    (hfree : findExistingSession db (hardInstructorUser email) = some none) :
    startSession db (hardInstructorUser email) courseId sectionId now =
      ({ status := 201,
         session := some (newSession db (hardInstructorUser email) sec course none true now) },
       { db with
         sessions := db.sessions ++
           [newSession db (hardInstructorUser email) sec course none true now],
         nextId := db.nextId + 1 }) := by
  have ht : (finalCourseId db sec courseId).truthy = true := by
    cases hv : finalCourseId db sec courseId <;> simp [hv, castObjectId, JsVal.truthy] at hcourse ⊢
  have hp : populateInstructor db sec = none := by simp [populateInstructor, hinstructor]
  simp only [startSession, hfind, ht, hfree, hp, hhard, Bool.not_true, Bool.false_eq_true,
    ↓reduceIte, beq_self_eq_true, Bool.true_or, startSessionCreate, createSession, hcourse]
  simp [hardInstructorUser, JsVal.strictEq, newSession]

/-- On a section flagged `hardInstructor` with no instructor, a database user
without an ongoing session is answered 403 and nothing is created. -/
theorem startSession_hard_section_dbUser (db : Db) (u : User)
    (courseId sectionId : JsVal) (now : Nat) (sec : Section)
    (hfind : findById db.sections Section._id sectionId = some (some sec))
    (hcourse : (finalCourseId db sec courseId).truthy = true)
    (hinstructor : sec.instructor = none) (hhard : sec.hardInstructor = true)
    (hfree : findExistingSession db (dbReqUser u) = some none) :
    startSession db (dbReqUser u) courseId sectionId now =
      ({ status := 403, message := some "Forbidden to start hardcoded section" }, db) := by
  have hp : populateInstructor db sec = none := by simp [populateInstructor, hinstructor]
  simp only [startSession, hfind, hcourse, hfree, hp, hhard, Bool.not_true, Bool.false_eq_true,
    ↓reduceIte, beq_self_eq_true, Bool.true_or]
  simp [dbReqUser, JsVal.strictEq, ObjectId.toJsString]

/-! ## The claims -/

/-- C1 (the code departs from the claim): with students 1, 2, 3 enrolled and
student 1 already marked present, `endSession` answers 200 and inserts absent
records for all three students, student 1 included, instead of only for the
students 2 and 3 without a record. -/
theorem endSession_marks_present_student_absent :
    populateEnrolledStudents exampleMarked
        { _id := 10, name := "A", course := 20, instructor := some 5, hardInstructor := false,
          enrolledStudents := [1, 2, 3] } = [1, 2, 3] ∧
      (exampleMarked.attendance.map (fun a => (a.session, a.student, a.status)) =
        [(100, 1, .present)]) ∧
      (endSession exampleMarked (.hex 100) 1002).1.status = 200 ∧
      absentStudents (endSession exampleMarked (.hex 100) 1002).2 100 = [1, 2, 3] := by
  decide

/-- C2 (the code departs from the claim): starting from an empty ledger, the
calls startSession, markAttendance for student 1 and endSession leave two
attendance records for the pair (session 100, student 1). -/
theorem two_records_for_one_pair :
    exampleDb.attendance = [] ∧
      (pairRecords
        (runCalls exampleDb
          [.startSession (.dbUser (mkUser 5 "instructor")) .undefined (.hex 10) 1000,
           .markAttendance (.hex 100) (.hex 1) 1001,
           .endSession (.hex 100) 1002]) 100 1).map (fun a => a.status) =
        [.present, .absent] := by
  decide

/-- C3: `endSession` on a session whose status is already ended answers 400
"Session already ended" and returns the store unchanged (sessions and
attendance ledger alike). -/
theorem endSession_already_ended (db : Db) (sessionId : JsVal) (now : Nat) (session : Session)
    (hfind : findById db.sessions Session._id sessionId = some (some session))
    (hended : session.status = .ended) :
    endSession db sessionId now =
      ({ status := 400, message := some "Session already ended" }, db) :=
  endSession_of_ended db sessionId now session hfind hended

/-- C3, at the ended session 100 of `exampleEnded`. -/
theorem endSession_already_ended_witness :
    (findById exampleEnded.sessions Session._id (.hex 100) =
        some (some { exampleSession with status := .ended, endTime := some 1002 }) ∧
      ({ exampleSession with status := .ended, endTime := some 1002 } : Session).status
        = .ended) ∧
      endSession exampleEnded (.hex 100) 2000 =
        ({ status := 400, message := some "Session already ended" }, exampleEnded) :=
  ⟨⟨by decide, by decide⟩,
   endSession_already_ended exampleEnded (.hex 100) 2000
     { exampleSession with status := .ended, endTime := some 1002 } (by decide) (by decide)⟩

/-- C4 (as stated it fails): instructor 6 starts two sessions, one after the
other, on section 10 of instructor 5; both are created, and instructor 5 is
bound to two ongoing sessions. -/
theorem two_ongoing_sessions_bound_to_one_instructor :
    exampleDb.sessions = [] ∧
      ((ongoingBoundTo
        (runCalls exampleDb
          [.startSession (.dbUser (mkUser 6 "instructor")) .undefined (.hex 10) 1000,
           .startSession (.dbUser (mkUser 6 "instructor")) .undefined (.hex 10) 1001])
        (.real 5)).map (fun s => (s._id, s.startedBy))) =
        [(100, .hex 6), (101, .hex 6)] := by
  decide

/-- C4 (amended): in every state reachable by sequential API calls from a
store without sessions, each instructor identity (a real instructor id, or the
hardcoded instructor) is bound to at most one ongoing session that it started
itself. -/
theorem at_most_one_own_ongoing_session (db : Db) (h : Reachable db) (i : InstructorIdentity) :
    (ongoingStartedBy db i).length ≤ 1 := by
  induction h with
  | init db h0 => simp [ongoingStartedBy, h0]
  | call db c _ ih => exact apply_ongoingStartedBy db c i ih
  | other db db1 _ hcore ih => rw [ongoingStartedBy_length_of_core i hcore]; exact ih

/-- C4 (amended), at the state after instructor 5 has started a session on
section 10 of `exampleDb`. -/
theorem at_most_one_own_ongoing_session_witness :
    Reachable ((ApiCall.startSession (.dbUser (mkUser 5 "instructor")) .undefined (.hex 10)
        1000).apply exampleDb) ∧
      (ongoingStartedBy ((ApiCall.startSession (.dbUser (mkUser 5 "instructor")) .undefined
        (.hex 10) 1000).apply exampleDb) (.real 5)).length ≤ 1 :=
  ⟨Reachable.call _ _ (Reachable.init exampleDb rfl),
   at_most_one_own_ongoing_session _ (Reachable.call _ _ (Reachable.init exampleDb rfl)) _⟩

/-- C5: when the requested section exists, course information is present and
the caller already has an ongoing session (a session with `instructor` equal
to the caller id or, for the caller "hardinstructor", a session flagged
`hardInstructor`), `startSession` answers 400 "You already have an ongoing
session" with that session and creates nothing. -/
theorem startSession_rejects_ongoing (db : Db) (user : ReqUser) (courseId sectionId : JsVal)
    (now : Nat) (sec : Section)
    (hfind : findById db.sections Section._id sectionId = some (some sec))
    (hcourse : (finalCourseId db sec courseId).truthy = true)
    (hongoing : hasOngoingSession db user) :
    ∃ existing, existing ∈ db.sessions ∧
      startSession db user courseId sectionId now =
        ({ status := 400, message := some "You already have an ongoing session",
           session := some existing }, db) := by
  obtain ⟨e, hmem, he⟩ := findExistingSession_of_hasOngoing hongoing
  exact ⟨e, hmem, by simp [startSession, hfind, hcourse, he]⟩

/-- C5, for instructor 5 with the ongoing session 100 of `exampleStarted`. -/
theorem startSession_rejects_ongoing_witness :
    (findById exampleStarted.sections Section._id (.hex 10) = some (some exampleSection10) ∧
      (finalCourseId exampleStarted exampleSection10 .undefined).truthy = true ∧
      hasOngoingSession exampleStarted (dbReqUser (mkUser 5 "instructor"))) ∧
      ∃ existing, existing ∈ exampleStarted.sessions ∧
        startSession exampleStarted (dbReqUser (mkUser 5 "instructor")) .undefined (.hex 10)
            1001 =
          ({ status := 400, message := some "You already have an ongoing session",
             session := some existing }, exampleStarted) :=
  ⟨⟨by decide, by decide, ⟨exampleSession, by decide, by decide, by decide⟩⟩,
   startSession_rejects_ongoing exampleStarted (dbReqUser (mkUser 5 "instructor")) .undefined
     (.hex 10) 1001 exampleSection10 (by decide) (by decide)
     ⟨exampleSession, by decide, by decide, by decide⟩⟩

/-- C6: on a section with neither an instructor reference nor the flag
`hardInstructor`, `startSession` never answers 201 and leaves the store (and so
the sessions) unchanged, whoever calls and whatever the request carries. -/
theorem startSession_unassigned_section (db : Db) (user : ReqUser) (courseId sectionId : JsVal)
    (now : Nat) (sec : Section)
    (hfind : findById db.sections Section._id sectionId = some (some sec))
    (hinstructor : sec.instructor = none) (hhard : sec.hardInstructor = false) :
    (startSession db user courseId sectionId now).1.status ≠ 201 ∧
      (startSession db user courseId sectionId now).2 = db := by
  have hne : (startSession db user courseId sectionId now).1.status ≠ 201 := by
    intro h
    obtain ⟨sec1, _, _, _, hfind1, -, -, hbind, -⟩ := startSession_created h
    rw [hfind] at hfind1
    simp only [Option.some.injEq] at hfind1
    subst hfind1
    rcases hbind with ⟨u, hu, -⟩ | ⟨-, hh, -⟩
    · have := populateInstructor_some hu
      rw [hinstructor] at this
      exact absurd this (by simp)
    · rw [hhard] at hh
      exact absurd hh (by simp)
  exact ⟨hne, startSession_not_created hne⟩

/-- C6, on the unassigned section 12 of `exampleDb`, called by the hardcoded
instructor. -/
theorem startSession_unassigned_section_witness :
    (findById exampleDb.sections Section._id (.hex 12) = some (some exampleSection12) ∧
      exampleSection12.instructor = none ∧ exampleSection12.hardInstructor = false) ∧
      (startSession exampleDb (hardInstructorUser "hard@example.com") .undefined (.hex 12)
        1000).1.status ≠ 201 ∧
      (startSession exampleDb (hardInstructorUser "hard@example.com") .undefined (.hex 12)
        1000).2 = exampleDb :=
  ⟨⟨by decide, by decide, by decide⟩,
   startSession_unassigned_section exampleDb (hardInstructorUser "hard@example.com") .undefined
     (.hex 12) 1000 exampleSection12 (by decide) (by decide) (by decide)⟩

/-- C7 (as stated it fails): `createSection` without an instructorId is
accepted with 201 and stores a section with neither an instructor reference
nor the flag `hardInstructor`. -/
theorem createSection_without_instructor_stores_neither :
    ((SectionRequest.create (.hex 20) "D" .undefined).run exampleDb).1.1.status = 201 ∧
      ((SectionRequest.create (.hex 20) "D" .undefined).run exampleDb).1.2.map
        (fun sec => (sec.instructor, sec.hardInstructor, sec.exactlyOneAssignment,
          decide (sec ∈ ((SectionRequest.create (.hex 20) "D" .undefined).run
            exampleDb).2.sections))) = some (none, false, false, true) := by
  decide

/-- C7 (amended): the section stored by an accepted `createSection` or
`assignInstructor` never has both an instructor reference and the flag
`hardInstructor`; it has exactly one of the two when the request carries an
instructorId (the flag for "hardinstructor", the reference otherwise) and
neither when the request carries none. -/
theorem section_assignment_after_request (db : Db) (req : SectionRequest) (sec : Section)
    (hok : (req.run db).1.1.status = req.okStatus)
    (hsec : (req.run db).1.2 = some sec) :
    sec ∈ (req.run db).2.sections ∧
      ¬ (sec.instructor.isSome = true ∧ sec.hardInstructor = true) ∧
      (sec.exactlyOneAssignment = true ↔ req.instructorId.truthy = true) ∧
      (sec.hardInstructor = true ↔ req.instructorId = .str "hardinstructor") ∧
      (sec.instructor = none ∧ sec.hardInstructor = false ↔
        req.instructorId.truthy = false) := by
  cases req with
  | create courseId name instructorId =>
    simp only [SectionRequest.run, SectionRequest.okStatus, SectionRequest.instructorId] at *
    unfold createSection at hok hsec ⊢
    by_cases h0 : (!courseId.truthy || name == "") = true
    · simp [h0] at hok
    · simp only [h0] at hok hsec ⊢
      rcases hc : castObjectId courseId with _ | course
      · simp [hc, serverError] at hok
      · simp only [hc] at hok hsec ⊢
        rcases instructorId with _ | s | o | o
        · simp [hc, JsVal.strictEq, JsVal.truthy] at hsec ⊢
          subst hsec
          simp [Section.exactlyOneAssignment]
        · by_cases hs : s = "hardinstructor"
          · subst hs
            simp [hc, JsVal.strictEq, JsVal.truthy] at hsec ⊢
            subst hsec
            simp [Section.exactlyOneAssignment]
          · by_cases he : s = ""
            · subst he
              simp [hc, JsVal.strictEq, JsVal.truthy] at hsec ⊢
              subst hsec
              simp [Section.exactlyOneAssignment]
            · simp [hc, JsVal.strictEq, JsVal.truthy, hs, he, castObjectId, serverError] at hok
        · simp [hc, JsVal.strictEq, JsVal.truthy, castObjectId] at hsec ⊢
          subst hsec
          simp [Section.exactlyOneAssignment]
        · simp [hc, JsVal.strictEq, JsVal.truthy, castObjectId] at hsec ⊢
          subst hsec
          simp [Section.exactlyOneAssignment]
  | assign sectionId instructorId =>
    simp only [SectionRequest.run, SectionRequest.okStatus, SectionRequest.instructorId] at *
    unfold assignInstructor at hok hsec ⊢
    rcases hc : castObjectId sectionId with _ | sid
    · simp [hc, serverError] at hok
    · simp only [hc] at hok hsec ⊢
      rcases instructorId with _ | s | o | o
      · simp only [JsVal.truthy, Bool.not_false, ↓reduceIte] at hok hsec ⊢
        rcases hu : updateSectionInstructor db sid none false with ⟨_ | sec1, db1⟩
        · simp [hu, serverError] at hok
        · have := updateSectionInstructor_some (by rw [hu] : (updateSectionInstructor db sid
            none false).1 = some sec1)
          simp only [hu] at hsec this ⊢
          simp only [Option.some.injEq] at hsec
          subst hsec
          obtain ⟨hm, hi, hh⟩ := this
          simp [hm, hi, hh, Section.exactlyOneAssignment]
      · by_cases he : s = ""
        · subst he
          simp only [JsVal.truthy, bne_self_eq_false, Bool.not_false, ↓reduceIte] at hok hsec ⊢
          rcases hu : updateSectionInstructor db sid none false with ⟨_ | sec1, db1⟩
          · simp [hu, serverError] at hok
          · have := updateSectionInstructor_some (by rw [hu] : (updateSectionInstructor db sid
              none false).1 = some sec1)
            simp only [hu] at hsec this ⊢
            simp only [Option.some.injEq] at hsec
            subst hsec
            obtain ⟨hm, hi, hh⟩ := this
            simp [hm, hi, hh, Section.exactlyOneAssignment]
        · have ht : (JsVal.str s).truthy = true := by simp [JsVal.truthy, he]
          simp only [ht, Bool.not_true, Bool.false_eq_true, ↓reduceIte] at hok hsec ⊢
          by_cases hs : s = "hardinstructor"
          · subst hs
            simp only [JsVal.strictEq, beq_self_eq_true, ↓reduceIte] at hok hsec ⊢
            rcases hu : updateSectionInstructor db sid none true with ⟨_ | sec1, db1⟩
            · simp [hu, serverError] at hok
            · have := updateSectionInstructor_some (by rw [hu] : (updateSectionInstructor db sid
                none true).1 = some sec1)
              simp only [hu] at hsec this ⊢
              simp only [Option.some.injEq] at hsec
              subst hsec
              obtain ⟨hm, hi, hh⟩ := this
              simp [hm, hi, hh, Section.exactlyOneAssignment]
          · simp [JsVal.strictEq, hs, castObjectId, serverError] at hok
      · simp only [JsVal.truthy, Bool.not_true, Bool.false_eq_true, ↓reduceIte, JsVal.strictEq,
          castObjectId] at hok hsec ⊢
        have := updateSectionInstructor_some hsec
        obtain ⟨hm, hi, hh⟩ := this
        simp [hm, hi, hh, Section.exactlyOneAssignment, JsVal.truthy]
      · simp only [JsVal.truthy, Bool.not_true, Bool.false_eq_true, ↓reduceIte, JsVal.strictEq,
          castObjectId] at hok hsec ⊢
        have := updateSectionInstructor_some hsec
        obtain ⟨hm, hi, hh⟩ := this
        simp [hm, hi, hh, Section.exactlyOneAssignment, JsVal.truthy]

/-- C7 (amended), for `createSection` with the instructor 5. -/
theorem section_assignment_after_request_witness :
    (((SectionRequest.create (.hex 20) "D" (.hex 5)).run exampleDb).1.1.status =
        (SectionRequest.create (.hex 20) "D" (.hex 5)).okStatus ∧
      ((SectionRequest.create (.hex 20) "D" (.hex 5)).run exampleDb).1.2 =
        some { _id := 100, name := "D", course := 20, instructor := some 5,
               hardInstructor := false, enrolledStudents := [] }) ∧
      (({ _id := 100, name := "D", course := 20, instructor := some 5,
          hardInstructor := false, enrolledStudents := [] } : Section) ∈
        ((SectionRequest.create (.hex 20) "D" (.hex 5)).run exampleDb).2.sections) :=
  ⟨⟨by decide, by decide⟩,
   (section_assignment_after_request exampleDb (.create (.hex 20) "D" (.hex 5))
     { _id := 100, name := "D", course := 20, instructor := some 5,
       hardInstructor := false, enrolledStudents := [] } (by decide) (by decide)).1⟩

/-- C8 (the code departs from the claim): on section 11, flagged
`hardInstructor` with no instructor, with no ongoing session in the store, the
super admin is answered 500 and no session is created: the lookup
`Session.findOne({ instructor: "superadmin" })` fails to cast. -/
theorem startSession_superadmin_hard_section_fails :
    exampleDb.sessions = [] ∧
      (exampleDb.sections.find? (fun x => x._id == 11)).map
        (fun x => (x.instructor, x.hardInstructor)) = some (none, true) ∧
      (startSession exampleDb (superAdminUser "admin@example.com") .undefined (.hex 11)
        1000).1.status = 500 ∧
      (startSession exampleDb (superAdminUser "admin@example.com") .undefined (.hex 11)
        1000).2 = exampleDb := by
  decide

/-- C9: a session created by a successful `startSession` is appended to the
sessions, is ongoing, has `startedBy` equal to the caller id, `section` equal
to the requested section, `course` equal to the supplied courseId or else the
section's course, and takes its instructor binding from the section: the
section's instructor with `hardInstructor` false, or a null instructor with
`hardInstructor` true. -/
theorem startSession_session_fields (db : Db) (user : ReqUser) (courseId sectionId : JsVal)
    (now : Nat) (h : (startSession db user courseId sectionId now).1.status = 201) :
    ∃ sec session,
      findById db.sections Section._id sectionId = some (some sec) ∧
      (startSession db user courseId sectionId now).1.session = some session ∧
      (startSession db user courseId sectionId now).2.sessions = db.sessions ++ [session] ∧
      session.status = .ongoing ∧
      session.startedBy = user.id ∧
      session.sectionRef = sec._id ∧ castObjectId sectionId = some session.sectionRef ∧
      (courseId.truthy = true → castObjectId courseId = some session.course) ∧
      (courseId.truthy = false → session.course = sec.course) ∧
      ((session.instructor = sec.instructor ∧ sec.instructor ≠ none ∧
          session.hardInstructor = false) ∨
       (session.instructor = none ∧ session.hardInstructor = true ∧
          sec.hardInstructor = true)) := by
  obtain ⟨sec, course, instr, hard, hfind, -, hc, hbind, heq⟩ := startSession_created h
  refine ⟨sec, newSession db user sec course instr hard now, hfind, ?_, ?_, rfl, rfl, rfl,
    ?_, ?_, ?_, ?_⟩
  · rw [heq]
  · rw [heq]
  · obtain ⟨o, ho, hf⟩ := findById_some hfind
    have := List.find?_some hf
    simp only [beq_iff_eq] at this
    simp [newSession, ho, this]
  · intro ht
    simpa [finalCourseId, ht, newSession] using hc
  · intro ht
    unfold finalCourseId at hc
    simp only [ht, Bool.false_eq_true, ↓reduceIte] at hc
    cases hp : populateCourse db sec with
    | none => simp [hp, castObjectId] at hc
    | some c =>
      simp only [hp, castObjectId, Option.some.injEq] at hc
      simp [newSession, ← hc, populateCourse_some hp]
  · rcases hbind with ⟨u, hu, hi, hh⟩ | ⟨-, hsec, -, hi, hh⟩
    · left
      have := populateInstructor_some hu
      simp [newSession, hi, hh, this]
    · right
      simp [newSession, hi, hh, hsec]

/-- C9, for the session instructor 5 starts on section 10. -/
theorem startSession_session_fields_witness :
    (startSession exampleDb (dbReqUser (mkUser 5 "instructor")) .undefined (.hex 10)
        1000).1.status = 201 ∧
      ∃ sec session,
        findById exampleDb.sections Section._id (.hex 10) = some (some sec) ∧
        (startSession exampleDb (dbReqUser (mkUser 5 "instructor")) .undefined (.hex 10)
          1000).1.session = some session ∧
        (startSession exampleDb (dbReqUser (mkUser 5 "instructor")) .undefined (.hex 10)
          1000).2.sessions = exampleDb.sessions ++ [session] ∧
        session.status = .ongoing ∧
        session.startedBy = (dbReqUser (mkUser 5 "instructor")).id ∧
        session.sectionRef = sec._id ∧ castObjectId (.hex 10) = some session.sectionRef ∧
        (JsVal.undefined.truthy = true → castObjectId .undefined = some session.course) ∧
        (JsVal.undefined.truthy = false → session.course = sec.course) ∧
        ((session.instructor = sec.instructor ∧ sec.instructor ≠ none ∧
            session.hardInstructor = false) ∨
         (session.instructor = none ∧ session.hardInstructor = true ∧
            sec.hardInstructor = true)) :=
  ⟨by decide,
   startSession_session_fields exampleDb (dbReqUser (mkUser 5 "instructor")) .undefined
     (.hex 10) 1000 (by decide)⟩

/-- C10: for a session and a student `markAttendance` accepts (the session
exists, its section exists, the student id is in the enrolled list or in the
RFID table), starting from a ledger with no record for the pair, after any
number n >= 1 of calls every call was answered 200 and the pair has exactly one
record, present and stamped by the last call. -/
theorem markAttendance_repeated_single_record (db : Db) (sessionId studentId : JsVal)
    (times : List Nat) (session : Session) (sec : Section) (student : ObjectId)
    (hs : findById db.sessions Session._id sessionId = some (some session))
    (hsec : populateSection db session = some sec)
    (haccept : (includes (enrolledStrings db sec) studentId ||
      (findInRfidMap studentId).isSome) = true)
    (hcast : castObjectId studentId = some student)
    (hnone : pairRecords db session._id student = [])
    (hn : 1 ≤ times.length) :
    (∀ r ∈ (markRepeatedly sessionId studentId times db).1, r.status = 200) ∧
      (markRepeatedly sessionId studentId times db).1.length = times.length ∧
      ∃ record,
        pairRecords (markRepeatedly sessionId studentId times db).2 session._id student
          = [record] ∧
        record.status = .present ∧ record.checkInTime = times.getLast? :=
  markRepeatedly_spec sessionId studentId session sec student hcast times db
    (by intro h; rw [h] at hn; simp at hn) hs hsec haccept (by rw [hnone]; simp)

/-- C10, for three calls on student 1 in the session of `exampleStarted`. -/
theorem markAttendance_repeated_single_record_witness :
    (findById exampleStarted.sessions Session._id (.hex 100) = some (some exampleSession) ∧
      populateSection exampleStarted exampleSession = some exampleSection10 ∧
      (includes (enrolledStrings exampleStarted exampleSection10) (.hex 1) ||
        (findInRfidMap (.hex 1)).isSome) = true ∧
      castObjectId (.hex 1) = some 1 ∧
      pairRecords exampleStarted exampleSession._id 1 = [] ∧
      1 ≤ [1001, 1002, 1003].length) ∧
      ((∀ r ∈ (markRepeatedly (.hex 100) (.hex 1) [1001, 1002, 1003] exampleStarted).1,
          r.status = 200) ∧
        (markRepeatedly (.hex 100) (.hex 1) [1001, 1002, 1003] exampleStarted).1.length =
          [1001, 1002, 1003].length ∧
        ∃ record,
          pairRecords (markRepeatedly (.hex 100) (.hex 1) [1001, 1002, 1003] exampleStarted).2
            exampleSession._id 1 = [record] ∧
          record.status = .present ∧ record.checkInTime = [1001, 1002, 1003].getLast?) :=
  ⟨⟨by decide, by decide, by decide, by decide, by decide, by decide⟩,
   markAttendance_repeated_single_record exampleStarted (.hex 100) (.hex 1) [1001, 1002, 1003]
     exampleSession exampleSection10 1 (by decide) (by decide) (by decide) (by decide)
     (by decide) (by decide)⟩

/-! ## Lemmas for the claims C11 to C20 -/

/-- The test `enrolledIds.includes(studentId)` of the marking handlers: the id
string of a student of the section's enrolled list whose user document exists. -/
theorem populated_enrolled_iff (db : Db) (sec : Section) (studentId : JsVal) :
    includes (enrolledStrings db sec) studentId = true ↔
      ∃ id ∈ sec.enrolledStudents, (∃ u ∈ db.users, u._id = id) ∧ studentId = .hex id := by
  unfold includes enrolledStrings populateEnrolledStudents
  rw [List.any_eq_true]
  constructor
  · rintro ⟨x, hx, heq⟩
    obtain ⟨id, hid, rfl⟩ := List.mem_map.mp hx
    rw [List.mem_filter, List.any_eq_true] at hid
    obtain ⟨hmem, u, hu, hui⟩ := hid
    refine ⟨id, hmem, ⟨u, hu, by simpa using hui⟩, ?_⟩
    cases studentId <;> simp [JsVal.strictEq, ObjectId.toJsString] at heq ⊢
    exact heq.symm
  · rintro ⟨id, hmem, ⟨u, hu, hid⟩, rfl⟩
    refine ⟨.hex id, List.mem_map.mpr ⟨id, ?_, rfl⟩, by simp [JsVal.strictEq]⟩
    rw [List.mem_filter, List.any_eq_true]
    exact ⟨hmem, u, hu, by simpa using hid⟩


/-- The record the upsert returns is a record of the pair in the ledger
afterwards, with the status and check-in time written. -/
theorem upsertAttendance_mem (db : Db) (session student : ObjectId)
    (sectionId : Option ObjectId) (status : AttendanceStatus) (checkInTime : Option Nat) :
    (upsertAttendance db session student sectionId status checkInTime).1 ∈
        pairRecords (upsertAttendance db session student sectionId status checkInTime).2
          session student ∧
      (upsertAttendance db session student sectionId status checkInTime).1.status = status ∧
      (upsertAttendance db session student sectionId status checkInTime).1.checkInTime
        = checkInTime := by
  unfold upsertAttendance pairRecords
  cases hf : db.attendance.find? (fun a => a.session == session && a.student == student) with
  | none => simp [List.filter_append]
  | some old =>
    have hp := List.find?_some hf
    simp only [Bool.and_eq_true, beq_iff_eq] at hp
    refine ⟨?_, rfl, rfl⟩
    simp only
    rw [List.mem_filter]
    refine ⟨?_, by simp [hp]⟩
    exact mem_updateFirst _ (fun _ => _) _ _ hf

theorem valid_status_iff (status : JsVal) :
    includes [.str "present", .str "absent"] status = true ↔
      status = .str "present" ∨ status = .str "absent" := by
  cases status with
  | str s =>
    simp only [includes, List.any_cons, List.any_nil, JsVal.strictEq, Bool.or_false,
      Bool.or_eq_true, beq_iff_eq, JsVal.str.injEq]
    constructor <;> (rintro (h | h) <;> simp [h])
  | undefined => simp [includes, JsVal.strictEq]
  | hex o => simp [includes, JsVal.strictEq]
  | objectId o => simp [includes, JsVal.strictEq]

/-- A request status that is neither "present" nor "absent" is answered 400
"Invalid status" and the store is returned as it was. -/
theorem updateAttendanceManually_invalid (db : Db) (sessionId studentId status : JsVal)
    (now : Nat) (h1 : status ≠ .str "present") (h2 : status ≠ .str "absent") :
    updateAttendanceManually db sessionId studentId status now =
      ({ status := 400, message := some "Invalid status" }, db) := by
  have h : includes [.str "present", .str "absent"] status = false := by
    rw [← Bool.not_eq_true, valid_status_iff]
    exact fun h => h.elim h1 h2
  simp [updateAttendanceManually, h]

/-- One accepted `updateAttendanceManually`: answered 200; the pair, if it had
at most one record, now has exactly one, with the status of the request and a
check-in time only for "present"; users, sections and sessions are as before. -/
theorem updateAttendanceManually_accepted (db : Db) (sessionId studentId status : JsVal)
    (now : Nat) (session : Session) (sec : Section) (student : ObjectId)
    (hs : findById db.sessions Session._id sessionId = some (some session))
    (hsec : populateSection db session = some sec)
    (haccept : (includes (enrolledStrings db sec) studentId ||
      (findInRfidMap studentId).isSome) = true)
    (hcast : castObjectId studentId = some student)
    (hvalid : status = .str "present" ∨ status = .str "absent")
    (hle : (pairRecords db session._id student).length ≤ 1) :
    (updateAttendanceManually db sessionId studentId status now).1.status = 200 ∧
    (updateAttendanceManually db sessionId studentId status now).2.users = db.users ∧
    (updateAttendanceManually db sessionId studentId status now).2.sections = db.sections ∧
    (updateAttendanceManually db sessionId studentId status now).2.sessions = db.sessions ∧
    ∃ record,
      pairRecords (updateAttendanceManually db sessionId studentId status now).2 session._id
        student = [record] ∧
      record.status = statusOfRequest status ∧
      record.checkInTime = if status = .str "present" then some now else none := by
  have hv : includes [.str "present", .str "absent"] status = true :=
    (valid_status_iff status).mpr hvalid
  obtain ⟨record, h1, -, h3, h4⟩ :=
    upsertAttendance_pairRecords db session._id student (some sec._id)
      (if status.strictEq (.str "present") = true then .present else .absent)
      (if status.strictEq (.str "present") = true then some now else none) hle
  obtain ⟨f1, f2, f3, -⟩ :=
    upsertAttendance_frame db session._id student (some sec._id)
      (if status.strictEq (.str "present") = true then .present else .absent)
      (if status.strictEq (.str "present") = true then some now else none)
  simp only [updateAttendanceManually, hv, hs, hsec, haccept, hcast, Bool.not_true,
    Bool.false_eq_true, ↓reduceIte]
  refine ⟨trivial, f1, f2, f3, record, h1, ?_, ?_⟩
  · rw [h3]; rfl
  · rw [h4]
    rcases hvalid with h | h <;> subst h <;> simp [JsVal.strictEq]

theorem updateRepeatedly_spec (sessionId studentId : JsVal) (session : Session) (sec : Section)
    (student : ObjectId)
    (hcast : castObjectId studentId = some student) :
    ∀ (calls : List (JsVal × Nat)) (db : Db), calls ≠ [] →
      (∀ c ∈ calls, c.1 = .str "present" ∨ c.1 = .str "absent") →
      findById db.sessions Session._id sessionId = some (some session) →
      populateSection db session = some sec →
      (includes (enrolledStrings db sec) studentId || (findInRfidMap studentId).isSome) = true →
      (pairRecords db session._id student).length ≤ 1 →
      (∀ r ∈ (updateRepeatedly sessionId studentId calls db).1, r.status = 200) ∧
      (updateRepeatedly sessionId studentId calls db).1.length = calls.length ∧
      ∃ record,
        pairRecords (updateRepeatedly sessionId studentId calls db).2 session._id student
          = [record] ∧
        ∀ last, calls.getLast? = some last →
          record.status = statusOfRequest last.1 ∧
          record.checkInTime = if last.1 = .str "present" then some last.2 else none := by
  intro calls
  induction calls with
  | nil => intro db h; exact absurd rfl h
  | cons call rest ih =>
    intro db _ hvalid hs hsec haccept hle
    obtain ⟨status, now⟩ := call
    have hv0 : status = .str "present" ∨ status = .str "absent" :=
      hvalid (status, now) (List.mem_cons_self _ _)
    obtain ⟨h200, fu, fsec, fsess, record, hrec, hst, htime⟩ :=
      updateAttendanceManually_accepted db sessionId studentId status now session sec student
        hs hsec haccept hcast hv0 hle
    by_cases hrest : rest = []
    · subst hrest
      simp only [updateRepeatedly, List.mem_singleton, forall_eq, List.length_singleton,
        List.getLast?_singleton, Option.some.injEq]
      exact ⟨h200, trivial, record, hrec, fun last hl => by subst hl; exact ⟨hst, htime⟩⟩
    · have hs1 : findById (updateAttendanceManually db sessionId studentId status now).2.sessions
          Session._id sessionId = some (some session) := by rw [fsess]; exact hs
      have hsec1 : populateSection (updateAttendanceManually db sessionId studentId status now).2
          session = some sec := by
        unfold populateSection at hsec ⊢
        rw [fsec]; exact hsec
      have hacc1 : (includes
          (enrolledStrings (updateAttendanceManually db sessionId studentId status now).2 sec)
          studentId || (findInRfidMap studentId).isSome) = true := by
        unfold enrolledStrings populateEnrolledStudents at haccept ⊢
        rw [fu]; exact haccept
      have hle1 : (pairRecords (updateAttendanceManually db sessionId studentId status now).2
          session._id student).length ≤ 1 := by rw [hrec]; simp
      obtain ⟨a1, a2, rec2, a3, a4⟩ :=
        ih (updateAttendanceManually db sessionId studentId status now).2 hrest
          (fun c hc => hvalid c (List.mem_cons_of_mem _ hc)) hs1 hsec1 hacc1 hle1
      simp only [updateRepeatedly, List.mem_cons, forall_eq_or_imp, List.length_cons,
        add_left_inj]
      refine ⟨⟨h200, a1⟩, a2, rec2, a3, ?_⟩
      intro last hl
      apply a4
      cases rest with
      | nil => exact absurd rfl hrest
      | cons b l => simpa using hl

/-- A tag that `RFID_MAP[tag]` does not resolve (no own entry, no inherited
property) is answered 400 and nothing is written. -/
theorem recordRfidScan_unresolved_tag (db : Db) (scannedBy : Option ObjectId)
    (sessionId : JsVal) (tag : String) (now : Nat) (session : Session)
    (hs : findById db.sessions Session._id sessionId = some (some session))
    (htag : tag ≠ "") (hlookup : lookupRfidTag tag = none) :
    recordRfidScan db scannedBy sessionId (some tag) now =
      ({ status := 400, message := some ("Unknown RFID tag: " ++ tag) }, db) := by
  simp [recordRfidScan, htag, hs, hlookup]

/-- The handler `externalMarkAttendance` never stores anything and never
answers 201: the one document it tries to create lacks the required section. -/
theorem externalMarkAttendance_never_creates (db : Db) (sessionId studentId : JsVal)
    (now : Nat) :
    (externalMarkAttendance db sessionId studentId now).2 = db ∧
      (externalMarkAttendance db sessionId studentId now).1.status ≠ 201 := by
  unfold externalMarkAttendance
  repeat' (first | split | dsimp only)
  all_goals first
    | exact ⟨rfl, by simp [serverError]⟩
    | simp_all [createAttendance]

theorem length_updateFirst {α : Type} (p : α → Bool) (f : α → α) :
    ∀ xs : List α, (updateFirst p f xs).length = xs.length := by
  intro xs
  induction xs with
  | nil => rfl
  | cons a as ih =>
    unfold updateFirst
    split
    · simp
    · simp [ih]

theorem getElem_updateFirst {α : Type} (p : α → Bool) (f : α → α) :
    ∀ (xs : List α) (i : Nat) (x : α), xs[i]? = some x →
      (updateFirst p f xs)[i]? = some x ∨
        (p x = true ∧ (updateFirst p f xs)[i]? = some (f x)) := by
  intro xs
  induction xs with
  | nil => intro i x h; simp at h
  | cons a as ih =>
    intro i x h
    unfold updateFirst
    by_cases ha : p a = true
    · simp only [ha, ↓reduceIte]
      cases i with
      | zero =>
        simp only [List.getElem?_cons_zero, Option.some.injEq] at h
        subst h
        exact Or.inr ⟨ha, by simp⟩
      | succ j =>
        simp only [List.getElem?_cons_succ] at h ⊢
        exact Or.inl h
    · simp only [ha, Bool.false_eq_true, ↓reduceIte]
      cases i with
      | zero =>
        simp only [List.getElem?_cons_zero] at h ⊢
        exact Or.inl h
      | succ j =>
        simp only [List.getElem?_cons_succ] at h ⊢
        exact ih j x h

theorem getElem_append_of_some {α : Type} {xs ys : List α} {i : Nat} {x : α}
    (h : xs[i]? = some x) : (xs ++ ys)[i]? = some x := by
  have hlt : i < xs.length := by
    rcases List.getElem?_eq_some.mp h with ⟨hlt, -⟩
    exact hlt
  rw [List.getElem?_append_left hlt]
  exact h

/-- What a camera call does to the store: nothing, or one log is created for
the session id the request names and its reference is pushed to the session
with that id. -/
theorem cameraCall_effect (db : Db) (c : CameraCall) :
    (c.run db).2 = db ∨
      ∃ sid log, castObjectId c.target = some sid ∧
        (c.run db).2 =
          pushCameraLog { db with cameraLogs := db.cameraLogs ++ [log], nextId := db.nextId + 1 }
            sid log._id := by
  cases c with
  | captureFrame sessionId image flask =>
    simp only [CameraCall.run, CameraCall.target]
    unfold captureFrame
    rcases image with _ | image
    · exact Or.inl rfl
    · by_cases hi : image = ""
      · simp [hi]
      · rcases flask with _ | data
        · simp [hi]
        · rcases hc : castObjectId sessionId with _ | sid
          · simp [hi, createCameraLog, hc]
          · right
            simp only [hi, createCameraLog, hc, beq_iff_eq, ↓reduceIte]
            exact ⟨sid, _, rfl, rfl⟩
  | sessionCaptureFrame id image flask =>
    simp only [CameraCall.run, CameraCall.target]
    unfold sessionCaptureFrame
    rcases image with _ | image
    · exact Or.inl rfl
    · by_cases hi : image = ""
      · simp [hi]
      · rcases flask with _ | data
        · simp [hi]
        · rcases hc : castObjectId id with _ | sid
          · simp [hi, createCameraLog, hc]
          · right
            simp only [hi, createCameraLog, hc, beq_iff_eq, ↓reduceIte]
            exact ⟨sid, _, rfl, rfl⟩
  | logCameraEvent sessionId facesDetected =>
    left
    simp [CameraCall.run, logCameraEvent, createCameraLog, castObjectId]

/-- The sessions after a camera call, one by one. -/
theorem cameraCall_sessions (db : Db) (c : CameraCall) (i : Nat) (s : Session)
    (h : db.sessions[i]? = some s) :
    ∃ s1, (c.run db).2.sessions[i]? = some s1 ∧
      (s1 = s ∨ (castObjectId c.target = some s._id ∧
        ∃ l, s1 = { s with cameraLogs := s.cameraLogs ++ [l] })) := by
  rcases cameraCall_effect db c with heq | ⟨sid, log, hc, heq⟩
  · rw [heq]; exact ⟨s, h, Or.inl rfl⟩
  · rw [heq]
    simp only [pushCameraLog]
    rcases getElem_updateFirst (fun x => x._id == sid)
        (fun x => { x with cameraLogs := x.cameraLogs ++ [log._id] }) db.sessions i s h with
      h1 | ⟨hp, h1⟩
    · exact ⟨s, h1, Or.inl rfl⟩
    · refine ⟨_, h1, Or.inr ⟨?_, log._id, rfl⟩⟩
      simp only [beq_iff_eq] at hp
      rw [hc, hp]

theorem sessionRead_instructor (r : SessionRead) (env : Env) (db : Db) (id : JsVal)
    (session : Session)
    (hs : findById db.sessions Session._id id = some (some session)) :
    r.instructor env db id = returnedInstructor env db session := by
  cases r <;>
    simp [SessionRead.instructor, SessionRead.run, getSessionById, getSessionDetails, hs,
      sessionView]

theorem populateSessionInstructor_ne_standIn (env : Env) (db : Db) (session : Session) :
    populateSessionInstructor db session ≠ some (standInInstructor env) := by
  unfold populateSessionInstructor standInInstructor
  cases session.instructor with
  | none => simp
  | some i =>
    cases db.users.find? (fun u => u._id == i) with
    | none => simp
    | some u => simp

/-- The sessions after a call of one of the API handlers, one by one. -/
theorem apiCall_sessions (db : Db) (c : ApiCall) (i : Nat) (s : Session)
    (h : db.sessions[i]? = some s) :
    ∃ s1, (c.apply db).sessions[i]? = some s1 ∧ sessionStep (.api c) s s1 := by
  have same : ∀ db1 : Db, db1.sessions = db.sessions →
      ∃ s1, db1.sessions[i]? = some s1 ∧ ∀ c1, sessionStep c1 s s1 := by
    intro db1 heq
    refine ⟨s, by rw [heq]; exact h, fun c1 => ⟨rfl, fun hs => hs, fun _ => ⟨rfl, rfl, [], ?_⟩⟩⟩
    simp
  cases c with
  | startSession caller courseId sectionId now =>
    by_cases h201 : (startSession db caller.reqUser courseId sectionId now).1.status = 201
    · obtain ⟨sec, course, instr, hard, -, -, -, -, heq⟩ := startSession_created h201
      refine ⟨s, ?_, rfl, fun hs => hs, fun _ => ⟨rfl, rfl, [], by simp⟩⟩
      simp only [ApiCall.apply, heq]
      exact getElem_append_of_some h
    · obtain ⟨s1, h1, h2⟩ := same (startSession db caller.reqUser courseId sectionId now).2
        (by rw [startSession_not_created h201])
      exact ⟨s1, h1, h2 _⟩
  | endSession sessionId now =>
    by_cases h200 : (endSession db sessionId now).1.status = 200
    · obtain ⟨session, -, -, hs⟩ := endSession_ok h200
      simp only [ApiCall.apply, hs]
      rcases getElem_updateFirst (fun x => x._id == session._id)
          (fun _ => { session with status := .ended, endTime := some now }) db.sessions i s h with
        h1 | ⟨hp, h1⟩
      · exact ⟨s, h1, rfl, fun hs => hs, fun hc => by simp [HandlerCall.isEndSession] at hc⟩
      · simp only [beq_iff_eq] at hp
        exact ⟨_, h1, hp.symm, fun _ => rfl,
          fun hc => by simp [HandlerCall.isEndSession] at hc⟩
    · obtain ⟨s1, h1, h2⟩ := same (endSession db sessionId now).2
        (by rw [endSession_not_ok h200])
      exact ⟨s1, h1, h2 _⟩
  | markAttendance sessionId studentId now =>
    obtain ⟨s1, h1, h2⟩ := same _ (markAttendance_sessions db sessionId studentId now)
    exact ⟨s1, h1, h2 _⟩
  | updateAttendanceManually sessionId studentId status now =>
    obtain ⟨s1, h1, h2⟩ :=
      same _ (updateAttendanceManually_sessions db sessionId studentId status now)
    exact ⟨s1, h1, h2 _⟩
  | recordRfidScan caller sessionId tag now =>
    obtain ⟨s1, h1, h2⟩ := same _ (recordRfidScan_sessions db caller.docId sessionId tag now)
    exact ⟨s1, h1, h2 _⟩
  | externalMarkAttendance sessionId studentId now =>
    obtain ⟨s1, h1, h2⟩ := same _ (externalMarkAttendance_sessions db sessionId studentId now)
    exact ⟨s1, h1, h2 _⟩
  | createSection courseId name instructorId =>
    obtain ⟨s1, h1, h2⟩ := same _ (createSection_sessions db courseId name instructorId)
    exact ⟨s1, h1, h2 _⟩
  | assignInstructor sectionId instructorId =>
    obtain ⟨s1, h1, h2⟩ := same _ (assignInstructor_sessions db sectionId instructorId)
    exact ⟨s1, h1, h2 _⟩

/-- The sessions after any handler call, one by one. -/
theorem handlerCall_sessions (db : Db) (c : HandlerCall) (i : Nat) (s : Session)
    (h : db.sessions[i]? = some s) :
    ∃ s1, (c.apply db).sessions[i]? = some s1 ∧ sessionStep c s s1 := by
  cases c with
  | api c => exact apiCall_sessions db c i s h
  | camera c =>
    obtain ⟨s1, h1, h2⟩ := cameraCall_sessions db c i s h
    refine ⟨s1, h1, ?_⟩
    rcases h2 with h2 | ⟨-, l, hl⟩
    · subst h2
      exact ⟨rfl, fun hs => hs, fun _ => ⟨rfl, rfl, [], by simp⟩⟩
    · subst hl
      exact ⟨rfl, fun hs => hs, fun _ => ⟨rfl, rfl, [l], rfl⟩⟩
  | deleteSection sectionId =>
    refine ⟨s, ?_, rfl, fun hs => hs, fun _ => ⟨rfl, rfl, [], by simp⟩⟩
    have hsame : (deleteSection db sectionId).2.sessions = db.sessions := by
      unfold deleteSection
      repeat' (first | split | dsimp only)
    simp only [HandlerCall.apply, hsame]
    exact h
  | deleteUser id =>
    refine ⟨s, ?_, rfl, fun hs => hs, fun _ => ⟨rfl, rfl, [], by simp⟩⟩
    have hsame : (deleteUser db id).2.sessions = db.sessions := by
      unfold deleteUser
      repeat' (first | split | dsimp only)
    simp only [HandlerCall.apply, hsame]
    exact h

theorem ended_stays_ended (calls : List HandlerCall) :
    ∀ (db : Db) (i : Nat) (s : Session), db.sessions[i]? = some s → s.status = .ended →
      ∃ s1, (runHandlers db calls).sessions[i]? = some s1 ∧ s1._id = s._id ∧
        s1.status = .ended := by
  induction calls with
  | nil => intro db i s h hs; exact ⟨s, h, rfl, hs⟩
  | cons c rest ih =>
    intro db i s h hs
    obtain ⟨s1, h1, hid, hend, -⟩ := handlerCall_sessions db c i s h
    obtain ⟨s2, h2, hid2, hend2⟩ := ih (c.apply db) i s1 h1 (hend hs)
    exact ⟨s2, h2, hid2.trans hid, hend2⟩

/-! ## The claims C11 to C20 -/

/-- C11: for a session and an accepted student with at most one record for the
pair, after any non-empty sequence of `updateAttendanceManually` calls with
status "present" or "absent" every call was answered 200 and the pair has
exactly one record, whose status is the status of the last call and whose
checkInTime is null exactly when that status is "absent" (the time of the call
otherwise); and a call whose status is neither "present" nor "absent" is
answered 400 "Invalid status" and changes nothing. -/
theorem updateAttendanceManually_last_write_wins (db : Db) (sessionId studentId : JsVal)
    (calls : List (JsVal × Nat)) (session : Session) (sec : Section) (student : ObjectId)
    (hs : findById db.sessions Session._id sessionId = some (some session))
    (hsec : populateSection db session = some sec)
    (haccept : (includes (enrolledStrings db sec) studentId ||
      (findInRfidMap studentId).isSome) = true)
    (hcast : castObjectId studentId = some student)
    (hle : (pairRecords db session._id student).length ≤ 1)
    (hn : 1 ≤ calls.length)
    (hvalid : ∀ c ∈ calls, c.1 = .str "present" ∨ c.1 = .str "absent") :
    ((∀ r ∈ (updateRepeatedly sessionId studentId calls db).1, r.status = 200) ∧
      ∃ record,
        pairRecords (updateRepeatedly sessionId studentId calls db).2 session._id student
          = [record] ∧
        ∀ last, calls.getLast? = some last →
          (last.1 = .str "present" → record.status = .present) ∧
          (last.1 = .str "absent" → record.status = .absent) ∧
          (record.checkInTime = none ↔ last.1 = .str "absent") ∧
          (last.1 = .str "present" → record.checkInTime = some last.2)) ∧
    (∀ (db1 : Db) (sessionId1 studentId1 status : JsVal) (now : Nat),
      status ≠ .str "present" → status ≠ .str "absent" →
      updateAttendanceManually db1 sessionId1 studentId1 status now =
        ({ status := 400, message := some "Invalid status" }, db1)) := by
  refine ⟨?_, fun db1 a b status now h1 h2 =>
    updateAttendanceManually_invalid db1 a b status now h1 h2⟩
  obtain ⟨h1, -, record, h3, h4⟩ :=
    updateRepeatedly_spec sessionId studentId session sec student hcast calls db
      (by intro h; rw [h] at hn; simp at hn) hvalid hs hsec haccept hle
  refine ⟨h1, record, h3, ?_⟩
  intro last hl
  obtain ⟨hst, htime⟩ := h4 last hl
  have hv : last.1 = .str "present" ∨ last.1 = .str "absent" :=
    hvalid last (List.mem_of_mem_getLast? hl)
  rcases hv with hv | hv
  · simp [hst, htime, hv, statusOfRequest, JsVal.strictEq]
  · simp [hst, htime, hv, statusOfRequest, JsVal.strictEq]

/-- C11, for the calls present, absent on student 1 in the session of
`exampleStarted`. -/
theorem updateAttendanceManually_last_write_wins_witness :
    (findById exampleStarted.sessions Session._id (.hex 100) = some (some exampleSession) ∧
      populateSection exampleStarted exampleSession = some exampleSection10 ∧
      (pairRecords exampleStarted exampleSession._id 1).length ≤ 1) ∧
      ∃ record,
        pairRecords (updateRepeatedly (.hex 100) (.hex 1)
          [(.str "present", 1001), (.str "absent", 1002)] exampleStarted).2
          exampleSession._id 1 = [record] ∧
        ∀ last, [(JsVal.str "present", 1001), (JsVal.str "absent", 1002)].getLast? = some last →
          (last.1 = .str "present" → record.status = .present) ∧
          (last.1 = .str "absent" → record.status = .absent) ∧
          (record.checkInTime = none ↔ last.1 = .str "absent") ∧
          (last.1 = .str "present" → record.checkInTime = some last.2) :=
  ⟨⟨by decide, by decide, by decide⟩,
   (updateAttendanceManually_last_write_wins exampleStarted (.hex 100) (.hex 1)
     [(.str "present", 1001), (.str "absent", 1002)] exampleSession exampleSection10 1
     (by decide) (by decide) (by decide) (by decide) (by decide) (by decide)
     (by decide)).1.2⟩

/-- C12 (as stated it fails): session 100 exists and the student id is the
`student` of the first entry of the RFID table, but the section of the session
has been deleted: `markAttendance` answers 500 "Session missing section" and
writes nothing, neither the 400 nor the upsert of the claim.  And with the
section in place: student 2 is in the enrolled list of section 10, the user
document of student 2 has been deleted, and `markAttendance` for student 2
answers 400 "Student not enrolled". -/
theorem markAttendance_session_without_section :
    (findById exampleSectionDeleted.sessions Session._id (.hex 100) = some (some exampleSession) ∧
      (findInRfidMap (.hex 0x652ab1234abcde67890f1234)).isSome = true ∧
      markAttendance exampleSectionDeleted (.hex 100) (.hex 0x652ab1234abcde67890f1234) 1001 =
        ({ status := 500, message := some "Session missing section" },
         exampleSectionDeleted)) ∧
    (findById exampleStudentDeleted.sessions Session._id (.hex 100) = some (some exampleSession) ∧
      populateSection exampleStudentDeleted exampleSession = some exampleSection10 ∧
      2 ∈ exampleSection10.enrolledStudents ∧
      markAttendance exampleStudentDeleted (.hex 100) (.hex 2) 1001 =
        ({ status := 400, message := some "Student not enrolled" }, exampleStudentDeleted)) := by
  decide

/-- C12 (amended): for every existing session whose section exists and every
student id, `markAttendance` answers 400 "Student not enrolled" and writes
nothing if and only if the id is neither in the populated enrolled list of the
section nor the `student` of an entry of the RFID table; otherwise it answers
200 with the record of the pair it has upserted, present and stamped with the
time of the call.  The populated list holds the id strings of the students of
the section's enrolled list whose user document exists. -/
theorem markAttendance_enrolment_check (db : Db) (sessionId studentId : JsVal) (now : Nat)
    (session : Session) (sec : Section)
    (hs : findById db.sessions Session._id sessionId = some (some session))
    (hsec : populateSection db session = some sec) :
    (markAttendance db sessionId studentId now =
        ({ status := 400, message := some "Student not enrolled" }, db) ↔
      (includes (enrolledStrings db sec) studentId = false ∧ findInRfidMap studentId = none)) ∧
    (¬ (includes (enrolledStrings db sec) studentId = false ∧ findInRfidMap studentId = none) →
      ∃ student record, castObjectId studentId = some student ∧
        (markAttendance db sessionId studentId now).1 =
          { status := 200, attendance := some record } ∧
        (markAttendance db sessionId studentId now).2 =
          (upsertAttendance db session._id student (some sec._id) .present (some now)).2 ∧
        record ∈ pairRecords (markAttendance db sessionId studentId now).2 session._id student ∧
        record.status = .present ∧ record.checkInTime = some now) ∧
    (includes (enrolledStrings db sec) studentId = true ↔
      ∃ id ∈ sec.enrolledStudents, (∃ u ∈ db.users, u._id = id) ∧ studentId = .hex id) := by
  refine and_assoc.mp ⟨?_, populated_enrolled_iff db sec studentId⟩
  by_cases hacc : (includes (enrolledStrings db sec) studentId ||
      (findInRfidMap studentId).isSome) = true
  · obtain ⟨student, hcast⟩ := accepted_student_casts hacc
    have hneg : ¬ (includes (enrolledStrings db sec) studentId = false ∧
        findInRfidMap studentId = none) := by
      rintro ⟨h1, h2⟩
      simp [h1, h2] at hacc
    obtain ⟨m1, m2, m3⟩ :=
      upsertAttendance_mem db session._id student (some sec._id) .present (some now)
    have heq : markAttendance db sessionId studentId now =
        ({ status := 200,
           attendance := some (upsertAttendance db session._id student (some sec._id)
             .present (some now)).1 },
         (upsertAttendance db session._id student (some sec._id) .present (some now)).2) := by
      simp only [markAttendance, hs, hsec, hacc, hcast, Bool.not_true, Bool.false_eq_true,
        ↓reduceIte]
    refine ⟨⟨fun h => ?_, fun h => absurd h hneg⟩, fun _ => ?_⟩
    · rw [heq] at h
      have := congrArg (fun p => p.1.status) h
      simp at this
    · exact ⟨student, _, hcast, by rw [heq], by rw [heq], by rw [heq]; exact m1, m2, m3⟩
  · have hboth : includes (enrolledStrings db sec) studentId = false ∧
        findInRfidMap studentId = none := by
      cases h2 : findInRfidMap studentId <;> simp_all
    refine ⟨⟨fun _ => hboth, fun _ => ?_⟩, fun h => absurd hboth h⟩
    simp only [Bool.not_eq_true] at hacc
    simp only [markAttendance, hs, hsec, hacc, Bool.not_false, ↓reduceIte]

/-- C12 (amended), for the student 9, neither enrolled in section 10 nor in
the RFID table. -/
theorem markAttendance_enrolment_check_witness :
    (findById exampleStarted.sessions Session._id (.hex 100) = some (some exampleSession) ∧
      populateSection exampleStarted exampleSession = some exampleSection10) ∧
      (markAttendance exampleStarted (.hex 100) (.hex 9) 1001 =
          ({ status := 400, message := some "Student not enrolled" }, exampleStarted) ↔
        (includes (enrolledStrings exampleStarted exampleSection10) (.hex 9) = false ∧
          findInRfidMap (.hex 9) = none)) :=
  ⟨⟨by decide, by decide⟩,
   (markAttendance_enrolment_check exampleStarted (.hex 100) (.hex 9) 1001 exampleSession
     exampleSection10 (by decide) (by decide)).1⟩

/-- C13 (the code departs from the claim): the tag "constructor" is not a key
of the RFID table, yet `RFID_MAP["constructor"]` is the inherited property of
`Object.prototype`: for the existing session 100 `recordRfidScan` answers 200
and writes an RfidScan row (no attendance record). -/
theorem recordRfidScan_inherited_key :
    RFID_MAP.find? (fun kv => kv.1 == "constructor") = none ∧
      findById exampleStarted.sessions Session._id (.hex 100) = some (some exampleSession) ∧
      (recordRfidScan exampleStarted (some 5) (.hex 100) (some "constructor") 1001).1.status
        = 200 ∧
      exampleStarted.rfidScans = [] ∧
      (recordRfidScan exampleStarted (some 5) (.hex 100) (some "constructor")
        1001).2.rfidScans.map (fun scan => (scan._id, scan.session, scan.student, scan.scannedBy))
        = [(101, 100, none, some 5)] ∧
      (recordRfidScan exampleStarted (some 5) (.hex 100) (some "constructor")
        1001).2.attendance = exampleStarted.attendance := by
  decide

/-- C14: with a signing secret configured, a login whose email and password
equal the configured admin email and password is answered with a token and a
user whose id is the literal "superadmin" and whose role is "admin", whatever
the user store holds and whatever the password check would say: the store is
not consulted. -/
theorem login_admin_credentials (env : Env) (users : List User)
    (compare : String → String → Bool) (email password : Option String) (secret : String)
    (hsecret : env.JWT_SECRET = some secret) (hnonempty : secret ≠ "")
    (hemail : email = env.ADMIN_EMAIL) (hpassword : password = env.ADMIN_PASSWORD) :
    login env users compare email password =
      { status := 200,
        user := some { id := .str "superadmin", name := "Super Admin", email := email,
                       role := "admin" },
        token := some { payload := { id := .str "superadmin", role := "admin",
                                     name := "Super Admin", email := email },
                        secret := secret } } := by
  simp [login, loginAnswer, jwtSign, hsecret, hnonempty, hemail, hpassword]

/-- C14, with a stored student that has the admin email and a password check
that accepts everything. -/
theorem login_admin_credentials_witness :
    (exampleEnv.JWT_SECRET = some "jwt-secret" ∧
      some "admin@classtrack.com" = exampleEnv.ADMIN_EMAIL ∧
      some "admin-secret" = exampleEnv.ADMIN_PASSWORD) ∧
      login exampleEnv
          [{ _id := 7, name := "Mallory", email := "admin@classtrack.com",
             passwordHash := "hash", role := "student" }]
          (fun _ _ => true) (some "admin@classtrack.com") (some "admin-secret") =
        { status := 200,
          user := some { id := .str "superadmin", name := "Super Admin",
                         email := some "admin@classtrack.com", role := "admin" },
          token := some { payload := { id := .str "superadmin", role := "admin",
                                       name := "Super Admin",
                                       email := some "admin@classtrack.com" },
                          secret := "jwt-secret" } } :=
  ⟨⟨by decide, by decide, by decide⟩,
   login_admin_credentials exampleEnv _ _ (some "admin@classtrack.com") (some "admin-secret")
     "jwt-secret" (by decide) (by decide) (by decide) (by decide)⟩

/-- C15 (the code departs from the claim): session 100 exists, the student 1
exists and the pair has no record, yet `externalMarkAttendance` answers 500 and
stores nothing: the document it creates has no `section`, which the schema
requires. -/
theorem externalMarkAttendance_fails_validation :
    findById exampleStarted.sessions Session._id (.hex 100) = some (some exampleSession) ∧
      findById exampleStarted.users User._id (.hex 1) = some (some (mkUser 1 "student")) ∧
      pairRecords exampleStarted 100 1 = [] ∧
      externalMarkAttendance exampleStarted (.hex 100) (.hex 1) 1001 =
        (serverError "Server error" "Attendance validation failed", exampleStarted) := by
  decide

/-- C16: when the session exists, the student exists and the pair already has
an attendance record, `externalMarkAttendance` answers 200 with the record of
the pair it found and `alreadyMarked` true, and returns the store unchanged. -/
theorem externalMarkAttendance_already_marked (db : Db) (sessionId studentId : JsVal)
    (now : Nat) (session : Session) (student : User)
    (hs : findById db.sessions Session._id sessionId = some (some session))
    (hu : findById db.users User._id studentId = some (some student))
    (hrecord : pairRecords db session._id student._id ≠ []) :
    ∃ record, record ∈ pairRecords db session._id student._id ∧
      externalMarkAttendance db sessionId studentId now =
        ({ status := 200, attendance := some record, alreadyMarked := true }, db) := by
  have ht1 : sessionId.truthy = true := by
    obtain ⟨o, ho, -⟩ := findById_some hs
    cases sessionId <;> simp [castObjectId, JsVal.truthy] at ho ⊢
  have ht2 : studentId.truthy = true := by
    obtain ⟨o, ho, -⟩ := findById_some hu
    cases studentId <;> simp [castObjectId, JsVal.truthy] at ho ⊢
  cases hf : db.attendance.find?
      (fun a => a.session == session._id && a.student == student._id) with
  | none =>
    exfalso
    apply hrecord
    unfold pairRecords
    rw [List.filter_eq_nil_iff]
    intro a ha
    exact List.find?_eq_none.mp hf a ha
  | some record =>
    refine ⟨record, ?_, ?_⟩
    · unfold pairRecords
      rw [List.mem_filter]
      have hp := List.find?_some hf
      exact ⟨List.mem_of_find?_eq_some hf, hp⟩
    · simp [externalMarkAttendance, ht1, ht2, hs, hu, hf]

/-- C16, for the present record of student 1 in `exampleMarked`. -/
theorem externalMarkAttendance_already_marked_witness :
    (findById exampleMarked.sessions Session._id (.hex 100) = some (some exampleSession) ∧
      findById exampleMarked.users User._id (.hex 1) = some (some (mkUser 1 "student")) ∧
      pairRecords exampleMarked exampleSession._id (mkUser 1 "student")._id ≠ []) ∧
      ∃ record, record ∈ pairRecords exampleMarked exampleSession._id (mkUser 1 "student")._id ∧
        externalMarkAttendance exampleMarked (.hex 100) (.hex 1) 2000 =
          ({ status := 200, attendance := some record, alreadyMarked := true },
           exampleMarked) :=
  ⟨⟨by decide, by decide, by decide⟩,
   externalMarkAttendance_already_marked exampleMarked (.hex 100) (.hex 1) 2000 exampleSession
     (mkUser 1 "student") (by decide) (by decide) (by decide)⟩

/-- C17: whatever the request and the outcome, the three camera handlers
leave the attendance records, the users, the courses, the sections and the
RFID scans as they are; camera logs are only added, the sessions stay in
number, and each session is as before or, if it is the session the request
names, has log references appended. -/
theorem camera_handlers_frame (db : Db) (c : CameraCall) :
    (c.run db).2.attendance = db.attendance ∧
      (c.run db).2.users = db.users ∧
      (c.run db).2.courses = db.courses ∧
      (c.run db).2.sections = db.sections ∧
      (c.run db).2.rfidScans = db.rfidScans ∧
      (∃ logs, (c.run db).2.cameraLogs = db.cameraLogs ++ logs) ∧
      (c.run db).2.sessions.length = db.sessions.length ∧
      ∀ (i : Nat) (s : Session), db.sessions[i]? = some s →
        ∃ s1, (c.run db).2.sessions[i]? = some s1 ∧ cameraLogsAppended c.target s s1 := by
  have hlast : ∀ (i : Nat) (s : Session), db.sessions[i]? = some s →
      ∃ s1, (c.run db).2.sessions[i]? = some s1 ∧ cameraLogsAppended c.target s s1 := by
    intro i s h
    obtain ⟨s1, h1, h2⟩ := cameraCall_sessions db c i s h
    refine ⟨s1, h1, ?_⟩
    rcases h2 with h2 | ⟨hc, l, hl⟩
    · exact Or.inl h2
    · exact Or.inr ⟨hc, [l], hl⟩
  rcases cameraCall_effect db c with heq | ⟨sid, log, -, heq⟩
  · exact ⟨by rw [heq], by rw [heq], by rw [heq], by rw [heq], by rw [heq],
      ⟨[], by rw [heq]; simp⟩, by rw [heq], hlast⟩
  · exact ⟨by rw [heq]; rfl, by rw [heq]; rfl, by rw [heq]; rfl, by rw [heq]; rfl,
      by rw [heq]; rfl, ⟨[log], by rw [heq]; rfl⟩,
      by rw [heq]; simp [pushCameraLog, length_updateFirst], hlast⟩

/-- C18: with the key taken as the query parameter `key` or else the header
`x-api-key`, `requireApiKey` passes the request on if and only if the key is
present and is the configured SESSION_API_KEY; a missing key is answered 401,
a present key that differs 403. -/
theorem requireApiKey_spec (env : Env) (queryKey headerKey : KeyValue) :
    requestKey queryKey headerKey = (if queryKey.truthy then queryKey else headerKey) ∧
    (requireApiKey env queryKey headerKey = .next ↔
      (requestKey queryKey headerKey).truthy = true ∧
        ∃ k, requestKey queryKey headerKey = .text k ∧ env.SESSION_API_KEY = some k) ∧
    ((requestKey queryKey headerKey).truthy = false →
      requireApiKey env queryKey headerKey = .respond 401 "API key required") ∧
    ((requestKey queryKey headerKey).truthy = true →
      (¬ ∃ k, requestKey queryKey headerKey = .text k ∧ env.SESSION_API_KEY = some k) →
      requireApiKey env queryKey headerKey = .respond 403 "Forbidden. Invalid API key.") := by
  refine ⟨rfl, ?_, ?_, ?_⟩
  · unfold requireApiKey
    cases hk : requestKey queryKey headerKey with
    | missing => simp [KeyValue.truthy]
    | nonString => simp [KeyValue.truthy, KeyValue.differsFrom]
    | text s =>
      by_cases hs : s = ""
      · subst hs; simp [KeyValue.truthy]
      · cases hc : env.SESSION_API_KEY with
        | none => simp [KeyValue.truthy, KeyValue.differsFrom, hs]
        | some c =>
          by_cases hsc : s = c
          · subst hsc; simp [KeyValue.truthy, KeyValue.differsFrom, hs]
          · simp [KeyValue.truthy, KeyValue.differsFrom, hs, hsc, Ne.symm hsc]
  · intro h
    simp [requireApiKey, h]
  · intro h hne
    unfold requireApiKey
    cases hk : requestKey queryKey headerKey with
    | missing => simp [hk, KeyValue.truthy] at h
    | nonString => simp [KeyValue.truthy, KeyValue.differsFrom]
    | text s =>
      have hs : s ≠ "" := by
        intro hs; subst hs; simp [hk, KeyValue.truthy] at h
      cases hc : env.SESSION_API_KEY with
      | none => simp [KeyValue.truthy, KeyValue.differsFrom, hs]
      | some c =>
        have hsc : s ≠ c := by
          intro hsc; subst hsc
          exact hne ⟨s, hk, hc⟩
        simp [KeyValue.truthy, KeyValue.differsFrom, hs, hsc]

/-- C18, for the configured key sent in the header. -/
theorem requireApiKey_spec_witness :
    requireApiKey exampleEnv .missing (.text "api-key") = .next ∧
      requireApiKey exampleEnv .missing .missing = .respond 401 "API key required" ∧
      requireApiKey exampleEnv (.text "guess") (.text "api-key") =
        .respond 403 "Forbidden. Invalid API key." :=
  ⟨((requireApiKey_spec exampleEnv .missing (.text "api-key")).2.1).mpr
     ⟨by decide, "api-key", by decide, by decide⟩,
   (requireApiKey_spec exampleEnv .missing .missing).2.2.1 (by decide),
   (requireApiKey_spec exampleEnv (.text "guess") (.text "api-key")).2.2.2 (by decide)
     (by rintro ⟨k, h1, h2⟩
         have h3 : KeyValue.text "guess" = KeyValue.text k := h1
         have h4 : some "api-key" = some k := h2
         rw [KeyValue.text.injEq] at h3
         rw [Option.some.injEq] at h4
         exact absurd (h3.trans h4.symm) (by decide))⟩

/-- C19 (as stated it fails): the stored session 100 has the instructor
reference 5 and `hardInstructor` false, the user 5 has been deleted, and both
read handlers return the synthesized stand-in as its instructor. -/
theorem stand_in_returned_without_flag :
    (findById exampleInstructorDeleted.sessions Session._id (.hex 100)).map
        (Option.map (fun s => (s.instructor, s.hardInstructor))) =
        some (some (some 5, false)) ∧
      SessionRead.byId.instructor exampleEnv exampleInstructorDeleted (.hex 100) =
        some (standInInstructor exampleEnv) ∧
      SessionRead.details.instructor exampleEnv exampleInstructorDeleted (.hex 100) =
        some (standInInstructor exampleEnv) := by
  decide

/-- C19 (amended): for every session read by `getSessionById` or
`getSessionDetails`, the returned instructor is the synthesized stand-in if and
only if the stored session's flag `hardInstructor` is set or its populated
instructor is null (no reference, or the referenced user is gone); in every
other case the returned instructor is the populated instructor unchanged. -/
theorem returned_instructor_stand_in_iff (r : SessionRead) (env : Env) (db : Db) (id : JsVal)
    (session : Session)
    (hs : findById db.sessions Session._id id = some (some session)) :
    (r.instructor env db id = some (standInInstructor env) ↔
      (session.hardInstructor = true ∨ populateSessionInstructor db session = none)) ∧
    (¬ (session.hardInstructor = true ∨ populateSessionInstructor db session = none) →
      r.instructor env db id = populateSessionInstructor db session) := by
  rw [sessionRead_instructor r env db id session hs]
  unfold returnedInstructor
  by_cases hc : (session.hardInstructor || (populateSessionInstructor db session).isNone) = true
  · have hor : session.hardInstructor = true ∨ populateSessionInstructor db session = none := by
      simpa using hc
    simp only [hc, ↓reduceIte, true_iff]
    exact ⟨hor, fun h => absurd hor h⟩
  · have hnot : ¬ (session.hardInstructor = true ∨
        populateSessionInstructor db session = none) := by
      simpa using hc
    simp only [hc, Bool.false_eq_true, ↓reduceIte]
    refine ⟨⟨fun h => absurd h (populateSessionInstructor_ne_standIn env db session),
      fun h => absurd h hnot⟩, fun _ => trivial⟩

/-- C19 (amended), for session 100 of `exampleStarted`, whose instructor 5
exists. -/
theorem returned_instructor_stand_in_iff_witness :
    findById exampleStarted.sessions Session._id (.hex 100) = some (some exampleSession) ∧
      (¬ (exampleSession.hardInstructor = true ∨
          populateSessionInstructor exampleStarted exampleSession = none) →
        SessionRead.byId.instructor exampleEnv exampleStarted (.hex 100) =
          populateSessionInstructor exampleStarted exampleSession) :=
  ⟨by decide,
   (returned_instructor_stand_in_iff .byId exampleEnv exampleStarted (.hex 100) exampleSession
     (by decide)).2⟩

/-- C20: a session that exists before a handler call is still there after it
with the same id; unless the call is `endSession` its status and end time are
unchanged and at most camera log references were appended; and once a session
is ended it is ended after every sequence of handler calls. -/
theorem session_status_changes_only_by_endSession (db : Db) (i : Nat) (s : Session)
    (h : db.sessions[i]? = some s) :
    (∀ c : HandlerCall, ∃ s1, (c.apply db).sessions[i]? = some s1 ∧ sessionStep c s s1) ∧
      (s.status = .ended → ∀ calls : List HandlerCall,
        ∃ s1, (runHandlers db calls).sessions[i]? = some s1 ∧ s1._id = s._id ∧
          s1.status = .ended) :=
  ⟨fun c => handlerCall_sessions db c i s h,
   fun hs calls => ended_stays_ended calls db i s h hs⟩

/-- C20, for the ended session of `exampleEnded`: a start, a mark and a camera
capture later it is still ended. -/
theorem session_status_changes_only_by_endSession_witness :
    exampleEnded.sessions[0]? =
        some { exampleSession with status := .ended, endTime := some 1002 } ∧
      ∃ s1, (runHandlers exampleEnded
          [.api (.startSession (.dbUser (mkUser 5 "instructor")) .undefined (.hex 10) 2000),
           .api (.markAttendance (.hex 100) (.hex 2) 2001),
           .camera (.captureFrame (.hex 100) (some "frame") none)]).sessions[0]? = some s1 ∧
        s1._id = ({ exampleSession with status := .ended, endTime := some 1002 } : Session)._id ∧
        s1.status = .ended :=
  ⟨by decide,
   (session_status_changes_only_by_endSession exampleEnded 0
     { exampleSession with status := .ended, endTime := some 1002 } (by decide)).2
     (by decide) _⟩


/-! ## Lemmas for the claims C21 to C30 -/

/-- The users after `register`: the users before, or one more, when the field
`role` is not the string "admin", with the role the field casts to. -/
theorem register_users (env : Env) (db : Db) (hash : String → String)
    (name email password : Option String) (role : RoleField) :
    (register env db hash name email password role).2.users = db.users ∨
    ∃ u, (register env db hash name email password role).2.users = db.users ++ [u] ∧
      role.isAdminString = false ∧
      castRoleString (if role.truthy then role else .text "student") = some u.role := by
  unfold register
  repeat' (first | split | dsimp only)
  all_goals first
    | exact Or.inl rfl
    | (right; refine ⟨_, rfl, ?_, ?_⟩ <;> simp_all)

/-- With a string role, or none, `register` stores no admin: a request with
role "admin" is answered 403 with the store unchanged, and every user of the
store after any such request was there before or has a role other than
"admin", the role "student" when the request has none. -/
theorem register_string_role_not_admin (env : Env) (db : Db) (hash : String → String)
    (name email password : String) (role : RoleField)
    (hrole : role = .missing ∨ ∃ s, role = .text s) :
    (role = .text "admin" → name ≠ "" → email ≠ "" → password ≠ "" →
      register env db hash (some name) (some email) (some password) role =
        ({ status := 403, message := some "Cannot create admin account" }, db)) ∧
    ∀ u ∈ (register env db hash (some name) (some email) (some password) role).2.users,
      u ∈ db.users ∨ (u.role ≠ "admin" ∧ (role = .missing → u.role = "student")) := by
  constructor
  · intro hr hn1 he1 hp1
    subst hr
    simp [register, hn1, he1, hp1, RoleField.isAdminString]
  · intro u hu
    rcases register_users env db hash (some name) (some email) (some password) role with
      h | ⟨v, h, hadmin, hcast⟩
    · rw [h] at hu
      exact Or.inl hu
    · rw [h, List.mem_append, List.mem_singleton] at hu
      rcases hu with hu | rfl
      · exact Or.inl hu
      · right
        rcases hrole with rfl | ⟨s, rfl⟩
        · simp [RoleField.truthy, castRoleString] at hcast
          simp [← hcast]
        · by_cases hs : s = ""
          · subst hs
            simp [RoleField.truthy, castRoleString] at hcast
            simp [← hcast]
          · simp [RoleField.truthy, castRoleString, hs] at hcast
            simp [RoleField.isAdminString] at hadmin
            simp [← hcast, hadmin]

theorem mem_uniqueInOrder {α : Type} [DecidableEq α] (x : α) :
    ∀ l : List α, x ∈ uniqueInOrder l ↔ x ∈ l := by
  intro l
  induction l with
  | nil => simp [uniqueInOrder]
  | cons a as ih =>
    simp only [uniqueInOrder, List.mem_cons, List.mem_filter, decide_eq_true_eq, ih]
    by_cases h : x = a <;> simp [h]

theorem nodup_uniqueInOrder {α : Type} [DecidableEq α] :
    ∀ l : List α, (uniqueInOrder l).Nodup := by
  intro l
  induction l with
  | nil => simp [uniqueInOrder]
  | cons a as ih =>
    simp only [uniqueInOrder, List.nodup_cons, List.mem_filter, decide_eq_true_eq]
    exact ⟨fun h => h.2 rfl, ih.filter _⟩

theorem uniqueInOrder_map {α β : Type} [DecidableEq α] [DecidableEq β] (f : α → β)
    (hf : Function.Injective f) :
    ∀ l : List α, uniqueInOrder (l.map f) = (uniqueInOrder l).map f := by
  intro l
  induction l with
  | nil => simp [uniqueInOrder]
  | cons a as ih =>
    simp only [List.map_cons, uniqueInOrder, ih, List.filter_map, List.cons.injEq, true_and]
    congr 1
    apply List.filter_congr
    intro y _
    simp [hf.eq_iff]

theorem castIdStrings_map_spelled :
    ∀ l : List ObjectId, castIdStrings (l.map (fun id => IdString.spelled id 0)) = some l := by
  intro l
  induction l with
  | nil => rfl
  | cons a as ih => simp [castIdStrings, IdString.cast, ih]

/-- When every string of the request is the lower-case spelling of an id,
`enrollStudents` stores the duplicate-free union of the ids enrolled before and
the requested ids, the ids enrolled before first. -/
theorem enrollStudents_lower_case (db : Db) (sectionId : JsVal) (sec : Section)
    (ids : List ObjectId)
    (hfind : findById db.sections Section._id sectionId = some (some sec)) :
    enrollStudents db sectionId (some (ids.map (fun id => IdString.spelled id 0))) =
      ({ status := 200, success := true,
         enrolledStudents :=
           (uniqueInOrder (sec.enrolledStudents ++ ids)).map (fun id => IdString.spelled id 0) },
       { db with
         sections := updateFirst (fun x => x._id == sec._id)
           (fun x => { x with enrolledStudents := uniqueInOrder (sec.enrolledStudents ++ ids) })
           db.sections }) ∧
    (uniqueInOrder (sec.enrolledStudents ++ ids)).Nodup ∧
    ∀ id, id ∈ uniqueInOrder (sec.enrolledStudents ++ ids) ↔
      id ∈ sec.enrolledStudents ∨ id ∈ ids := by
  refine ⟨?_, nodup_uniqueInOrder _, fun id => by rw [mem_uniqueInOrder, List.mem_append]⟩
  have hinj : Function.Injective (fun id : ObjectId => IdString.spelled id 0) := by
    intro a b h
    simpa using h
  have hu : uniqueInOrder (sec.enrolledStudents.map (fun id => IdString.spelled id 0) ++
      ids.map (fun id => IdString.spelled id 0)) =
      (uniqueInOrder (sec.enrolledStudents ++ ids)).map (fun id => IdString.spelled id 0) := by
    rw [← List.map_append, uniqueInOrder_map _ hinj]
  simp only [enrollStudents, hfind, hu, castIdStrings_map_spelled]

/-- A granted request of a caller the middleware `auth` has identified comes
from a caller the section admits. -/
theorem sectionAccessGranted_caller (db : Db) (sec : Section) (c : Caller)
    (h : sectionAccessGranted db sec (some c.reqUser) = true) :
    isEntitledCaller sec (some c.reqUser) := by
  refine ⟨c.reqUser, rfl, ?_⟩
  cases c with
  | superadmin e => simp [Caller.reqUser, superAdminUser]
  | hardinstructor e =>
    rcases hi : populateInstructor db sec with _ | i
    · simp [sectionAccessGranted, Caller.reqUser, hardInstructorUser, hi, JsVal.strictEq] at h
      simp [Caller.reqUser, hardInstructorUser, h]
    · simp [sectionAccessGranted, Caller.reqUser, hardInstructorUser, hi, JsVal.strictEq,
        ObjectId.toJsString] at h
      simp [Caller.reqUser, hardInstructorUser, h]
  | dbUser u =>
    rcases hi : populateInstructor db sec with _ | i
    · simp [sectionAccessGranted, Caller.reqUser, dbReqUser, hi, JsVal.strictEq,
        ObjectId.toJsString] at h
      simp [Caller.reqUser, dbReqUser, h]
    · simp [sectionAccessGranted, Caller.reqUser, dbReqUser, hi, JsVal.strictEq,
        ObjectId.toJsString] at h
      rcases h with h | h
      · left
        exact ⟨i._id, populateInstructor_some hi, by simp [Caller.reqUser, dbReqUser, h]⟩
      · simp [Caller.reqUser, dbReqUser, h]

/-- The answer of `getSectionAttendance` for an existing section: the data when
the authorization of lines 230-235 grants access, 403 "Not authorized"
otherwise. -/
theorem getSectionAttendance_found (db : Db) (user : Option ReqUser) (sectionId : JsVal)
    (sec : Section) (hfind : findById db.sections Section._id sectionId = some (some sec)) :
    getSectionAttendance db user sectionId =
      if sectionAccessGranted db sec user then
        { status := 200, sectionDoc := some sec,
          attendanceSessions := sectionAttendanceSessions db sec._id }
      else { status := 403, message := some "Not authorized" } := by
  have ht : sectionId.truthy = true := by
    obtain ⟨o, ho, -⟩ := findById_some hfind
    cases sectionId <;> simp [castObjectId, JsVal.truthy] at ho ⊢
  unfold getSectionAttendance
  simp only [ht, hfind]
  by_cases hg : sectionAccessGranted db sec user = true <;> simp [hg]

theorem upsertAttendance_rfidScans (db : Db) (session student : ObjectId)
    (sectionId : Option ObjectId) (status : AttendanceStatus) (checkInTime : Option Nat) :
    (upsertAttendance db session student sectionId status checkInTime).2.rfidScans
      = db.rfidScans := by
  unfold upsertAttendance
  split <;> rfl

/-- Every own key of the RFID table is non-empty and is looked up to its own
entry, whose student is a hex id string that the fallback of lines 441-451
finds in the table. -/
theorem rfid_table_entry (tag : String) (entry : RfidEntry) (h : (tag, entry) ∈ RFID_MAP) :
    (tag == "") = false ∧ lookupRfidTag tag = some entry ∧
      (findInRfidMap entry.student).isSome = true ∧
      ∃ student, entry.student = .hex student := by
  simp only [RFID_MAP, List.mem_cons, Prod.mk.injEq, List.mem_singleton, List.not_mem_nil,
    or_false] at h
  rcases h with ⟨rfl, rfl⟩ | ⟨rfl, rfl⟩ | ⟨rfl, rfl⟩ | ⟨rfl, rfl⟩ | ⟨rfl, rfl⟩ <;>
    exact ⟨by decide, by decide, by decide, _, rfl⟩

theorem findById_eraseStatus (db : Db) (v : JsVal) :
    findById db.eraseStatus.sessions Session._id v =
      (findById db.sessions Session._id v).map (Option.map Session.eraseStatus) := by
  have hcomp : ∀ o : ObjectId,
      ((fun d : Session => d._id == o) ∘ Session.eraseStatus) = (fun d : Session => d._id == o) :=
    fun _ => rfl
  cases v <;> simp [findById, castObjectId, Db.eraseStatus, List.find?_map, hcomp]

theorem populateSection_eraseStatus (db : Db) (s : Session) :
    populateSection db.eraseStatus s.eraseStatus = populateSection db s := rfl

theorem enrolledStrings_eraseStatus (db : Db) (sec : Section) :
    enrolledStrings db.eraseStatus sec = enrolledStrings db sec := rfl

theorem eraseStatus_id (s : Session) : s.eraseStatus._id = s._id := rfl

theorem upsertAttendance_eraseStatus (db : Db) (session student : ObjectId)
    (sectionId : Option ObjectId) (status : AttendanceStatus) (checkInTime : Option Nat) :
    upsertAttendance db.eraseStatus session student sectionId status checkInTime =
      ((upsertAttendance db session student sectionId status checkInTime).1,
       (upsertAttendance db session student sectionId status checkInTime).2.eraseStatus) := by
  unfold upsertAttendance
  show (match db.attendance.find? (fun a => a.session == session && a.student == student) with
    | some old => _
    | none => _) = _
  cases db.attendance.find? (fun a => a.session == session && a.student == student) <;> rfl

theorem markAttendance_eraseStatus (db : Db) (sessionId studentId : JsVal) (now : Nat) :
    markAttendance db.eraseStatus sessionId studentId now =
      ((markAttendance db sessionId studentId now).1,
       (markAttendance db sessionId studentId now).2.eraseStatus) := by
  unfold markAttendance
  rw [findById_eraseStatus]
  rcases findById db.sessions Session._id sessionId with _ | _ | session
  · rfl
  · rfl
  · simp only [Option.map_some', populateSection_eraseStatus, enrolledStrings_eraseStatus,
      eraseStatus_id, upsertAttendance_eraseStatus]
    repeat' (first | split | dsimp only)

theorem updateAttendanceManually_eraseStatus (db : Db) (sessionId studentId status : JsVal)
    (now : Nat) :
    updateAttendanceManually db.eraseStatus sessionId studentId status now =
      ((updateAttendanceManually db sessionId studentId status now).1,
       (updateAttendanceManually db sessionId studentId status now).2.eraseStatus) := by
  unfold updateAttendanceManually
  rw [findById_eraseStatus]
  rcases findById db.sessions Session._id sessionId with _ | _ | session
  · split <;> rfl
  · split <;> rfl
  · simp only [Option.map_some', populateSection_eraseStatus, enrolledStrings_eraseStatus,
      eraseStatus_id, upsertAttendance_eraseStatus]
    repeat' (first | split | dsimp only)

theorem recordRfidScan_eraseStatus (db : Db) (scannedBy : Option ObjectId) (sessionId : JsVal)
    (tag : Option String) (now : Nat) :
    recordRfidScan db.eraseStatus scannedBy sessionId tag now =
      ((recordRfidScan db scannedBy sessionId tag now).1,
       (recordRfidScan db scannedBy sessionId tag now).2.eraseStatus) := by
  have hup : ∀ (scan : RfidScan) (session student : ObjectId) (sectionId : Option ObjectId),
      upsertAttendance
          { db.eraseStatus with rfidScans := db.eraseStatus.rfidScans ++ [scan],
                                nextId := db.eraseStatus.nextId + 1 }
          session student sectionId .present (some now) =
        ((upsertAttendance { db with rfidScans := db.rfidScans ++ [scan],
                                     nextId := db.nextId + 1 }
            session student sectionId .present (some now)).1,
         (upsertAttendance { db with rfidScans := db.rfidScans ++ [scan],
                                     nextId := db.nextId + 1 }
            session student sectionId .present (some now)).2.eraseStatus) :=
    fun scan session student sectionId =>
      upsertAttendance_eraseStatus
        { db with rfidScans := db.rfidScans ++ [scan], nextId := db.nextId + 1 } _ _ _ _ _
  unfold recordRfidScan
  rw [findById_eraseStatus]
  rcases tag with _ | tag
  · rfl
  · by_cases ht : (tag == "") = true
    · simp only [ht, if_true]
    · simp only [ht, if_false]
      rcases findById db.sessions Session._id sessionId with _ | _ | session
      · rfl
      · rfl
      · simp only [Option.map_some', populateSection_eraseStatus, enrolledStrings_eraseStatus,
          eraseStatus_id, hup]
        repeat' (first | split | dsimp only)
        all_goals rfl

theorem markRequest_eraseStatus (db : Db) (r : MarkRequest) :
    r.run db.eraseStatus = ((r.run db).1, (r.run db).2.eraseStatus) := by
  cases r with
  | mark sessionId studentId now => exact markAttendance_eraseStatus db sessionId studentId now
  | manual sessionId studentId status now =>
    exact updateAttendanceManually_eraseStatus db sessionId studentId status now
  | rfid scannedBy sessionId tag now =>
    exact recordRfidScan_eraseStatus db scannedBy sessionId tag now

theorem sameButStatus_iff (db1 db2 : Db) :
    sameButStatus db1 db2 ↔ db1.eraseStatus = db2.eraseStatus := by
  cases db1
  cases db2
  simp only [sameButStatus, Db.eraseStatus, Db.mk.injEq]
  tauto

theorem of_mem_updateFirst {α : Type} (p : α → Bool) (f : α → α) :
    ∀ (xs : List α) (y : α), y ∈ updateFirst p f xs → y ∈ xs ∨ ∃ x ∈ xs, y = f x := by
  intro xs
  induction xs with
  | nil => intro y h; simp [updateFirst] at h
  | cons a as ih =>
    intro y h
    unfold updateFirst at h
    by_cases ha : p a = true
    · rw [if_pos ha, List.mem_cons] at h
      rcases h with rfl | h
      · exact Or.inr ⟨a, List.mem_cons_self _ _, rfl⟩
      · exact Or.inl (List.mem_cons_of_mem _ h)
    · rw [if_neg ha, List.mem_cons] at h
      rcases h with rfl | h
      · exact Or.inl (List.mem_cons_self _ _)
      · rcases ih y h with h1 | ⟨x, hx, rfl⟩
        · exact Or.inl (List.mem_cons_of_mem _ h1)
        · exact Or.inr ⟨x, List.mem_cons_of_mem _ hx, rfl⟩

theorem find?_congr_mem {α : Type} (p q : α → Bool) :
    ∀ xs : List α, (∀ x ∈ xs, p x = q x) → xs.find? p = xs.find? q := by
  intro xs
  induction xs with
  | nil => intro _; rfl
  | cons a as ih =>
    intro h
    rw [List.find?_cons, List.find?_cons, h a (List.mem_cons_self _ _),
      ih (fun x hx => h x (List.mem_cons_of_mem _ hx))]

/-- Every call keeps the instructor binding of the sessions well formed. -/
theorem apply_bindingInvariant (db : Db) (c : ApiCall) (hinv : bindingInvariant db) :
    bindingInvariant (c.apply db) := by
  have same : ∀ db1 : Db, db1.sessions = db.sessions → bindingInvariant db1 := by
    intro db1 heq s hs
    rw [heq] at hs
    exact hinv s hs
  cases c with
  | startSession caller courseId sectionId now =>
    by_cases h201 : (startSession db caller.reqUser courseId sectionId now).1.status = 201
    · obtain ⟨sec, course, instr, hard, -, -, -, hbind, heq⟩ := startSession_created h201
      intro s hs
      simp only [ApiCall.apply, heq, List.mem_append, List.mem_singleton] at hs
      rcases hs with hs | rfl
      · exact hinv s hs
      · rcases hbind with ⟨u, -, rfl, rfl⟩ | ⟨-, -, -, rfl, rfl⟩ <;> simp [newSession]
    · exact same _ (by simp only [ApiCall.apply]; rw [startSession_not_created h201])
  | endSession sessionId now =>
    by_cases h200 : (endSession db sessionId now).1.status = 200
    · obtain ⟨session, hfind, -, heq⟩ := endSession_ok h200
      obtain ⟨o, -, hf⟩ := findById_some hfind
      intro s hs
      simp only [ApiCall.apply, heq] at hs
      rcases of_mem_updateFirst _ _ _ _ hs with h1 | ⟨x, -, rfl⟩
      · exact hinv s h1
      · exact hinv session (List.mem_of_find?_eq_some hf)
    · exact same _ (by simp only [ApiCall.apply]; rw [endSession_not_ok h200])
  | markAttendance sessionId studentId now => exact same _ (markAttendance_sessions _ _ _ _)
  | updateAttendanceManually sessionId studentId status now =>
    exact same _ (updateAttendanceManually_sessions _ _ _ _ _)
  | recordRfidScan caller sessionId tag now => exact same _ (recordRfidScan_sessions _ _ _ _ _)
  | externalMarkAttendance sessionId studentId now =>
    exact same _ (externalMarkAttendance_sessions _ _ _ _)
  | createSection courseId name instructorId => exact same _ (createSection_sessions _ _ _ _)
  | assignInstructor sectionId instructorId => exact same _ (assignInstructor_sessions _ _ _)

/-- In every reachable state a session is flagged `hardInstructor` exactly when
it has no instructor. -/
theorem reachable_bindingInvariant {db : Db} (h : Reachable db) : bindingInvariant db := by
  induction h with
  | init db hnil =>
    intro s hs
    rw [hnil] at hs
    cases hs
  | call db c _ ih => exact apply_bindingInvariant db c ih
  | other db db1 _ hcore ih =>
    intro s hs
    have hmem : s.core ∈ db.sessions.map Session.core := by
      rw [← hcore]
      exact List.mem_map_of_mem _ hs
    obtain ⟨t, ht, hts⟩ := List.mem_map.mp hmem
    have h1 : t.core.hardInstructor = s.core.hardInstructor := congrArg _ hts
    have h2 : t.core.instructor = s.core.instructor := congrArg _ hts
    change t.hardInstructor = s.hardInstructor at h1
    change t.instructor = s.instructor at h2
    rw [← h1, ← h2]
    exact ih t ht

/-- Under the binding invariant `getCurrentSession` returns the session the
lookup of `startSession` finds, and no session when that lookup throws. -/
theorem getCurrentSession_session (db : Db) (c : Caller) (hinv : bindingInvariant db) :
    (getCurrentSession db c.reqUser).session = (findExistingSession db c.reqUser).join := by
  cases c with
  | superadmin e =>
    simp [getCurrentSession, findExistingSession, Caller.reqUser, superAdminUser, JsVal.strictEq,
      castObjectId, serverError]
  | hardinstructor e =>
    simp only [getCurrentSession, findExistingSession, Caller.reqUser, hardInstructorUser,
      JsVal.strictEq, beq_self_eq_true, if_true, Option.join]
    apply find?_congr_mem
    intro s hs
    have := hinv s hs
    by_cases hh : s.hardInstructor = true
    · simp [hh, this.mp hh]
    · simp [hh]
  | dbUser u =>
    simp only [getCurrentSession, findExistingSession, Caller.reqUser, dbReqUser,
      ObjectId.toJsString, JsVal.strictEq, castObjectId, Option.map_some', Option.join]
    simp only [Bool.false_eq_true, if_false]
    apply find?_congr_mem
    intro s hs
    have := hinv s hs
    by_cases hi : s.instructor = some u._id
    · have hh : s.hardInstructor = false := by
        rcases hb : s.hardInstructor with _ | _
        · rfl
        · rw [this.mp hb] at hi
          cases hi
      simp [hi, hh]
    · have hf : (s.instructor == some u._id) = false := by simpa using hi
      simp [hf]

/-- The message "You already have an ongoing session" is the answer of
`startSession` exactly when its lookup finds a session, for a request that
names an existing section with course information. -/
theorem startSession_message_iff (db : Db) (user : ReqUser) (courseId sectionId : JsVal)
    (now : Nat) (sec : Section)
    (hfind : findById db.sections Section._id sectionId = some (some sec))
    (hcourse : (finalCourseId db sec courseId).truthy = true) :
    (startSession db user courseId sectionId now).1.message
        = some "You already have an ongoing session" ↔
      ∃ s, findExistingSession db user = some (some s) := by
  rcases hex : findExistingSession db user with _ | _ | existing
  · simp [startSession, hfind, hcourse, hex, serverError]
  · simp only [startSession, hfind, hcourse, hex]
    rcases hi : populateInstructor db sec with _ | u
    · by_cases hh : sec.hardInstructor = true
      · by_cases hu : (!(user.id.strictEq (.str "hardinstructor")) && !user.isSuperAdmin) = true
        · simp [hh, hu]
        · rcases hc : castObjectId (finalCourseId db sec courseId) with _ | course <;>
            simp [hh, hu, startSessionCreate, createSession, hc, serverError]
      · simp [hh, JsVal.strictEq]
    · rcases hc : castObjectId (finalCourseId db sec courseId) with _ | course <;>
        simp [startSessionCreate, createSession, hc, serverError]
  · simp [startSession, hfind, hcourse, hex]

/-- For an existing session and a tag that is an own key of the RFID table,
`recordRfidScan` answers 200, appends one RfidScan row for the mapped student
and upserts the attendance record of the mapped student as present, whatever
the enrolled list of the section holds: the lookup of the mapped student in the
table, the fallback of the enrolment test, succeeds for every entry. -/
theorem recordRfidScan_table_tag (db : Db) (scannedBy : Option ObjectId) (sessionId : JsVal)
    (tag : String) (entry : RfidEntry) (now : Nat) (session : Session)
    (hfind : findById db.sessions Session._id sessionId = some (some session))
    (htag : (tag, entry) ∈ RFID_MAP) :
    (findInRfidMap entry.student).isSome = true ∧
    ∃ student, entry.student = .hex student ∧
      recordRfidScan db scannedBy sessionId (some tag) now =
        ({ status := 200, message := some ("RFID recorded for " ++ entry.name) },
         (upsertAttendance
           { db with
             rfidScans := db.rfidScans ++
               [{ _id := db.nextId, session := session._id, tag := tag.trim,
                  student := some student, scannedBy := scannedBy }],
             nextId := db.nextId + 1 }
           session._id student ((populateSection db session).map (fun x => x._id)) .present
           (some now)).2) ∧
      (recordRfidScan db scannedBy sessionId (some tag) now).2.rfidScans =
        db.rfidScans ++
          [{ _id := db.nextId, session := session._id, tag := tag.trim,
             student := some student, scannedBy := scannedBy }] ∧
      ∃ record ∈ pairRecords (recordRfidScan db scannedBy sessionId (some tag) now).2
          session._id student,
        record.status = .present ∧ record.checkInTime = some now := by
  obtain ⟨hne, hlookup, hfound, student, hstudent⟩ := rfid_table_entry tag entry htag
  refine ⟨hfound, student, hstudent, ?_⟩
  have heq : recordRfidScan db scannedBy sessionId (some tag) now =
        ({ status := 200, message := some ("RFID recorded for " ++ entry.name) },
         (upsertAttendance
           { db with
             rfidScans := db.rfidScans ++
               [{ _id := db.nextId, session := session._id, tag := tag.trim,
                  student := some student, scannedBy := scannedBy }],
             nextId := db.nextId + 1 }
           session._id student ((populateSection db session).map (fun x => x._id)) .present
           (some now)).2) := by
    rw [hstudent] at hfound
    simp [recordRfidScan, hne, hfind, hlookup, hstudent, hfound, castObjectId]
  refine ⟨heq, ?_, ?_⟩
  · rw [heq]
    exact upsertAttendance_rfidScans _ _ _ _ _ _
  · rw [heq]
    exact ⟨_, (upsertAttendance_mem _ _ _ _ _ _).1, (upsertAttendance_mem _ _ _ _ _ _).2⟩

/-- The scan of the first tag of the table in session 100 of section 10, which
enrols the students 1, 2 and 3: the student of the tag is none of them. -/
theorem recordRfidScan_table_tag_example :
    (findById exampleStarted.sessions Session._id (.hex 100) = some (some exampleSession) ∧
      ("0000000001", ({ name := "Ali Alblooshi", studentId := "202102812",
                        student := .hex 0x652ab1234abcde67890f1234 } : RfidEntry)) ∈ RFID_MAP ∧
      0x652ab1234abcde67890f1234 ∉ exampleSection10.enrolledStudents) ∧
    ((findInRfidMap (.hex 0x652ab1234abcde67890f1234)).isSome = true ∧
    ∃ student, JsVal.hex 0x652ab1234abcde67890f1234 = .hex student ∧
      recordRfidScan exampleStarted (some 5) (.hex 100) (some "0000000001") 1001 =
        ({ status := 200, message := some ("RFID recorded for " ++ "Ali Alblooshi") },
         (upsertAttendance
           { exampleStarted with
             rfidScans := exampleStarted.rfidScans ++
               [{ _id := exampleStarted.nextId, session := exampleSession._id,
                  tag := "0000000001".trim,
                  student := some student, scannedBy := some 5 }],
             nextId := exampleStarted.nextId + 1 }
           exampleSession._id student
           ((populateSection exampleStarted exampleSession).map (fun x => x._id)) .present
           (some 1001)).2) ∧
      (recordRfidScan exampleStarted (some 5) (.hex 100) (some "0000000001") 1001).2.rfidScans =
        exampleStarted.rfidScans ++
          [{ _id := exampleStarted.nextId, session := exampleSession._id,
             tag := "0000000001".trim,
             student := some student, scannedBy := some 5 }] ∧
      ∃ record ∈ pairRecords
          (recordRfidScan exampleStarted (some 5) (.hex 100) (some "0000000001") 1001).2
          exampleSession._id student,
        record.status = .present ∧ record.checkInTime = some 1001) :=
  ⟨⟨by decide, by decide, by decide⟩,
   recordRfidScan_table_tag exampleStarted (some 5) (.hex 100) "0000000001"
     { name := "Ali Alblooshi", studentId := "202102812",
       student := .hex 0x652ab1234abcde67890f1234 } 1001 exampleSession
     (by decide) (by decide)⟩

/-! ## The claims C21 to C30 -/

/-- C21: for every role list and every identity the middleware `auth` attaches,
`requireRole` passes the request on exactly when the caller is the super admin
or the caller's role is in the list, and answers 403 otherwise; the hardcoded
instructor passes exactly when the list contains "instructor"; a request
without user is answered 403. -/
theorem requireRole_passes_iff (roles : List String) (c : Caller) :
    requireRole roles none = .respond 403 "No user in request" ∧
    (requireRole roles (some c.reqUser) = .next ↔
      ((∃ email, c = .superadmin email) ∨ c.reqUser.role ∈ roles)) ∧
    (requireRole roles (some c.reqUser) ≠ .next →
      requireRole roles (some c.reqUser) =
        .respond 403 "Forbidden: insufficient permissions") ∧
    (∀ email, requireRole roles (some (hardInstructorUser email)) = .next ↔
      "instructor" ∈ roles) := by
  refine ⟨rfl, ?_, ?_, ?_⟩
  · cases c with
    | superadmin e => simp [requireRole, Caller.reqUser, superAdminUser]
    | hardinstructor e =>
      by_cases h : "instructor" ∈ roles <;>
        simp [requireRole, Caller.reqUser, hardInstructorUser, h]
    | dbUser u =>
      by_cases h : u.role ∈ roles <;> simp [requireRole, Caller.reqUser, dbReqUser, h]
  · cases c with
    | superadmin e => simp [requireRole, Caller.reqUser, superAdminUser]
    | hardinstructor e =>
      by_cases h : "instructor" ∈ roles <;>
        simp [requireRole, Caller.reqUser, hardInstructorUser, h]
    | dbUser u =>
      by_cases h : u.role ∈ roles <;> simp [requireRole, Caller.reqUser, dbReqUser, h]
  · intro e
    by_cases h : "instructor" ∈ roles <;> simp [requireRole, hardInstructorUser, h]

/-- C22 (the code departs from the claim): a registration whose field `role`
is the object with `_id` "admin" passes the test `role === "admin"`, is cast by
the schema to the string "admin", and is answered 201: the store gains a user
with role "admin". -/
theorem register_stores_admin_role :
    (RoleField.withId "admin").isAdminString = false ∧
    (register exampleEnv exampleDb (fun p => p) (some "Eve") (some "eve@example.com")
      (some "pw") (.withId "admin")).1.status = 201 ∧
    (register exampleEnv exampleDb (fun p => p) (some "Eve") (some "eve@example.com")
      (some "pw") (.withId "admin")).1.user =
        some { id := .objectId 100, name := "Eve", email := some "eve@example.com",
               role := "admin" } ∧
    (register exampleEnv exampleDb (fun p => p) (some "Eve") (some "eve@example.com")
      (some "pw") (.withId "admin")).2.users =
        exampleDb.users ++
          [{ _id := 100, name := "Eve", email := "eve@example.com", passwordHash := "pw",
             role := "admin" }] := by
  with_unfolding_all decide

/-- C23 (the code departs from the claim): section 10 enrols the student
652ab1234abcde67890f1234; a request listing the same id in upper case is
answered 200, and the section then holds that id twice. -/
theorem enrollStudents_stores_duplicate :
    findById exampleEnrolDb.sections Section._id (.hex 10) =
      some (some { _id := 10, name := "A", course := 20, instructor := some 5,
                   hardInstructor := false,
                   enrolledStudents := [0x652ab1234abcde67890f1234] }) ∧
    (IdString.spelled 0x652ab1234abcde67890f1234 1).wellFormed = true ∧
    (enrollStudents exampleEnrolDb (.hex 10)
      (some [.spelled 0x652ab1234abcde67890f1234 1])).1.status = 200 ∧
    (enrollStudents exampleEnrolDb (.hex 10)
      (some [.spelled 0x652ab1234abcde67890f1234 1])).2.sections.map
        (fun sec => sec.enrolledStudents) =
      [[0x652ab1234abcde67890f1234, 0x652ab1234abcde67890f1234]] := by
  decide

/-- C24 (the code departs from the claim): session 100 of section 10 has one
attendance record, of the student of the first RFID entry, who is not enrolled
in the section; `getSessionAttendance` answers with the placeholders of the
three enrolled students and without that record. -/
theorem getSessionAttendance_omits_record :
    exampleRfidMarked.attendance =
      [{ _id := 101, sectionRef := some 10, session := 100,
         student := 0x652ab1234abcde67890f1234, status := .present,
         checkInTime := some 1001 }] ∧
    getSessionAttendance exampleRfidMarked (.hex 100) =
      { status := 200,
        attendance :=
          [{ _id := none, student := 1, status := .absent, checkInTime := none },
           { _id := none, student := 2, status := .absent, checkInTime := none },
           { _id := none, student := 3, status := .absent, checkInTime := none }] } := by
  decide

/-- C25 (the code departs from the claim): a request without user, as it
arrives on the route without `auth`, for section 11, which has no instructor,
is answered 200 with the section and the students present in its session. -/
theorem getSectionAttendance_without_user :
    findById exampleHardMarked.sections Section._id (.hex 11) = some (some exampleSection11) ∧
    ¬ isEntitledCaller exampleSection11 none ∧
    (getSectionAttendance exampleHardMarked none (.hex 11)).status = 200 ∧
    (getSectionAttendance exampleHardMarked none (.hex 11)).sectionDoc =
      some exampleSection11 ∧
    (getSectionAttendance exampleHardMarked none (.hex 11)).attendanceSessions.map
      (fun entry => (entry.1._id, entry.2.map (fun student => student._id))) =
      [(100, [1])] := by
  refine ⟨by decide, ?_, by decide, by decide, by decide⟩
  rintro ⟨u, hu, -⟩
  cases hu

/-- C26 (the code departs from the claim): `logCameraEvent` answers 500 "Error
saving log" to every request and leaves the store as it is, also when
`sessionId` names an existing session: the document it creates lacks the
required path `session`. -/
theorem logCameraEvent_always_fails (db : Db) (sessionId : JsVal) (facesDetected : Option Nat) :
    logCameraEvent db sessionId facesDetected =
      ({ status := 500, message := some "Error saving log" }, db) ∧
    findById exampleStarted.sessions Session._id (.hex 100) = some (some exampleSession) ∧
    logCameraEvent exampleStarted (.hex 100) (some 3) =
      ({ status := 500, message := some "Error saving log" }, exampleStarted) := by
  refine ⟨?_, by decide, by decide⟩
  simp [logCameraEvent, createCameraLog, castObjectId]

/-- C27 (the code departs from the claim): the branch "not enrolled" of
`recordRfidScan` is reached.  The tag "constructor" resolves to the inherited
property of `Object.prototype`, whose `student` is undefined: it is in no
enrolled list, the fallback lookup in the table finds no entry for it, and the
handler answers 200 with an RfidScan row written and no attendance record. -/
theorem recordRfidScan_not_enrolled_branch :
    findById exampleStarted.sessions Session._id (.hex 100) = some (some exampleSession) ∧
    (lookupRfidTag "constructor").map (fun mapped => mapped.student) = some .undefined ∧
    includes (enrolledStrings exampleStarted exampleSection10) .undefined = false ∧
    findInRfidMap .undefined = none ∧
    (recordRfidScan exampleStarted (some 5) (.hex 100) (some "constructor") 1001).1 =
      { status := 200, message := some "RFID recorded for Object" } ∧
    (recordRfidScan exampleStarted (some 5) (.hex 100) (some "constructor")
      1001).2.rfidScans.length = exampleStarted.rfidScans.length + 1 ∧
    (recordRfidScan exampleStarted (some 5) (.hex 100) (some "constructor")
      1001).2.attendance = [] := by
  decide

/-- C28: with a signing secret configured, `login` answers with the identity
"superadmin" exactly when the email of the request equals the configured admin
email and its password the configured admin password, absent values included:
with both unset in the configuration, a request without email and password is
answered with the user "superadmin" of role "admin". -/
theorem login_superadmin_iff (env : Env) (users : List User)
    (compare : String → String → Bool) (email password : Option String) (secret : String)
    (hsecret : env.JWT_SECRET = some secret) (hnonempty : secret ≠ "") :
    (((login env users compare email password).user.map (fun u => u.id)
        = some (.str "superadmin")) ↔
      (email = env.ADMIN_EMAIL ∧ password = env.ADMIN_PASSWORD)) ∧
    (email = env.ADMIN_EMAIL ∧ password = env.ADMIN_PASSWORD →
      (login env users compare email password).status = 200 ∧
      (login env users compare email password).user =
        some { id := .str "superadmin", name := "Super Admin", email := email,
               role := "admin" }) ∧
    (env.ADMIN_EMAIL = none → env.ADMIN_PASSWORD = none →
      login env users compare none none =
        { status := 200,
          user := some { id := .str "superadmin", name := "Super Admin", email := none,
                         role := "admin" },
          token := some { payload := { id := .str "superadmin", role := "admin",
                                       name := "Super Admin", email := none },
                          secret := secret } }) := by
  refine ⟨?_, ?_, ?_⟩
  · by_cases h : email = env.ADMIN_EMAIL ∧ password = env.ADMIN_PASSWORD
    · simp [login, h, loginAnswer, jwtSign, hsecret, hnonempty]
    · simp only [h, iff_false]
      unfold login
      rw [if_neg h]
      by_cases h2 : email = env.INSTRUCTOR_EMAIL ∧ password = env.INSTRUCTOR_PASSWORD
      · rw [if_pos h2]
        simp [loginAnswer, jwtSign, hsecret, hnonempty]
      · rw [if_neg h2]
        rcases hfind : email.bind (fun e => users.find? (fun u => u.email == e.toLower)) with
          _ | user
        · simp [hfind]
        · rcases password with _ | pw
          · simp [hfind]
          · by_cases hc : compare pw user.passwordHash = true <;>
              simp [hfind, hc, loginAnswer, jwtSign, hsecret, hnonempty]
  · intro h
    simp [login, h, loginAnswer, jwtSign, hsecret, hnonempty]
  · intro he hp
    simp [login, he, hp, loginAnswer, jwtSign, hsecret, hnonempty]

/-- C28, with the admin email and password unset and a request that carries
neither email nor password. -/
theorem login_superadmin_iff_witness :
    (exampleEnvNoAdmin.JWT_SECRET = some "jwt-secret" ∧ "jwt-secret" ≠ "" ∧
      exampleEnvNoAdmin.ADMIN_EMAIL = none ∧ exampleEnvNoAdmin.ADMIN_PASSWORD = none) ∧
    login exampleEnvNoAdmin exampleDb.users (fun _ _ => false) none none =
      { status := 200,
        user := some { id := .str "superadmin", name := "Super Admin", email := none,
                       role := "admin" },
        token := some { payload := { id := .str "superadmin", role := "admin",
                                     name := "Super Admin", email := none },
                        secret := "jwt-secret" } } :=
  ⟨⟨by decide, by decide, by decide, by decide⟩,
   (login_superadmin_iff exampleEnvNoAdmin exampleDb.users (fun _ _ => false) none none
     "jwt-secret" (by decide) (by decide)).2.2 (by decide) (by decide)⟩

/-- C29: `markAttendance`, `updateAttendanceManually` and `recordRfidScan` do
not read the status of the session: on two stores that differ at most in the
status and end time of sessions, the same request gets the same answer and
leaves the same attendance records and RFID scans, and the stores still differ
at most in the status and end time of sessions. -/
theorem marking_ignores_session_status (db1 db2 : Db) (r : MarkRequest)
    (h : sameButStatus db1 db2) :
    (r.run db1).1 = (r.run db2).1 ∧
    (r.run db1).2.attendance = (r.run db2).2.attendance ∧
    (r.run db1).2.rfidScans = (r.run db2).2.rfidScans ∧
    sameButStatus (r.run db1).2 (r.run db2).2 := by
  have e := (sameButStatus_iff db1 db2).mp h
  have h1 := markRequest_eraseStatus db1 r
  have h2 := markRequest_eraseStatus db2 r
  rw [e, h2] at h1
  obtain ⟨hr, hd⟩ := Prod.mk.inj h1
  have hs := (sameButStatus_iff _ _).mpr hd.symm
  exact ⟨hr.symm, hs.2.2.2.1, hs.2.2.2.2.1, hs⟩

/-- C29, for session 100 ended (`exampleEnded`) and the same store with the
session ongoing: `endSession` has back-filled student 2 as absent, and a
`markAttendance` for student 2 after the end is answered 200 and overwrites
that record to present, as it would in the ongoing session. -/
theorem marking_ignores_session_status_witness :
    (sameButStatus exampleReopened exampleEnded ∧
      exampleReopened.sessions.map (fun s => s.status) = [.ongoing] ∧
      exampleEnded.sessions.map (fun s => s.status) = [.ended] ∧
      exampleEnded.attendance.map (fun a => (a._id, a.student, a.status)) =
        [(101, 1, .present), (102, 1, .absent), (103, 2, .absent), (104, 3, .absent)] ∧
      ((MarkRequest.mark (.hex 100) (.hex 2) 1003).run exampleEnded).1.status = 200 ∧
      ((MarkRequest.mark (.hex 100) (.hex 2) 1003).run exampleEnded).2.attendance.map
          (fun a => (a._id, a.student, a.status)) =
        [(101, 1, .present), (102, 1, .absent), (103, 2, .present), (104, 3, .absent)]) ∧
    (((MarkRequest.mark (.hex 100) (.hex 2) 1003).run exampleReopened).1 =
        ((MarkRequest.mark (.hex 100) (.hex 2) 1003).run exampleEnded).1 ∧
      ((MarkRequest.mark (.hex 100) (.hex 2) 1003).run exampleReopened).2.attendance =
        ((MarkRequest.mark (.hex 100) (.hex 2) 1003).run exampleEnded).2.attendance ∧
      ((MarkRequest.mark (.hex 100) (.hex 2) 1003).run exampleReopened).2.rfidScans =
        ((MarkRequest.mark (.hex 100) (.hex 2) 1003).run exampleEnded).2.rfidScans ∧
      sameButStatus ((MarkRequest.mark (.hex 100) (.hex 2) 1003).run exampleReopened).2
        ((MarkRequest.mark (.hex 100) (.hex 2) 1003).run exampleEnded).2) :=
  ⟨⟨by unfold sameButStatus; decide, by decide, by decide, by decide, by decide, by decide⟩,
   marking_ignores_session_status exampleReopened exampleEnded
     (.mark (.hex 100) (.hex 2) 1003) (by unfold sameButStatus; decide)⟩

/-- C30: in every state reached by calls of the handlers from a store without
sessions, the lookup of `startSession` (lines 24-35) finds a session for a
caller exactly when `getCurrentSession` returns one for that caller; so a
`startSession` that names an existing section with course information answers
"You already have an ongoing session" exactly when `getCurrentSession` returns
a session. -/
theorem startSession_check_agrees_with_getCurrentSession (db : Db) (c : Caller)
    (hreach : Reachable db) :
    ((∃ s, findExistingSession db c.reqUser = some (some s)) ↔
      ∃ s, (getCurrentSession db c.reqUser).session = some s) ∧
    ∀ (courseId sectionId : JsVal) (now : Nat) (sec : Section),
      findById db.sections Section._id sectionId = some (some sec) →
      (finalCourseId db sec courseId).truthy = true →
      ((startSession db c.reqUser courseId sectionId now).1.message
          = some "You already have an ongoing session" ↔
        ∃ s, (getCurrentSession db c.reqUser).session = some s) := by
  have hs := getCurrentSession_session db c (reachable_bindingInvariant hreach)
  have hiff : (∃ s, findExistingSession db c.reqUser = some (some s)) ↔
      ∃ s, (getCurrentSession db c.reqUser).session = some s := by
    rw [hs]
    rcases findExistingSession db c.reqUser with _ | _ | s <;> simp [Option.join]
  refine ⟨hiff, ?_⟩
  intro courseId sectionId now sec hfind hcourse
  rw [← hiff]
  exact startSession_message_iff db c.reqUser courseId sectionId now sec hfind hcourse

/-- C30, at the state after instructor 5 has started a session on section 10
of `exampleDb`, for a second `startSession` of instructor 5 on section 10. -/
theorem startSession_check_agrees_with_getCurrentSession_witness :
    (Reachable ((ApiCall.startSession (.dbUser (mkUser 5 "instructor")) .undefined (.hex 10)
        1000).apply exampleDb) ∧
      findById ((ApiCall.startSession (.dbUser (mkUser 5 "instructor")) .undefined (.hex 10)
        1000).apply exampleDb).sections Section._id (.hex 10) = some (some exampleSection10) ∧
      (finalCourseId ((ApiCall.startSession (.dbUser (mkUser 5 "instructor")) .undefined
        (.hex 10) 1000).apply exampleDb) exampleSection10 .undefined).truthy = true) ∧
    ((startSession ((ApiCall.startSession (.dbUser (mkUser 5 "instructor")) .undefined (.hex 10)
        1000).apply exampleDb) (Caller.dbUser (mkUser 5 "instructor")).reqUser .undefined
        (.hex 10) 1001).1.message = some "You already have an ongoing session" ↔
      ∃ s, (getCurrentSession ((ApiCall.startSession (.dbUser (mkUser 5 "instructor"))
        .undefined (.hex 10) 1000).apply exampleDb)
        (Caller.dbUser (mkUser 5 "instructor")).reqUser).session = some s) :=
  ⟨⟨Reachable.call _ _ (Reachable.init exampleDb rfl), by decide, by decide⟩,
   (startSession_check_agrees_with_getCurrentSession _ (.dbUser (mkUser 5 "instructor"))
     (Reachable.call _ _ (Reachable.init exampleDb rfl))).2 .undefined (.hex 10) 1001
     exampleSection10 (by decide) (by decide)⟩

end ClassTrack
